import Mathlib

/-!
# dynamost-telegram-bot: session store, navigation stack and wizard engine

A shallow embedding of `internal/session/store.go`, `internal/models/models.go`
and the navigation / wizard part of `internal/telegram/bot.go`.

Conventions of the embedding:

* a Go `map[string]string` is a finite map (`GoMap`); where the program only reads a map
  (`len`, indexing, `range`), as it does with the parameters of a navigation entry, a nil
  map and an empty map are identified; the field map of a wizard state is also written by
  index assignment, which panics on a nil map, so it is an `Option GoMap` with `none` for
  nil;
* a Go slice is a `List`; a nil slice and an empty slice are both `[]`, except where the
  program tests a slice against nil (`persistedSession.Nav`), which is an `Option`;
* a `[]byte` holding JSON is a `Bytes` value: empty, text that is not JSON, or the JSON
  document it spells (`Json`); `encoding/json` is modelled on documents;
* `int64` and `int` values are `Int`; the JSON decoder checks the 64-bit range;
* the admin_sessions table behind `service.SessionService` is the map `Bot.rows`; database
  failures are outside the model, except in `Store.Load`, whose core `Store.loadFrom` takes
  the answer of `sessions.Get` as an argument;
* every call that leaves the process (chat transport, session store, domain services) is
  appended to `Bot.log`.
-/

namespace Dynamost

/-! ## Go values -/

/-- Go `error`: `none` is nil, `some msg` an error with text `msg`. -/
abbrev GoError := Option String

/-- Go `map[string]string`. -/
abbrev GoMap := Finmap (fun _ : String => String)

/-- Indexing `m[k]`: the zero value `""` when the key is missing. -/
def mapGet (m : GoMap) (k : String) : String := (m.lookup k).getD ""

/-- The builtin `len(m)`. -/
def mapLen (m : GoMap) : Nat := m.keys.card

/-- Index assignment `m[k] = v`. -/
def mapSet (m : GoMap) (k v : String) : GoMap := m.insert k v

/-- Go string order (byte-wise, which for UTF-8 is code point order). -/
def keyLE (a b : String) : Prop := a.data ≤ b.data

instance keyLE.decidable : DecidableRel keyLE :=
  fun a b => inferInstanceAs (Decidable (a.data ≤ b.data))

instance keyLE.total : IsTotal String keyLE := ⟨fun a b => le_total a.data b.data⟩

instance keyLE.trans : IsTrans String keyLE := ⟨fun _ _ _ h1 h2 => le_trans h1 h2⟩

instance keyLE.antisymm : IsAntisymm String keyLE :=
  ⟨fun a b h1 h2 => by
    have h : a.data = b.data := le_antisymm h1 h2
    cases a; cases b; simp_all⟩

/-- The keys of a map in increasing order, the order in which `json.Marshal` writes them. -/
def sortedKeys (m : GoMap) : List String :=
  Quot.liftOn m.keys.val (fun l => l.insertionSort keyLE) (fun a b h =>
    List.eq_of_perm_of_sorted
      (((List.perm_insertionSort keyLE a).trans h).trans (List.perm_insertionSort keyLE b).symm)
      (List.sorted_insertionSort keyLE a) (List.sorted_insertionSort keyLE b))

/-- The 64-bit range of Go `int` and `int64`. -/
def isInt64 (n : Int) : Prop := -9223372036854775808 ≤ n ∧ n ≤ 9223372036854775807

instance isInt64.decidable (n : Int) : Decidable (isInt64 n) :=
  inferInstanceAs (Decidable (_ ∧ _))

/-! ## models.go -/

/-- One frame of the navigation stack (`models.NavigationEntry`). -/
structure NavigationEntry where
  Action : String
  Params : GoMap
  deriving DecidableEq

/-- The alias `navEntry` of bot.go. -/
abbrev navEntry := NavigationEntry

/-- The zero value `navEntry{}`. -/
def NavigationEntry.zero : NavigationEntry := ⟨"", ∅⟩

/-! ## JSON documents -/

/-- A JSON document. `num` is an integer literal, `frac` a number literal with a fraction or
an exponent (kept as its text). Object members are in document order. -/
inductive Json where
  | null : Json
  | bool (b : Bool) : Json
  | num (n : Int) : Json
  | frac (lit : String) : Json
  | str (s : String) : Json
  | arr (items : List Json) : Json
  | obj (members : List (String × Json)) : Json

/-- A byte slice that is handed to or produced by `encoding/json`. -/
inductive Bytes where
  | empty : Bytes
  | invalid (raw : String) : Bytes
  | doc (j : Json) : Bytes

/-- The test `len(bytes) > 0`. -/
def Bytes.nonEmpty : Bytes → Bool
  | .empty => false
  | _ => true

/-- One session row (`models.AdminSession`, without the timestamp). -/
structure AdminSession where
  AdminID : Int
  CurrentFlow : Option String
  FlowState : Bytes

/-- The wizard state of bot.go (`wizardState`); `Data` is `none` for a nil map and `some m`
for an allocated map with the entries `m`. -/
structure WizardState where
  Flow : String
  Step : Int
  Data : Option GoMap
  deriving DecidableEq

/-- The zero value `wizardState{}`, whose map is nil. -/
def WizardState.zero : WizardState := ⟨"", 0, none⟩

/-- The envelope of store.go (`persistedSession`): `Wizard` is a `json.RawMessage`
(`Bytes.empty` when nil), `Nav` is nil (`none`) or a slice. -/
structure persistedSession where
  Wizard : Bytes
  Nav : Option (List NavigationEntry)

/-! ### json.Marshal -/

/-- Marshalling of a `map[string]string`: an object with the keys in increasing order. -/
def marshalMap (m : GoMap) : Json :=
  .obj ((sortedKeys m).map fun k => (k, Json.str (mapGet m k)))

/-- Marshalling of a `NavigationEntry`; `params` has `omitempty`. -/
def marshalNavigationEntry (e : NavigationEntry) : Json :=
  .obj (("action", Json.str e.Action) ::
    (if mapLen e.Params = 0 then [] else [("params", marshalMap e.Params)]))

/-- Marshalling of a `wizardState`; a nil map is written as null. -/
def marshalWizardState (w : WizardState) : Json :=
  .obj [("flow", Json.str w.Flow), ("step", Json.num w.Step),
    ("data", match w.Data with
      | none => Json.null
      | some m => marshalMap m)]

/-- Marshalling of a `persistedSession`; both fields have `omitempty`. A raw message that is
not valid JSON makes `json.Marshal` fail. -/
def marshalPersistedSession (env : persistedSession) : Bytes × GoError :=
  let navPart : List (String × Json) :=
    match env.Nav with
    | none => []
    | some [] => []
    | some (e :: es) => [("nav", Json.arr ((e :: es).map marshalNavigationEntry))]
  match env.Wizard with
  | .empty => (.doc (.obj navPart), none)
  | .invalid _ => (.empty, some "json: error calling MarshalJSON for type json.RawMessage")
  | .doc w => (.doc (.obj (("wizard", w) :: navPart)), none)

/-! ### json.Unmarshal

A decoder takes the current value of its target and gives the new value together with a
flag that is false when some value had the wrong JSON type: `encoding/json` records the
first such error, goes on decoding and returns the error at the end. -/

/-- Case folding of a rune as far as it concerns names made of ASCII letters: ASCII lower
case, the long s (U+017F) and the Kelvin sign (U+212A) fold onto ASCII capitals. -/
def foldRune (c : Char) : Char :=
  if c.toNat = 0x17F then 'S'
  else if c.toNat = 0x212A then 'K'
  else c.toUpper

/-- Struct fields are matched by exact name or, failing that, by folded name. -/
def fieldIs (name key : String) : Bool :=
  decide (key = name) || decide (key.data.map foldRune = name.data.map foldRune)

/-- Decoding into a `string`. -/
def decodeString (cur : String) : Json → String × Bool
  | .str s => (s, true)
  | .null => (cur, true)
  | _ => (cur, false)

/-- Decoding into an `int`. -/
def decodeInt (cur : Int) : Json → Int × Bool
  | .num n => if isInt64 n then (n, true) else (cur, false)
  | .null => (cur, true)
  | _ => (cur, false)

/-- Decoding of one object member into a `map[string]string`: the element starts from the
zero value and is stored under the key whatever happened. -/
def decodeMapMember (acc : GoMap × Bool) (kv : String × Json) : GoMap × Bool :=
  match kv.2 with
  | .str s => (mapSet acc.1 kv.1 s, acc.2)
  | .null => (mapSet acc.1 kv.1 "", acc.2)
  | _ => (mapSet acc.1 kv.1 "", false)

/-- Decoding into a `map[string]string` that the program only reads (the parameters of a
navigation entry): an object adds its members to the map, null sets the map to nil, which
reads like the empty map. -/
def decodeMap (cur : GoMap) : Json → GoMap × Bool
  | .obj ms => ms.foldl decodeMapMember (cur, true)
  | .null => (∅, true)
  | _ => (cur, false)

/-- Decoding into a `map[string]string` that may be nil (`none`): an object allocates the
map when it is nil and adds its members, null sets the map to nil. -/
def decodeNilableMap (cur : Option GoMap) : Json → Option GoMap × Bool
  | .obj ms => (some (ms.foldl decodeMapMember (cur.getD ∅, true)).1,
      (ms.foldl decodeMapMember (cur.getD ∅, true)).2)
  | .null => (none, true)
  | _ => (cur, false)

/-- Decoding of one object member into a `NavigationEntry`. -/
def decodeEntryMember (acc : NavigationEntry × Bool) (kv : String × Json) :
    NavigationEntry × Bool :=
  if fieldIs "action" kv.1 then
    let r := decodeString acc.1.Action kv.2
    ({ acc.1 with Action := r.1 }, acc.2 && r.2)
  else if fieldIs "params" kv.1 then
    let r := decodeMap acc.1.Params kv.2
    ({ acc.1 with Params := r.1 }, acc.2 && r.2)
  else acc

/-- Decoding into a `NavigationEntry`. -/
def decodeNavigationEntry (cur : NavigationEntry) : Json → NavigationEntry × Bool
  | .obj ms => ms.foldl decodeEntryMember (cur, true)
  | .null => (cur, true)
  | _ => (cur, false)

/-- Decoding of the items of an array into a slice: item `i` is decoded into element `i` of
the slice when there is one, into a zero element otherwise. -/
def decodeEntries : List NavigationEntry → List Json → List NavigationEntry × Bool
  | _, [] => ([], true)
  | old, j :: js =>
    let r := decodeNavigationEntry (old.headD NavigationEntry.zero) j
    let rest := decodeEntries old.tail js
    (r.1 :: rest.1, r.2 && rest.2)

/-- Decoding into a `[]NavigationEntry`. -/
def decodeNav (cur : Option (List NavigationEntry)) :
    Json → Option (List NavigationEntry) × Bool
  | .arr items =>
    let r := decodeEntries (cur.getD []) items
    (some r.1, r.2)
  | .null => (none, true)
  | _ => (cur, false)

/-- Decoding of one object member into a `wizardState`. -/
def decodeWizardMember (acc : WizardState × Bool) (kv : String × Json) : WizardState × Bool :=
  if fieldIs "flow" kv.1 then
    let r := decodeString acc.1.Flow kv.2
    ({ acc.1 with Flow := r.1 }, acc.2 && r.2)
  else if fieldIs "step" kv.1 then
    let r := decodeInt acc.1.Step kv.2
    ({ acc.1 with Step := r.1 }, acc.2 && r.2)
  else if fieldIs "data" kv.1 then
    let r := decodeNilableMap acc.1.Data kv.2
    ({ acc.1 with Data := r.1 }, acc.2 && r.2)
  else acc

/-- Decoding into a `wizardState`. -/
def decodeWizardState (cur : WizardState) : Json → WizardState × Bool
  | .obj ms => ms.foldl decodeWizardMember (cur, true)
  | .null => (cur, true)
  | _ => (cur, false)

/-- Decoding of one object member into a `persistedSession`: a raw message takes the member
value as it is, null included. -/
def decodeEnvelopeMember (acc : persistedSession × Bool) (kv : String × Json) :
    persistedSession × Bool :=
  if fieldIs "wizard" kv.1 then ({ acc.1 with Wizard := .doc kv.2 }, acc.2)
  else if fieldIs "nav" kv.1 then
    let r := decodeNav acc.1.Nav kv.2
    ({ acc.1 with Nav := r.1 }, acc.2 && r.2)
  else acc

/-- Decoding into a `persistedSession`. -/
def decodePersistedSession (cur : persistedSession) : Json → persistedSession × Bool
  | .obj ms => ms.foldl decodeEnvelopeMember (cur, true)
  | .null => (cur, true)
  | _ => (cur, false)

/-- The call `json.Unmarshal(data, &target)` for a decoder `dec` of the target type. -/
def unmarshal {α : Type} (dec : α → Json → α × Bool) (data : Bytes) (cur : α) : α × GoError :=
  match data with
  | .empty => (cur, some "unexpected end of JSON input")
  | .invalid _ => (cur, some "invalid character looking for beginning of value")
  | .doc j =>
    let r := dec cur j
    (r.1, if r.2 then none else some "json: cannot unmarshal value into Go value")

/-! ## Domain layer (models.go, service.go): the values handed to the services -/

/-- A point in time by its calendar fields in the bot location `b.loc`. -/
structure Time where
  year : Int
  month : Int
  day : Int
  hour : Int
  minute : Int
  second : Int
  deriving DecidableEq

/-- The zero `time.Time`. -/
def Time.zero : Time := ⟨1, 1, 1, 0, 0, 0⟩

/-- Tri-state patch field `models.OptionalString`. -/
structure OptionalString where
  Set : Bool
  Value : Option String
  deriving DecidableEq

/-- Tri-state patch field `models.OptionalInt`. -/
structure OptionalInt where
  Set : Bool
  Value : Option Int
  deriving DecidableEq

/-- Tri-state patch field `models.OptionalTime`. -/
structure OptionalTime where
  Set : Bool
  Value : Option Time
  deriving DecidableEq

/-- The constructor `models.NewOptionalString`. -/
def NewOptionalString (v : Option String) : OptionalString := ⟨true, v⟩

/-- The constructor `models.NewOptionalInt`. -/
def NewOptionalInt (v : Option Int) : OptionalInt := ⟨true, v⟩

/-- The constructor `models.NewOptionalTime`. -/
def NewOptionalTime (v : Option Time) : OptionalTime := ⟨true, v⟩

/-- The input of `Teams.Create`. -/
structure CreateTeamInput where
  Name : String
  ShortCode : String
  Active : Bool
  Note : Option String
  deriving DecidableEq

/-- The patch of `Teams.Update`. -/
structure TeamPatch where
  Name : Option String := none
  ShortCode : Option String := none
  Active : Option Bool := none
  Note : OptionalString := ⟨false, none⟩
  deriving DecidableEq

/-- The input of `Players.Create`. -/
structure CreatePlayerInput where
  FullName : String
  Birth : Option Time
  Position : Option String
  Active : Bool
  Note : Option String
  deriving DecidableEq

/-- The patch of `Players.Update`. -/
structure PlayerPatch where
  FullName : Option String := none
  BirthDate : OptionalTime := ⟨false, none⟩
  Position : OptionalString := ⟨false, none⟩
  Active : Option Bool := none
  Note : OptionalString := ⟨false, none⟩
  deriving DecidableEq

/-- The input of `Tournaments.Create`. -/
structure CreateTournamentInput where
  Name : String
  Typ : Option String
  Status : String
  StartDate : Option Time
  EndDate : Option Time
  Note : Option String
  deriving DecidableEq

/-- The patch of `Tournaments.Update`. -/
structure TournamentPatch where
  Name : Option String := none
  Typ : OptionalString := ⟨false, none⟩
  Status : Option String := none
  StartDate : OptionalTime := ⟨false, none⟩
  EndDate : OptionalTime := ⟨false, none⟩
  Note : OptionalString := ⟨false, none⟩
  deriving DecidableEq

/-- The input of `Matches.Create`. -/
structure CreateMatchInput where
  TournamentID : Int
  TeamID : Int
  Opponent : String
  StartTime : Time
  Location : Option String
  Status : String
  deriving DecidableEq

/-- The patch of `Matches.Update` (`models.MatchPatch`). -/
structure MatchPatch where
  StartTime : OptionalTime := ⟨false, none⟩
  Location : OptionalString := ⟨false, none⟩
  Status : Option String := none
  ScoreHT : OptionalString := ⟨false, none⟩
  ScoreFT : OptionalString := ⟨false, none⟩
  ScoreET : OptionalString := ⟨false, none⟩
  ScorePEN : OptionalString := ⟨false, none⟩
  ScoreFinalUs : OptionalInt := ⟨false, none⟩
  ScoreFinalThem : OptionalInt := ⟨false, none⟩
  OpponentName : Option String := none
  deriving DecidableEq

/-- The patch of `Lineup.Update` (`models.LineupPatch`). -/
structure LineupPatch where
  Role : Option String := none
  NumberOverride : OptionalInt := ⟨false, none⟩
  Note : OptionalString := ⟨false, none⟩
  deriving DecidableEq

/-- The fields of `models.Team` that the bot reads when it starts a wizard. -/
structure Team where
  ID : Int
  Name : String
  Note : Option String

/-- The fields of `models.Player` that the bot reads when it starts a wizard. -/
structure Player where
  FullName : String
  BirthDate : Option Time
  Position : Option String
  Active : Bool
  Note : Option String

/-- The fields of `models.Tournament` that the bot reads when it starts a wizard. -/
structure Tournament where
  Name : String
  Typ : Option String
  Status : String
  StartDate : Option Time
  EndDate : Option Time
  Note : Option String

/-- The fields of `models.Match` that the bot reads in its handlers. -/
structure Match where
  TournamentID : Int
  TeamID : Int
  StartTime : Time

/-- A call of a domain service made by the dispatcher or by a wizard. -/
inductive DomainCall where
  | tournamentsGet (id : Int)
  | tournamentsCreate (input : CreateTournamentInput)
  | tournamentsUpdate (id : Int) (patch : TournamentPatch)
  | teamsGet (id : Int)
  | teamsCreate (input : CreateTeamInput)
  | teamsUpdate (id : Int) (patch : TeamPatch)
  | playersGet (id : Int)
  | playersCreate (input : CreatePlayerInput)
  | playersUpdate (id : Int) (patch : PlayerPatch)
  | rostersAddPlayer (tournamentID teamID playerID : Int) (number : Option Int)
  | rostersUpdateNumber (tournamentID teamID playerID : Int) (number : Option Int)
  | rostersRemovePlayer (tournamentID teamID playerID : Int)
  | matchesGet (id : Int)
  | matchesCreate (input : CreateMatchInput)
  | matchesUpdate (id : Int) (patch : MatchPatch)
  | lineupUpdate (matchID playerID : Int) (patch : LineupPatch)
  | eventsAddGoal (matchID playerID : Int) (timeText : String)
  | eventsAddCard (matchID playerID : Int) (cardType timeText : String)
  | eventsAddSub (matchID outID inID : Int) (timeText : String)
  deriving DecidableEq

/-- The renderers and direct actions of bot.go. They read the domain services and write to
the chat; none of them touches the session store or the navigation map, so each is recorded
as one entry of the log. -/
inductive Screen where
  | sendTournamentList (chatID page : Int)
  | showTournament (chatID messageID id : Int)
  | sendTeams (chatID : Int)
  | showTeam (chatID teamID : Int)
  | sendPlayersPage (chatID page : Int)
  | showPlayer (chatID playerID page : Int)
  | sendRosterTournaments (chatID : Int)
  | sendRosterTeams (chatID tournamentID : Int)
  | showRoster (chatID tournamentID teamID : Int)
  | sendRosterAddPlayerList (chatID tournamentID teamID page : Int)
  | sendGamesTournaments (chatID : Int)
  | sendGamesTeams (chatID tournamentID : Int)
  | sendGamesMatches (chatID tournamentID teamID : Int)
  | showMatch (chatID matchID : Int)
  | renderMatch (chatID matchID : Int)
  | sendLineupMenu (chatID matchID : Int)
  | sendLineupAddList (chatID matchID page : Int)
  | addPlayerToLineup (chatID matchID playerID : Int)
  | removePlayerFromLineup (chatID matchID playerID : Int)
  | toggleLineupRole (chatID matchID playerID : Int)
  | sendEventsMenu (chatID matchID : Int)
  | sendEventsGoalPlayerList (chatID matchID : Int)
  | sendEventsCardPlayerList (chatID matchID : Int)
  | sendEventsCardTypeMenu (chatID matchID playerID : Int)
  | sendEventSubOutList (chatID matchID : Int)
  | sendEventSubInList (chatID matchID outPlayerID : Int)
  | setMatchStatus (chatID matchID : Int) (statusText : String)
  | resetMatchScores (chatID matchID : Int)
  deriving DecidableEq

/-- One call that leaves the process, or the run-time panic that ends it. -/
inductive Effect where
  | send (chatID : Int) (text : String)
  | reply (chatID messageID : Int) (text : String)
  | answer (callbackID text : String)
  | sessionGet (adminID : Int)
  | sessionSave (row : AdminSession)
  | sessionDelete (adminID : Int)
  | domain (call : DomainCall)
  | screen (s : Screen)
  | panic (text : String)

/-- The surroundings of the bot: the standard library functions it calls on text and dates
and the answers of the domain services, each of which may depend on everything that
happened before (the log). -/
structure Env where
  /-- The function `strings.ToLower`. -/
  toLower : String → String
  /-- The function `strings.EqualFold`. -/
  equalFold : String → String → Bool
  /-- The call `time.ParseInLocation("2006-01-02", s, b.loc)`: the date or the parse error;
  `time.Parse` with the same layout fails on the same texts with the same error. -/
  parseDate : String → Except String Time
  /-- The call `time.Parse("15:04", s)`. -/
  parseClock : String → Except String Time
  /-- The call `time.ParseInLocation("2006-01-02 15:04", s, b.loc)`. -/
  parseDateTime : String → Except String Time
  /-- The call `t.Format("2006-01-02")`. -/
  formatDate : Time → String
  /-- The error returned by a domain call (none: the call succeeds). -/
  callErr : List Effect → DomainCall → GoError
  /-- The tournament returned by a successful `Tournaments.Get`. -/
  tournament : List Effect → Int → Tournament
  /-- The team returned by a successful `Teams.Get`. -/
  team : List Effect → Int → Team
  /-- The player returned by a successful `Players.Get`. -/
  player : List Effect → Int → Player
  /-- The match returned by a successful `Matches.Get`. -/
  matchOf : List Effect → Int → Match
  /-- The error returned by a renderer or direct action. -/
  screenErr : List Effect → Screen → GoError

/-! ## The bot -/

/-- The constant `maxNavDepth` of bot.go. -/
def maxNavDepth : Nat := 10

/-- The state of the process and of its session table: `admins` and `nav` are the fields of
`Bot`, `rows` is the admin_sessions table reached through `svc.Sessions`, `log` lists the
calls made so far, oldest first. -/
structure Bot where
  admins : List Int
  nav : Int → Option (List navEntry)
  rows : Int → Option AdminSession
  log : List Effect

/-- Appends a call to the log. -/
def Bot.emit (b : Bot) (e : Effect) : Bot := { b with log := b.log ++ [e] }

/-- The assignment `b.nav[adminID] = stack`. -/
def Bot.setNav (b : Bot) (adminID : Int) (stack : List navEntry) : Bot :=
  { b with nav := fun k => if k = adminID then some stack else b.nav k }

/-- The statement `delete(b.nav, adminID)`. -/
def Bot.deleteNav (b : Bot) (adminID : Int) : Bot :=
  { b with nav := fun k => if k = adminID then none else b.nav k }

/-- The read `b.nav[adminID]`: nil for a missing key. -/
def Bot.stack (b : Bot) (adminID : Int) : List navEntry := (b.nav adminID).getD []

/-! ### service.go: the session service over the table -/

/-- The method `sessionService.Get`: the row, or nil when there is none. -/
def sessionsGet (b : Bot) (adminID : Int) : Bot × Option AdminSession × GoError :=
  (b.emit (.sessionGet adminID), b.rows adminID, none)

/-- The method `sessionService.Save`: an upsert of the whole row. -/
def sessionsSave (b : Bot) (session : AdminSession) : Bot × GoError :=
  ({ b.emit (.sessionSave session) with
      rows := fun k => if k = session.AdminID then some session else b.rows k }, none)

/-- The method `sessionService.Delete`. -/
def sessionsDelete (b : Bot) (adminID : Int) : Bot × GoError :=
  ({ b.emit (.sessionDelete adminID) with
      rows := fun k => if k = adminID then none else b.rows k }, none)

/-! ### store.go -/

/-- What a call of `Store.Load` leaves behind: the two return values and the values behind
the two output pointers (`none` for a nil pointer). -/
structure LoadResult where
  session : Option AdminSession
  err : GoError
  wizardOut : Option WizardState
  navOut : Option (List NavigationEntry)

/-- The zero value `persistedSession{}`. -/
def persistedSession.zero : persistedSession := ⟨.empty, none⟩

/-- The body of `Store.Load` after the call `s.sessions.Get`, whose two results are
`session` and `err`. -/
def Store.loadFrom (session : Option AdminSession) (err : GoError)
    (wizardOut : Option WizardState) (navOut : Option (List NavigationEntry)) : LoadResult :=
  match err, session with
  | some e, _ => ⟨session, some e, wizardOut, navOut.map fun _ => []⟩
  | none, none => ⟨none, none, wizardOut, navOut.map fun _ => []⟩
  | none, some row =>
    let navNil : Option (List NavigationEntry) := navOut.map fun _ => []
    if row.FlowState.nonEmpty then
      let envelope := unmarshal decodePersistedSession row.FlowState persistedSession.zero
      if envelope.2.isNone ∧ (envelope.1.Wizard.nonEmpty ∨ envelope.1.Nav.isSome) then
        let navCopied : Option (List NavigationEntry) :=
          if 0 < (envelope.1.Nav.getD []).length then navOut.map fun _ => envelope.1.Nav.getD []
          else navNil
        match wizardOut with
        | some w =>
          if envelope.1.Wizard.nonEmpty then
            let r := unmarshal decodeWizardState envelope.1.Wizard w
            match r.2 with
            | some e => ⟨none, some e, some r.1, navNil⟩
            | none => ⟨some row, none, some r.1, navCopied⟩
          else ⟨some row, none, some w, navCopied⟩
        | none => ⟨some row, none, none, navCopied⟩
      else
        match wizardOut with
        | some w =>
          let r := unmarshal decodeWizardState row.FlowState w
          match r.2 with
          | some e => ⟨none, some e, some r.1, navNil⟩
          | none => ⟨some row, none, some r.1, navNil⟩
        | none => ⟨some row, none, none, navNil⟩
    else ⟨some row, none, wizardOut, navNil⟩

/-- The method `Store.Load`. -/
def Store.Load (b : Bot) (adminID : Int) (wizardOut : Option WizardState)
    (navOut : Option (List NavigationEntry)) : Bot × LoadResult :=
  let got := sessionsGet b adminID
  (got.1, Store.loadFrom got.2.1 got.2.2 wizardOut navOut)

/-- The method `Store.Save`; `wizardState` is nil (`none`) or a `*wizardState`, the only
type the bot passes. -/
def Store.Save (b : Bot) (adminID : Int) (flowName : Option String)
    (wizardState : Option WizardState) (nav : List NavigationEntry) : Bot × GoError :=
  let payload : Bytes × GoError :=
    if wizardState.isSome ∨ 0 < nav.length then
      marshalPersistedSession
        { Wizard := match wizardState with
            | some w => .doc (marshalWizardState w)
            | none => .empty
          Nav := if 0 < nav.length then some nav else none }
    else (.empty, none)
  match payload.2 with
  | some e => (b, some e)
  | none => sessionsSave b { AdminID := adminID, CurrentFlow := flowName, FlowState := payload.1 }

/-- The method `Store.Clear`. -/
def Store.Clear (b : Bot) (adminID : Int) : Bot × GoError := sessionsDelete b adminID

/-! ### bot.go: the navigation stack -/

/-- The function `compareParamMaps`: equal lengths, and for every key `k` of `a` with value
`v` the index expression `b[k]` (which is `""` for a missing key) equals `v`. -/
def compareParamMaps (a b : GoMap) : Bool :=
  if mapLen a ≠ mapLen b then false
  else decide (∀ k ∈ a.keys, mapGet b k = mapGet a k)

/-- The method `persistNav`: a save of the stack alone, with nil flow name and nil wizard
state; an error of the save is logged and dropped. -/
def persistNav (b : Bot) (adminID : Int) (stack : List navEntry) : Bot :=
  (Store.Save b adminID none none stack).1

/-- The method `pushNav`. -/
def pushNav (b : Bot) (adminID : Int) (entry : navEntry) : Bot :=
  if entry.Action = "" then b
  else
    let stack := b.stack adminID
    let dup : Bool :=
      match stack.getLast? with
      | some last => decide (last.Action = entry.Action) && compareParamMaps last.Params entry.Params
      | none => false
    if dup then b
    else
      let appended := stack ++ [entry]
      let trimmed := if maxNavDepth < appended.length then appended.drop 1 else appended
      persistNav (b.setNav adminID trimmed) adminID trimmed

/-- The method `popNav`: the new state, the popped entry and the flag. -/
def popNav (b : Bot) (adminID : Int) : Bot × navEntry × Bool :=
  let stack := b.stack adminID
  match stack.getLast? with
  | none => (b, NavigationEntry.zero, false)
  | some entry =>
    let rest := stack.dropLast
    let b1 := if rest.length = 0 then b.deleteNav adminID else b.setNav adminID rest
    (persistNav b1 adminID rest, entry, true)

/-- The method `clearNav`. -/
def clearNav (b : Bot) (adminID : Int) : Bot :=
  let existed := (b.nav adminID).isSome
  let b1 := b.deleteNav adminID
  if existed then persistNav b1 adminID [] else b1

/-- The method `snapshotNav`. -/
def snapshotNav (b : Bot) (adminID : Int) : List NavigationEntry := b.stack adminID

/-- The method `restoreNav`. -/
def restoreNav (b : Bot) (adminID : Int) (entries : List NavigationEntry) : Bot :=
  if entries.length = 0 then b.deleteNav adminID
  else
    let kept :=
      if maxNavDepth < entries.length then entries.drop (entries.length - maxNavDepth)
      else entries
    b.setNav adminID kept

/-- The method `saveSession`. -/
def saveSession (b : Bot) (adminID : Int) (flowName : Option String) (state : WizardState) :
    Bot × GoError :=
  Store.Save b adminID flowName (some state) (snapshotNav b adminID)

/-! ### bot.go: text helpers -/

/-- The predicate `unicode.IsSpace`. -/
def isSpace (c : Char) : Bool :=
  let n := c.toNat
  decide (n = 0x09 ∨ n = 0x0A ∨ n = 0x0B ∨ n = 0x0C ∨ n = 0x0D ∨ n = 0x20 ∨ n = 0x85 ∨
    n = 0xA0 ∨ n = 0x1680 ∨ (0x2000 ≤ n ∧ n ≤ 0x200A) ∨ n = 0x2028 ∨ n = 0x2029 ∨
    n = 0x202F ∨ n = 0x205F ∨ n = 0x3000)

/-- The function `strings.TrimSpace`. -/
def trimSpace (s : String) : String :=
  String.mk ((s.data.dropWhile isSpace).reverse.dropWhile isSpace).reverse

/-- The value of a non-empty run of ASCII digits. -/
def digitsValue : List Char → Option Nat
  | [] => none
  | cs => if cs.all Char.isDigit then some (cs.foldl (fun n c => 10 * n + (c.toNat - 48)) 0)
          else none

/-- The two results of `strconv.Atoi(s)` and `strconv.ParseInt(s, 10, 64)`: the number and
whether the error is nil. A text that is no number gives 0, a number outside the 64-bit
range gives the nearest bound, both with an error. -/
def parseIntRaw (s : String) : Int × Bool :=
  let signed : Bool × List Char :=
    match s.data with
    | '-' :: r => (true, r)
    | '+' :: r => (false, r)
    | cs => (false, cs)
  match digitsValue signed.2 with
  | none => (0, false)
  | some n =>
    let v : Int := if signed.1 then -(n : Int) else (n : Int)
    if isInt64 v then (v, true)
    else if signed.1 then (-9223372036854775808, false)
    else (9223372036854775807, false)

/-- The number of `strconv.Atoi(s)` or `strconv.ParseInt(s, 10, 64)` when the error is nil. -/
def parseInt (s : String) : Option Int :=
  if (parseIntRaw s).2 then some (parseIntRaw s).1 else none

/-- The calls `strconv.Itoa(n)` and `strconv.FormatInt(n, 10)`. -/
def formatInt (n : Int) : String := toString n

/-- The call `strconv.ParseBool(s)`. -/
def parseBool (s : String) : Option Bool :=
  if s = "1" ∨ s = "t" ∨ s = "T" ∨ s = "TRUE" ∨ s = "true" ∨ s = "True" then some true
  else if s = "0" ∨ s = "f" ∨ s = "F" ∨ s = "FALSE" ∨ s = "false" ∨ s = "False" then some false
  else none

/-- The call `strconv.FormatBool(v)`. -/
def formatBool (v : Bool) : String := if v then "true" else "false"

/-- The function `parseInt64`. -/
def parseInt64 (value : String) : Int :=
  if value = "" then 0 else (parseInt value).getD 0

/-- The function `parseOptionalInt`: the number (nil for the empty text) and the error. -/
def parseOptionalInt (value : String) : Option Int × GoError :=
  if value = "" then (none, none)
  else
    match parseInt value with
    | none => (none, some ("strconv.Atoi: parsing " ++ value ++ ": invalid syntax"))
    | some n => (some n, none)

/-- The function `parseIntParam`. -/
def parseIntParam (params : GoMap) (key : String) (dflt : Int) : Int :=
  match params.lookup key with
  | none => dflt
  | some val => if val = "" then dflt else (parseInt val).getD dflt

/-- The function `parseYesNo`: the value and the flag. -/
def parseYesNo (env : Env) (text : String) : Bool × Bool :=
  let t := env.toLower (trimSpace text)
  if t = "да" ∨ t = "yes" ∨ t = "y" ∨ t = "true" ∨ t = "1" then (true, true)
  else if t = "нет" ∨ t = "no" ∨ t = "n" ∨ t = "false" ∨ t = "0" then (false, true)
  else (false, false)

/-- The function `escape`: a backslash before each of the four Markdown characters. -/
def escape (s : String) : String :=
  String.mk (s.data.flatMap fun c =>
    if c = '_' ∨ c = '*' ∨ c.toNat = 96 ∨ c = '[' then [Char.ofNat 92, c] else [c])

/-- Splitting of a text at every occurrence of a separator character (`strings.Split` with a
one-character separator): always at least one part. -/
def splitOnChar (sep : Char) : List Char → List (List Char)
  | [] => [[]]
  | c :: cs =>
    if c = sep then [] :: splitOnChar sep cs
    else
      match splitOnChar sep cs with
      | [] => [[c]]
      | p :: ps => (c :: p) :: ps

/-- The decoded payload of a button (`callbackPayload`). -/
structure callbackPayload where
  Action : String
  Params : GoMap
  deriving DecidableEq

/-- One segment of a payload in `parseCallback`: skipped when empty or without `=`, stored
under the text before the first `=` otherwise. -/
def parseCallbackPart (params : GoMap) (part : List Char) : GoMap :=
  if part = [] then params
  else if '=' ∈ part then
    mapSet params (String.mk (part.takeWhile (fun c => c ≠ '=')))
      (String.mk ((part.dropWhile (fun c => c ≠ '=')).drop 1))
  else params

/-- The function `parseCallback`. -/
def parseCallback (data : String) : Option callbackPayload × GoError :=
  match splitOnChar '|' data.data with
  | [] => (none, some "empty callback")
  | action :: rest =>
    (some { Action := String.mk action, Params := rest.foldl parseCallbackPart ∅ }, none)

/-! ### bot.go: calls that leave the process -/

/-- The method `sendSimple`. -/
def sendSimple (b : Bot) (chatID : Int) (text : String) : Bot := b.emit (.send chatID text)

/-- A call of a domain service: it is logged and its error comes from the surroundings. -/
def callDomain (env : Env) (b : Bot) (c : DomainCall) : Bot × GoError :=
  (b.emit (.domain c), env.callErr b.log c)

/-- A renderer or direct action: it is logged and its error comes from the surroundings. -/
def runScreen (env : Env) (b : Bot) (s : Screen) : Bot × GoError :=
  (b.emit (.screen s), env.screenErr b.log s)

/-- An inbound text message (`tgbotapi.Message`): `From` is the sender id (nil: `none`),
`Command` is `some c` when `IsCommand()` holds and `Command()` is `c`. -/
structure Message where
  From : Option Int
  ChatID : Int
  MessageID : Int
  Text : String
  Command : Option String

/-- An inbound button press (`tgbotapi.CallbackQuery`) with the chat and message ids of the
message that carries the keyboard. -/
structure CallbackQuery where
  From : Option Int
  ID : String
  Data : String
  ChatID : Int
  MessageID : Int

/-- Reading of the wizard field `state.Data[key]`; a nil map reads like an empty one. -/
def WizardState.get (state : WizardState) (key : String) : String :=
  mapGet (state.Data.getD ∅) key

/-- The assignment `state.Data[key] = value`: the state after it, `none` when the map is nil
and the assignment panics. -/
def WizardState.put (state : WizardState) (key value : String) : Option WizardState :=
  match state.Data with
  | none => none
  | some m => some { state with Data := some (mapSet m key value) }

/-- A run-time panic. Nothing in the event path recovers from a panic, so the process ends
there: no further call is made and the handler does not return (the error slot holds the
text of the panic). -/
def goPanic (b : Bot) (text : String) : Bot × GoError :=
  (b.emit (.panic text), some ("panic: " ++ text))

/-- The rest of a case after its assignments to `state.Data`: `assigned` is the state they
leave, `none` when an assignment panicked, which ends the handler before any call of the
case is made. -/
def afterAssign (b : Bot) (assigned : Option WizardState)
    (rest : WizardState → Bot × GoError) : Bot × GoError :=
  match assigned with
  | none => goPanic b "assignment to entry in nil map"
  | some state => rest state

/-- The end of a case that accepts its input and is not the last: `state.Step++`, the prompt
for the next step, and the `saveSession` that follows the switch. -/
def nextStep (b : Bot) (adminID chatID : Int) (state : WizardState) (prompt : String) :
    Bot × GoError :=
  saveSession (sendSimple b chatID prompt) adminID (some state.Flow)
    { state with Step := state.Step + 1 }

/-- A case that sends one message and returns nil. -/
def replyOnly (b : Bot) (chatID : Int) (text : String) : Bot × GoError :=
  (sendSimple b chatID text, none)

/-- The pointer to a text that is set only for a non-empty text. -/
def optText (val : String) : Option String := if val = "" then none else some val

/-- The error of a parse, nil when it succeeds. -/
def parseErr (r : Except String Time) : GoError :=
  match r with
  | .ok _ => none
  | .error e => some e

/-- The time of a parse, the zero time when it fails. -/
def parsedTime (r : Except String Time) : Time :=
  match r with
  | .ok t => t
  | .error _ => Time.zero

/-! ### bot.go: the create_tournament wizard -/

/-- The method `startTournamentWizard`. -/
def startTournamentWizard (b : Bot) (chatID adminID : Int) : Bot × GoError :=
  let state : WizardState := { Flow := "create_tournament", Step := 0, Data := some ∅ }
  let saved := saveSession b adminID (some state.Flow) state
  match saved.2 with
  | some e => (saved.1, some e)
  | none => replyOnly saved.1 chatID "Создание турнира: введите название."

/-- The method `finishTournamentWizard`. -/
def finishTournamentWizard (env : Env) (b : Bot) (state : WizardState) : Bot × GoError :=
  let name := state.get "name"
  if name = "" then (b, some "empty name")
  else
    let status := if state.get "status" = "" then "planned" else state.get "status"
    let start : Option Time :=
      if state.get "start_date" = "" then none
      else some (parsedTime (env.parseDate (state.get "start_date")))
    let finish : Option Time :=
      if state.get "end_date" = "" then none
      else some (parsedTime (env.parseDate (state.get "end_date")))
    callDomain env b (.tournamentsCreate
      { Name := name, Typ := optText (state.get "type"), Status := status,
        StartDate := start, EndDate := finish, Note := optText (state.get "note") })

/-- The method `advanceTournamentWizard`. -/
def advanceTournamentWizard (env : Env) (b : Bot) (msg : Message) (adminID : Int)
    (state : WizardState) : Bot × GoError :=
  let text := trimSpace msg.Text
  let chatID := msg.ChatID
  if state.Step = 0 then
    afterAssign b (state.put "name" text) fun state =>
      nextStep b adminID chatID state "Введите тип турнира (или '-' для пропуска)."
  else if state.Step = 1 then
    afterAssign b (if text ≠ "-" ∧ text ≠ "" then state.put "type" text else some state)
      fun state => nextStep b adminID chatID state "Укажите статус (planned/active/finished)."
  else if state.Step = 2 then
    let text := if text = "" then "planned" else text
    if text = "planned" ∨ text = "active" ∨ text = "finished" then
      afterAssign b (state.put "status" text) fun state =>
        nextStep b adminID chatID state
          "Введите дату начала в формате YYYY-MM-DD или '-' для пропуска."
    else replyOnly b chatID "Неверный статус. Попробуйте ещё раз."
  else if state.Step = 3 then
    if text ≠ "-" ∧ text ≠ "" then
      match parseErr (env.parseDate text) with
      | some _ => replyOnly b chatID "Неверный формат даты. Укажите YYYY-MM-DD."
      | none =>
        afterAssign b (state.put "start_date" text) fun state =>
          nextStep b adminID chatID state
            "Введите дату окончания в формате YYYY-MM-DD или '-' для пропуска."
    else
      nextStep b adminID chatID state
        "Введите дату окончания в формате YYYY-MM-DD или '-' для пропуска."
  else if state.Step = 4 then
    if text ≠ "-" ∧ text ≠ "" then
      match parseErr (env.parseDate text) with
      | some _ => replyOnly b chatID "Неверный формат даты. Укажите YYYY-MM-DD."
      | none =>
        afterAssign b (state.put "end_date" text) fun state =>
          nextStep b adminID chatID state "Введите примечание (или '-' для пропуска)."
    else nextStep b adminID chatID state "Введите примечание (или '-' для пропуска)."
  else if state.Step = 5 then
    afterAssign b (if text ≠ "-" ∧ text ≠ "" then state.put "note" text else some state)
      fun state =>
        let done := finishTournamentWizard env b state
        match done.2 with
        | some e => (done.1, some e)
        | none => Store.Clear (sendSimple done.1 chatID "Турнир создан.") adminID
  else saveSession b adminID (some state.Flow) state

/-! ### bot.go: the edit_tournament wizard -/

/-- The entry `data[key] = value` made only for a set pointer. -/
def putOpt (m : GoMap) (key : String) (value : Option String) : GoMap :=
  match value with
  | some v => mapSet m key v
  | none => m

/-- The method `startTournamentEditWizard`. -/
def startTournamentEditWizard (env : Env) (b : Bot) (chatID adminID tournamentID : Int) :
    Bot × GoError :=
  let got := callDomain env b (.tournamentsGet tournamentID)
  match got.2 with
  | some e => (got.1, some e)
  | none =>
    let tournament := env.tournament b.log tournamentID
    let data0 : GoMap :=
      mapSet (mapSet ∅ "id" (formatInt tournamentID)) "orig_status" tournament.Status
    let data :=
      putOpt (putOpt (putOpt (putOpt data0 "orig_type" tournament.Typ)
        "orig_start" (tournament.StartDate.map env.formatDate))
        "orig_end" (tournament.EndDate.map env.formatDate))
        "orig_note" tournament.Note
    let state : WizardState := { Flow := "edit_tournament", Step := 0, Data := some data }
    let saved := saveSession got.1 adminID (some state.Flow) state
    match saved.2 with
    | some e => (saved.1, some e)
    | none =>
      replyOnly saved.1 chatID ("Текущее название: " ++ escape tournament.Name ++
        "\nВведите новое название (или '-' чтобы оставить).")

/-- A date field of a patch: cleared on the action `delete`, else set from the new text
(whose parse error is returned), else left alone. -/
def patchDate (env : Env) (action new : String) : OptionalTime × GoError :=
  if action = "delete" then (NewOptionalTime none, none)
  else if new ≠ "" then
    match env.parseDate new with
    | .error e => (⟨false, none⟩, some e)
    | .ok t => (NewOptionalTime (some t), none)
  else (⟨false, none⟩, none)

/-- A text field of a patch: cleared on the action `delete`, else set from the new text,
else left alone. -/
def patchText (action new : String) : OptionalString :=
  if action = "delete" then NewOptionalString none
  else if new ≠ "" then NewOptionalString (some new)
  else ⟨false, none⟩

/-- The method `finishTournamentEditWizard`. -/
def finishTournamentEditWizard (env : Env) (b : Bot) (state : WizardState) : Bot × GoError :=
  let tournamentID := parseInt64 (state.get "id")
  let start := patchDate env (state.get "start_action") (state.get "start_new")
  match start.2 with
  | some e => (b, some e)
  | none =>
    let finish := patchDate env (state.get "end_action") (state.get "end_new")
    match finish.2 with
    | some e => (b, some e)
    | none =>
      callDomain env b (.tournamentsUpdate tournamentID
        { Name := optText (state.get "name_new")
          Typ := patchText (state.get "type_action") (state.get "type_new")
          Status := optText (state.get "status_new")
          StartDate := start.1
          EndDate := finish.1
          Note := patchText (state.get "note_action") (state.get "note_new") })

/-- The text shown for a stored original value, `dflt` when it is empty. -/
def shownOr (val dflt : String) : String := if val = "" then dflt else val

/-- The escaped text shown for a stored original value, `dflt` when it is empty. -/
def shownEscapedOr (val dflt : String) : String := if val = "" then dflt else escape val

/-- A step that takes a new text or the word for deletion: the state after the input, when
the text is neither empty nor `-`; `none` when the assignment panics. -/
def putNewOrDelete (env : Env) (state : WizardState) (field text : String) :
    Option WizardState :=
  if env.equalFold text "удалить" = true then state.put (field ++ "_action") "delete"
  else state.put (field ++ "_new") text

/-- The method `advanceTournamentEditWizard`. -/
def advanceTournamentEditWizard (env : Env) (b : Bot) (msg : Message) (adminID : Int)
    (state : WizardState) : Bot × GoError :=
  let text := trimSpace msg.Text
  let chatID := msg.ChatID
  if state.Step = 0 then
    afterAssign b (if text ≠ "" ∧ text ≠ "-" then state.put "name_new" text else some state)
      fun state =>
        nextStep b adminID chatID state
          ("Текущий тип: " ++ shownEscapedOr (state.get "orig_type") "(пусто)" ++
            "\nВведите новый тип (или '-' чтобы оставить, 'удалить' чтобы очистить).")
  else if state.Step = 1 then
    afterAssign b
      (if text ≠ "" ∧ text ≠ "-" then putNewOrDelete env state "type" text else some state)
      fun state =>
        nextStep b adminID chatID state
          ("Текущий статус: " ++ shownOr (state.get "orig_status") "planned" ++
            "\nВведите новый статус (planned/active/finished) или '-' чтобы оставить.")
  else if state.Step = 2 then
    let prompt (st : WizardState) : String :=
      "Текущая дата начала: " ++ shownOr (st.get "orig_start") "(не задана)" ++
        "\nВведите новую дату (YYYY-MM-DD), '-' чтобы оставить, 'удалить' чтобы очистить."
    if text ≠ "" ∧ text ≠ "-" then
      let normalized := env.toLower text
      if normalized = "planned" ∨ normalized = "active" ∨ normalized = "finished" then
        afterAssign b (state.put "status_new" normalized) fun state =>
          nextStep b adminID chatID state (prompt state)
      else
        replyOnly b chatID "Недопустимый статус. Используйте planned/active/finished или '-'."
    else nextStep b adminID chatID state (prompt state)
  else if state.Step = 3 then
    let prompt (st : WizardState) : String :=
      "Текущая дата окончания: " ++ shownOr (st.get "orig_end") "(не задана)" ++
        "\nВведите новую дату (YYYY-MM-DD), '-' чтобы оставить, 'удалить' чтобы очистить."
    if text ≠ "" ∧ text ≠ "-" then
      if env.equalFold text "удалить" = true then
        afterAssign b (state.put "start_action" "delete") fun state =>
          nextStep b adminID chatID state (prompt state)
      else
        match parseErr (env.parseDate text) with
        | some _ =>
          replyOnly b chatID "Неверный формат даты. Используйте YYYY-MM-DD, '-' или 'удалить'."
        | none =>
          afterAssign b (state.put "start_new" text) fun state =>
            nextStep b adminID chatID state (prompt state)
    else nextStep b adminID chatID state (prompt state)
  else if state.Step = 4 then
    let prompt (st : WizardState) : String :=
      "Текущее примечание: " ++ shownEscapedOr (st.get "orig_note") "(пусто)" ++
        "\nВведите новое примечание, '-' чтобы оставить, 'удалить' чтобы очистить."
    if text ≠ "" ∧ text ≠ "-" then
      if env.equalFold text "удалить" = true then
        afterAssign b (state.put "end_action" "delete") fun state =>
          nextStep b adminID chatID state (prompt state)
      else
        match parseErr (env.parseDate text) with
        | some _ =>
          replyOnly b chatID "Неверный формат даты. Используйте YYYY-MM-DD, '-' или 'удалить'."
        | none =>
          afterAssign b (state.put "end_new" text) fun state =>
            nextStep b adminID chatID state (prompt state)
    else nextStep b adminID chatID state (prompt state)
  else if state.Step = 5 then
    afterAssign b
      (if text ≠ "" then
        if env.equalFold text "удалить" = true then state.put "note_action" "delete"
        else if text ≠ "-" then state.put "note_new" text
        else some state
      else some state)
      fun state =>
        let done := finishTournamentEditWizard env b state
        match done.2 with
        | some e => replyOnly done.1 chatID ("Ошибка обновления турнира: " ++ e)
        | none =>
          let b1 := sendSimple done.1 chatID "Турнир обновлён."
          let b2 := (runScreen env b1 (.sendTournamentList chatID 1)).1
          Store.Clear b2 adminID
  else saveSession b adminID (some state.Flow) state

/-! ### bot.go: the create_team and edit_team wizards -/

/-- The method `startTeamWizard`. -/
def startTeamWizard (b : Bot) (chatID adminID : Int) : Bot × GoError :=
  let state : WizardState := { Flow := "create_team", Step := 0, Data := some ∅ }
  let saved := saveSession b adminID (some state.Flow) state
  match saved.2 with
  | some e => (saved.1, some e)
  | none => replyOnly saved.1 chatID "Создание команды: введите название."

/-- The method `finishTeamWizard`. -/
def finishTeamWizard (env : Env) (b : Bot) (state : WizardState) : Bot × GoError :=
  let active : Bool :=
    if state.get "active" ≠ "" then (parseBool (state.get "active")).getD true else true
  callDomain env b (.teamsCreate
    { Name := state.get "name", ShortCode := state.get "short_code", Active := active,
      Note := optText (state.get "note") })

/-- The method `advanceTeamWizard`. -/
def advanceTeamWizard (env : Env) (b : Bot) (msg : Message) (adminID : Int)
    (state : WizardState) : Bot × GoError :=
  let text := trimSpace msg.Text
  let chatID := msg.ChatID
  if state.Step = 0 then
    if text = "" then replyOnly b chatID "Название не может быть пустым. Повторите ввод."
    else
      afterAssign b (state.put "name" text) fun state =>
        nextStep b adminID chatID state "Введите короткий код (например, U12)."
  else if state.Step = 1 then
    if text = "" then replyOnly b chatID "Короткий код не может быть пустым."
    else
      afterAssign b (state.put "short_code" text) fun state =>
        nextStep b adminID chatID state "Команда активна? (да/нет, по умолчанию да)."
  else if state.Step = 2 then
    if text = "" then
      afterAssign b (state.put "active" "true") fun state =>
        nextStep b adminID chatID state "Введите примечание (или '-' для пропуска)."
    else
      let yn := parseYesNo env text
      if yn.2 = false then replyOnly b chatID "Введите 'да' или 'нет'."
      else
        afterAssign b (state.put "active" (formatBool yn.1)) fun state =>
          nextStep b adminID chatID state "Введите примечание (или '-' для пропуска)."
  else if state.Step = 3 then
    afterAssign b (if text ≠ "-" ∧ text ≠ "" then state.put "note" text else some state)
      fun state =>
        let done := finishTeamWizard env b state
        let b1 :=
          match done.2 with
          | some e => sendSimple done.1 chatID ("Не удалось создать команду: " ++ e)
          | none =>
            (runScreen env (sendSimple done.1 chatID "Команда создана.") (.sendTeams chatID)).1
        Store.Clear b1 adminID
  else saveSession b adminID (some state.Flow) state

/-- The method `startTeamEditWizard`. -/
def startTeamEditWizard (env : Env) (b : Bot) (chatID adminID teamID : Int) : Bot × GoError :=
  let got := callDomain env b (.teamsGet teamID)
  match got.2 with
  | some e => (got.1, some e)
  | none =>
    let team := env.team b.log teamID
    let state : WizardState :=
      { Flow := "edit_team", Step := 0
        Data := some (putOpt (mapSet ∅ "id" (formatInt team.ID)) "orig_note" team.Note) }
    let saved := saveSession got.1 adminID (some state.Flow) state
    match saved.2 with
    | some e => (saved.1, some e)
    | none =>
      replyOnly saved.1 chatID ("Текущее название: " ++ escape team.Name ++
        "\nВведите новое название (или '-' чтобы оставить).")

/-- The bool field of a patch read from the stored text: unset for the empty text, the
parse error otherwise when the text is no bool. -/
def patchBool (val : String) : Option Bool × GoError :=
  if val ≠ "" then
    match parseBool val with
    | some v => (some v, none)
    | none => (none, some ("strconv.ParseBool: parsing " ++ val ++ ": invalid syntax"))
  else (none, none)

/-- The method `finishTeamEditWizard`. -/
def finishTeamEditWizard (env : Env) (b : Bot) (state : WizardState) : Bot × GoError :=
  let teamID := parseInt64 (state.get "id")
  let active := patchBool (state.get "active_new")
  match active.2 with
  | some e => (b, some e)
  | none =>
    callDomain env b (.teamsUpdate teamID
      { Name := optText (state.get "name_new")
        ShortCode := optText (state.get "code_new")
        Active := active.1
        Note := patchText (state.get "note_action") (state.get "note_new") })

/-- The method `advanceTeamEditWizard`. -/
def advanceTeamEditWizard (env : Env) (b : Bot) (msg : Message) (adminID : Int)
    (state : WizardState) : Bot × GoError :=
  let text := trimSpace msg.Text
  let chatID := msg.ChatID
  if state.Step = 0 then
    afterAssign b (if text ≠ "" ∧ text ≠ "-" then state.put "name_new" text else some state)
      fun state =>
        nextStep b adminID chatID state "Введите новый короткий код (или '-' чтобы оставить)."
  else if state.Step = 1 then
    afterAssign b (if text ≠ "" ∧ text ≠ "-" then state.put "code_new" text else some state)
      fun state =>
        nextStep b adminID chatID state
          "Команда активна? (да/нет, '-' чтобы оставить текущее значение)."
  else if state.Step = 2 then
    let prompt (st : WizardState) : String :=
      "Текущее примечание: " ++ shownEscapedOr (st.get "orig_note") "(пусто)" ++
        "\nВведите новое примечание, '-' чтобы оставить, 'удалить' чтобы очистить."
    if text ≠ "" ∧ text ≠ "-" then
      let yn := parseYesNo env text
      if yn.2 = false then
        replyOnly b chatID "Введите 'да', 'нет' или '-' чтобы оставить без изменений."
      else
        afterAssign b (state.put "active_new" (formatBool yn.1)) fun state =>
          nextStep b adminID chatID state (prompt state)
    else nextStep b adminID chatID state (prompt state)
  else if state.Step = 3 then
    afterAssign b
      (if text ≠ "" then
        if env.equalFold text "удалить" = true then state.put "note_action" "delete"
        else if text ≠ "-" then state.put "note_new" text
        else some state
      else some state)
      fun state =>
        let done := finishTeamEditWizard env b state
        match done.2 with
        | some e => replyOnly done.1 chatID ("Не удалось обновить команду: " ++ e)
        | none =>
          let b1 := sendSimple done.1 chatID "Команда обновлена."
          let b2 := (runScreen env b1 (.showTeam chatID (parseInt64 (state.get "id")))).1
          Store.Clear b2 adminID
  else saveSession b adminID (some state.Flow) state

/-! ### bot.go: the create_player and edit_player wizards -/

/-- The method `startPlayerWizard`. -/
def startPlayerWizard (b : Bot) (chatID adminID : Int) : Bot × GoError :=
  let state : WizardState := { Flow := "create_player", Step := 0, Data := some ∅ }
  let saved := saveSession b adminID (some state.Flow) state
  match saved.2 with
  | some e => (saved.1, some e)
  | none => replyOnly saved.1 chatID "Создание игрока: укажите ФИО."

/-- The method `finishPlayerWizard`. -/
def finishPlayerWizard (env : Env) (b : Bot) (state : WizardState) : Bot × GoError :=
  let birth : Option Time :=
    if state.get "birth_date" ≠ "" then
      match env.parseDate (state.get "birth_date") with
      | .ok t => some t
      | .error _ => none
    else none
  callDomain env b (.playersCreate
    { FullName := state.get "full_name", Birth := birth,
      Position := optText (state.get "position"), Active := true,
      Note := optText (state.get "note") })

/-- The method `advancePlayerWizard`. -/
def advancePlayerWizard (env : Env) (b : Bot) (msg : Message) (adminID : Int)
    (state : WizardState) : Bot × GoError :=
  let text := trimSpace msg.Text
  let chatID := msg.ChatID
  if state.Step = 0 then
    if text = "" then replyOnly b chatID "ФИО не может быть пустым."
    else
      afterAssign b (state.put "full_name" text) fun state =>
        nextStep b adminID chatID state
          "Введите дату рождения (YYYY-MM-DD) или '-' для пропуска."
  else if state.Step = 1 then
    if text ≠ "-" ∧ text ≠ "" then
      match parseErr (env.parseDate text) with
      | some _ => replyOnly b chatID "Неверный формат даты. Используйте YYYY-MM-DD."
      | none =>
        afterAssign b (state.put "birth_date" text) fun state =>
          nextStep b adminID chatID state "Введите игровую позицию (или '-' для пропуска)."
    else nextStep b adminID chatID state "Введите игровую позицию (или '-' для пропуска)."
  else if state.Step = 2 then
    afterAssign b (if text ≠ "-" ∧ text ≠ "" then state.put "position" text else some state)
      fun state => nextStep b adminID chatID state "Введите примечание (или '-' для пропуска)."
  else if state.Step = 3 then
    afterAssign b (if text ≠ "-" ∧ text ≠ "" then state.put "note" text else some state)
      fun state =>
        let done := finishPlayerWizard env b state
        let b1 :=
          match done.2 with
          | some e => sendSimple done.1 chatID ("Не удалось создать игрока: " ++ e)
          | none =>
            (runScreen env (sendSimple done.1 chatID "Игрок создан.")
              (.sendPlayersPage chatID 1)).1
        Store.Clear b1 adminID
  else saveSession b adminID (some state.Flow) state

/-- The method `startPlayerEditWizard`. -/
def startPlayerEditWizard (env : Env) (b : Bot) (chatID adminID playerID page : Int) :
    Bot × GoError :=
  let got := callDomain env b (.playersGet playerID)
  match got.2 with
  | some e => (got.1, some e)
  | none =>
    let player := env.player b.log playerID
    let data0 : GoMap :=
      mapSet (mapSet ∅ "id" (formatInt playerID)) "return_page" (formatInt page)
    let data1 :=
      putOpt (putOpt (putOpt data0 "orig_birth" (player.BirthDate.map env.formatDate))
        "orig_position" player.Position) "orig_note" player.Note
    let state : WizardState :=
      { Flow := "edit_player", Step := 0
        Data := some (mapSet data1 "orig_active" (formatBool player.Active)) }
    let saved := saveSession got.1 adminID (some state.Flow) state
    match saved.2 with
    | some e => (saved.1, some e)
    | none =>
      replyOnly saved.1 chatID ("Текущее ФИО: " ++ escape player.FullName ++
        "\nВведите новое ФИО (или '-' чтобы оставить).")

/-- The method `finishPlayerEditWizard`. -/
def finishPlayerEditWizard (env : Env) (b : Bot) (state : WizardState) : Bot × GoError :=
  let playerID := parseInt64 (state.get "id")
  let birth := patchDate env (state.get "birth_action") (state.get "birth_new")
  match birth.2 with
  | some e => (b, some e)
  | none =>
    let active := patchBool (state.get "active_new")
    match active.2 with
    | some e => (b, some e)
    | none =>
      callDomain env b (.playersUpdate playerID
        { FullName := optText (state.get "name_new")
          BirthDate := birth.1
          Position := patchText (state.get "position_action") (state.get "position_new")
          Active := active.1
          Note := patchText (state.get "note_action") (state.get "note_new") })

/-- The method `advancePlayerEditWizard`. -/
def advancePlayerEditWizard (env : Env) (b : Bot) (msg : Message) (adminID : Int)
    (state : WizardState) : Bot × GoError :=
  let text := trimSpace msg.Text
  let chatID := msg.ChatID
  if state.Step = 0 then
    afterAssign b (if text ≠ "" ∧ text ≠ "-" then state.put "name_new" text else some state)
      fun state =>
        nextStep b adminID chatID state
          ("Текущая дата рождения: " ++ shownOr (state.get "orig_birth") "(не задана)" ++
            "\nВведите новую дату (YYYY-MM-DD), '-' чтобы оставить, 'удалить' чтобы очистить.")
  else if state.Step = 1 then
    let prompt (st : WizardState) : String :=
      "Текущая позиция: " ++ shownEscapedOr (st.get "orig_position") "(пусто)" ++
        "\nВведите новую позицию, '-' чтобы оставить, 'удалить' чтобы очистить."
    if text ≠ "" ∧ text ≠ "-" then
      if env.equalFold text "удалить" = true then
        afterAssign b (state.put "birth_action" "delete") fun state =>
          nextStep b adminID chatID state (prompt state)
      else
        match parseErr (env.parseDate text) with
        | some _ =>
          replyOnly b chatID "Неверный формат даты. Используйте YYYY-MM-DD, '-' или 'удалить'."
        | none =>
          afterAssign b (state.put "birth_new" text) fun state =>
            nextStep b adminID chatID state (prompt state)
    else nextStep b adminID chatID state (prompt state)
  else if state.Step = 2 then
    afterAssign b
      (if text ≠ "" ∧ text ≠ "-" then putNewOrDelete env state "position" text else some state)
      fun state =>
        nextStep b adminID chatID state
          ("Игрок сейчас " ++
            (if state.get "orig_active" = "false" then "неактивен" else "активен") ++
            ".\nВведите 'да'/'нет' чтобы изменить активность или '-' чтобы оставить.")
  else if state.Step = 3 then
    let prompt (st : WizardState) : String :=
      "Текущее примечание: " ++ shownEscapedOr (st.get "orig_note") "(пусто)" ++
        "\nВведите новое примечание, '-' чтобы оставить, 'удалить' чтобы очистить."
    if text ≠ "" ∧ text ≠ "-" then
      let yn := parseYesNo env text
      if yn.2 = false then
        replyOnly b chatID "Введите 'да', 'нет' или '-' чтобы оставить без изменений."
      else
        afterAssign b (state.put "active_new" (formatBool yn.1)) fun state =>
          nextStep b adminID chatID state (prompt state)
    else nextStep b adminID chatID state (prompt state)
  else if state.Step = 4 then
    afterAssign b
      (if text ≠ "" then
        if env.equalFold text "удалить" = true then state.put "note_action" "delete"
        else if text ≠ "-" then state.put "note_new" text
        else some state
      else some state)
      fun state =>
        let done := finishPlayerEditWizard env b state
        match done.2 with
        | some e => replyOnly done.1 chatID ("Не удалось обновить игрока: " ++ e)
        | none =>
          let b1 := sendSimple done.1 chatID "Игрок обновлён."
          let page := parseInt64 (state.get "return_page")
          let b2 := (runScreen env b1
            (.showPlayer chatID (parseInt64 (state.get "id")) (if page < 1 then 1 else page))).1
          Store.Clear b2 adminID
  else saveSession b adminID (some state.Flow) state

/-! ### bot.go: the roster wizards -/

/-- The method `startRosterAddWizard`. -/
def startRosterAddWizard (b : Bot) (chatID adminID tournamentID teamID playerID : Int) :
    Bot × GoError :=
  let state : WizardState :=
    { Flow := "roster_add_player", Step := 0
      Data := some (mapSet (mapSet (mapSet ∅ "tournament_id" (formatInt tournamentID))
        "team_id" (formatInt teamID)) "player_id" (formatInt playerID)) }
  let saved := saveSession b adminID (some state.Flow) state
  match saved.2 with
  | some e => (saved.1, some e)
  | none => replyOnly saved.1 chatID "Введите номер игрока в турнире (или '-' для пропуска)."

/-- The method `advanceRosterAddWizard`. -/
def advanceRosterAddWizard (env : Env) (b : Bot) (msg : Message) (adminID : Int)
    (state : WizardState) : Bot × GoError :=
  let text := trimSpace msg.Text
  let chatID := msg.ChatID
  if state.Step ≠ 0 then (b, none)
  else
    let number : Option Int × GoError :=
      if text ≠ "-" ∧ text ≠ "" then parseOptionalInt text else (none, none)
    match number.2 with
    | some _ => replyOnly b chatID "Номер должен быть целым числом или '-' для пропуска."
    | none =>
      let tournamentID := parseInt64 (state.get "tournament_id")
      let teamID := parseInt64 (state.get "team_id")
      let playerID := parseInt64 (state.get "player_id")
      let done := callDomain env b (.rostersAddPlayer tournamentID teamID playerID number.1)
      let b1 :=
        match done.2 with
        | some e => sendSimple done.1 chatID ("Не удалось добавить игрока: " ++ e)
        | none =>
          (runScreen env (sendSimple done.1 chatID "Игрок добавлен в заявку.")
            (.showRoster chatID tournamentID teamID)).1
      Store.Clear b1 adminID

/-- The method `startRosterChangeWizard`. -/
def startRosterChangeWizard (b : Bot) (chatID adminID tournamentID teamID playerID : Int) :
    Bot × GoError :=
  let state : WizardState :=
    { Flow := "roster_change_number", Step := 0
      Data := some (mapSet (mapSet (mapSet ∅ "tournament_id" (formatInt tournamentID))
        "team_id" (formatInt teamID)) "player_id" (formatInt playerID)) }
  let saved := saveSession b adminID (some state.Flow) state
  match saved.2 with
  | some e => (saved.1, some e)
  | none => replyOnly saved.1 chatID "Введите новый номер игрока (или '-' для удаления номера)."

/-- The method `advanceRosterChangeWizard`. -/
def advanceRosterChangeWizard (env : Env) (b : Bot) (msg : Message) (adminID : Int)
    (state : WizardState) : Bot × GoError :=
  let text := trimSpace msg.Text
  let chatID := msg.ChatID
  if state.Step ≠ 0 then (b, none)
  else
    let number : Option Int × GoError :=
      if text ≠ "-" ∧ text ≠ "" then parseOptionalInt text else (none, none)
    match number.2 with
    | some _ => replyOnly b chatID "Номер должен быть целым числом или '-' для удаления."
    | none =>
      let tournamentID := parseInt64 (state.get "tournament_id")
      let teamID := parseInt64 (state.get "team_id")
      let playerID := parseInt64 (state.get "player_id")
      let done := callDomain env b (.rostersUpdateNumber tournamentID teamID playerID number.1)
      let b1 :=
        match done.2 with
        | some e => sendSimple done.1 chatID ("Не удалось изменить номер: " ++ e)
        | none =>
          (runScreen env (sendSimple done.1 chatID "Номер обновлён.")
            (.showRoster chatID tournamentID teamID)).1
      Store.Clear b1 adminID

/-! ### bot.go: the match_create wizard -/

/-- The method `startMatchCreateWizard`. -/
def startMatchCreateWizard (b : Bot) (chatID adminID tournamentID teamID : Int) :
    Bot × GoError :=
  let state : WizardState :=
    { Flow := "match_create", Step := 0
      Data := some (mapSet (mapSet ∅ "tournament_id" (formatInt tournamentID))
        "team_id" (formatInt teamID)) }
  let saved := saveSession b adminID (some state.Flow) state
  match saved.2 with
  | some e => (saved.1, some e)
  | none => replyOnly saved.1 chatID "Создание матча: укажите соперника."

/-- The method `finishMatchCreateWizard`. -/
def finishMatchCreateWizard (env : Env) (b : Bot) (state : WizardState) : Bot × GoError :=
  let tournamentID := parseInt64 (state.get "tournament_id")
  let teamID := parseInt64 (state.get "team_id")
  match env.parseDateTime (state.get "date" ++ " " ++ state.get "time") with
  | .error e => (b, some e)
  | .ok start =>
    callDomain env b (.matchesCreate
      { TournamentID := tournamentID, TeamID := teamID, Opponent := state.get "opponent",
        StartTime := start, Location := optText (state.get "location"),
        Status := "scheduled" })

/-- The method `advanceMatchCreateWizard`. -/
def advanceMatchCreateWizard (env : Env) (b : Bot) (msg : Message) (adminID : Int)
    (state : WizardState) : Bot × GoError :=
  let text := trimSpace msg.Text
  let chatID := msg.ChatID
  if state.Step = 0 then
    if text = "" then replyOnly b chatID "Соперник не может быть пустым."
    else
      afterAssign b (state.put "opponent" text) fun state =>
        nextStep b adminID chatID state "Введите дату матча (YYYY-MM-DD)."
  else if state.Step = 1 then
    match parseErr (env.parseDate text) with
    | some _ => replyOnly b chatID "Неверный формат. Используйте YYYY-MM-DD."
    | none =>
      afterAssign b (state.put "date" text) fun state =>
        nextStep b adminID chatID state "Введите время матча (HH:MM)."
  else if state.Step = 2 then
    match parseErr (env.parseClock text) with
    | some _ => replyOnly b chatID "Неверный формат времени. Используйте HH:MM (24 часа)."
    | none =>
      afterAssign b (state.put "time" text) fun state =>
        nextStep b adminID chatID state "Введите место проведения (или '-' для пропуска)."
  else if state.Step = 3 then
    afterAssign b (if text ≠ "-" ∧ text ≠ "" then state.put "location" text else some state)
      fun state =>
        let done := finishMatchCreateWizard env b state
        let b1 :=
          match done.2 with
          | some e => sendSimple done.1 chatID ("Не удалось создать матч: " ++ e)
          | none =>
            (runScreen env (sendSimple done.1 chatID "Матч создан.")
              (.sendGamesMatches chatID (parseInt64 (state.get "tournament_id"))
                (parseInt64 (state.get "team_id")))).1
        Store.Clear b1 adminID
  else saveSession b adminID (some state.Flow) state

/-! ### bot.go: the lineup_number wizard -/

/-- The method `startLineupNumberWizard`. -/
def startLineupNumberWizard (b : Bot) (chatID adminID matchID playerID : Int) : Bot × GoError :=
  let state : WizardState :=
    { Flow := "lineup_number", Step := 0
      Data := some
        (mapSet (mapSet ∅ "match_id" (formatInt matchID)) "player_id" (formatInt playerID)) }
  let saved := saveSession b adminID (some state.Flow) state
  match saved.2 with
  | some e => (saved.1, some e)
  | none => replyOnly saved.1 chatID "Введите номер игрока на матч (или '-' чтобы очистить)."

/-- The end of `advanceLineupNumberWizard`, from the call of `Lineup.Update` on. -/
def applyLineupNumber (env : Env) (b : Bot) (chatID adminID matchID playerID : Int)
    (patch : LineupPatch) : Bot × GoError :=
  let done := callDomain env b (.lineupUpdate matchID playerID patch)
  match done.2 with
  | some e => replyOnly done.1 chatID ("Не удалось обновить номер: " ++ e)
  | none =>
    let b1 := sendSimple done.1 chatID "Номер в составе обновлён."
    Store.Clear (runScreen env b1 (.sendLineupMenu chatID matchID)).1 adminID

/-- The method `advanceLineupNumberWizard`. -/
def advanceLineupNumberWizard (env : Env) (b : Bot) (msg : Message) (adminID : Int)
    (state : WizardState) : Bot × GoError :=
  if state.Step ≠ 0 then (b, none)
  else
    let text := trimSpace msg.Text
    let chatID := msg.ChatID
    let matchID := parseInt64 (state.get "match_id")
    let playerID := parseInt64 (state.get "player_id")
    if text = "-" then
      applyLineupNumber env b chatID adminID matchID playerID
        { NumberOverride := NewOptionalInt none }
    else if text = "" then replyOnly b chatID "Введите номер или '-' для удаления."
    else
      match parseInt text with
      | none => replyOnly b chatID "Номер должен быть целым числом."
      | some num =>
        applyLineupNumber env b chatID adminID matchID playerID
          { NumberOverride := NewOptionalInt (some num) }

/-! ### bot.go: the event wizards -/

/-- The method `startEventGoalWizard`. -/
def startEventGoalWizard (b : Bot) (chatID adminID matchID playerID : Int) : Bot × GoError :=
  let state : WizardState :=
    { Flow := "event_goal", Step := 0
      Data := some
        (mapSet (mapSet ∅ "match_id" (formatInt matchID)) "player_id" (formatInt playerID)) }
  let saved := saveSession b adminID (some state.Flow) state
  match saved.2 with
  | some e => (saved.1, some e)
  | none => replyOnly saved.1 chatID "Введите время гола (например, 45+2)."

/-- The method `advanceEventGoalWizard`. -/
def advanceEventGoalWizard (env : Env) (b : Bot) (msg : Message) (adminID : Int)
    (state : WizardState) : Bot × GoError :=
  if state.Step ≠ 0 then (b, none)
  else
    let text := trimSpace msg.Text
    if text = "" then replyOnly b msg.ChatID "Время события не может быть пустым."
    else
      let matchID := parseInt64 (state.get "match_id")
      let playerID := parseInt64 (state.get "player_id")
      let done := callDomain env b (.eventsAddGoal matchID playerID text)
      match done.2 with
      | some e => replyOnly done.1 msg.ChatID ("Не удалось добавить гол: " ++ e)
      | none =>
        let b1 := sendSimple done.1 msg.ChatID "Гол добавлен."
        Store.Clear (runScreen env b1 (.showMatch msg.ChatID matchID)).1 adminID

/-- The method `startEventCardWizard`. -/
def startEventCardWizard (env : Env) (b : Bot) (chatID adminID matchID playerID : Int)
    (cardType : String) : Bot × GoError :=
  let cardType := env.toLower cardType
  if cardType ≠ "yellow" ∧ cardType ≠ "red" then replyOnly b chatID "Неизвестный тип карточки."
  else
    let state : WizardState :=
      { Flow := "event_card", Step := 0
        Data := some (mapSet (mapSet (mapSet ∅ "match_id" (formatInt matchID))
          "player_id" (formatInt playerID)) "card_type" cardType) }
    let saved := saveSession b adminID (some state.Flow) state
    match saved.2 with
    | some e => (saved.1, some e)
    | none => replyOnly saved.1 chatID "Введите время карточки (например, 12 или 90+3)."

/-- The method `advanceEventCardWizard`. -/
def advanceEventCardWizard (env : Env) (b : Bot) (msg : Message) (adminID : Int)
    (state : WizardState) : Bot × GoError :=
  if state.Step ≠ 0 then (b, none)
  else
    let text := trimSpace msg.Text
    if text = "" then replyOnly b msg.ChatID "Время события не может быть пустым."
    else
      let matchID := parseInt64 (state.get "match_id")
      let playerID := parseInt64 (state.get "player_id")
      let cardType := state.get "card_type"
      if cardType ≠ "yellow" ∧ cardType ≠ "red" then
        replyOnly b msg.ChatID "Неизвестный тип карточки."
      else
        let done := callDomain env b (.eventsAddCard matchID playerID cardType text)
        match done.2 with
        | some e => replyOnly done.1 msg.ChatID ("Не удалось добавить карточку: " ++ e)
        | none =>
          let b1 := sendSimple done.1 msg.ChatID "Карточка добавлена."
          Store.Clear (runScreen env b1 (.showMatch msg.ChatID matchID)).1 adminID

/-- The method `startEventSubWizard`. -/
def startEventSubWizard (b : Bot) (chatID adminID matchID outPlayerID inPlayerID : Int) :
    Bot × GoError :=
  if outPlayerID = inPlayerID then replyOnly b chatID "Игроки замены должны отличаться."
  else
    let state : WizardState :=
      { Flow := "event_sub", Step := 0
        Data := some (mapSet (mapSet (mapSet ∅ "match_id" (formatInt matchID))
          "out_id" (formatInt outPlayerID)) "in_id" (formatInt inPlayerID)) }
    let saved := saveSession b adminID (some state.Flow) state
    match saved.2 with
    | some e => (saved.1, some e)
    | none => replyOnly saved.1 chatID "Введите время замены (например, 60)."

/-- The method `advanceEventSubWizard`. -/
def advanceEventSubWizard (env : Env) (b : Bot) (msg : Message) (adminID : Int)
    (state : WizardState) : Bot × GoError :=
  if state.Step ≠ 0 then (b, none)
  else
    let text := trimSpace msg.Text
    if text = "" then replyOnly b msg.ChatID "Время события не может быть пустым."
    else
      let matchID := parseInt64 (state.get "match_id")
      let outID := parseInt64 (state.get "out_id")
      let inID := parseInt64 (state.get "in_id")
      let done := callDomain env b (.eventsAddSub matchID outID inID text)
      match done.2 with
      | some e => replyOnly done.1 msg.ChatID ("Не удалось добавить замену: " ++ e)
      | none =>
        let b1 := sendSimple done.1 msg.ChatID "Замена добавлена."
        Store.Clear (runScreen env b1 (.showMatch msg.ChatID matchID)).1 adminID

/-! ### bot.go: the match_edit wizard -/

/-- The function `strings.Fields` on characters; `cur` is the field being read, reversed. -/
def fieldsFrom (cur : List Char) : List Char → List (List Char)
  | [] => if cur = [] then [] else [cur.reverse]
  | c :: cs =>
    if isSpace c then
      if cur = [] then fieldsFrom [] cs else cur.reverse :: fieldsFrom [] cs
    else fieldsFrom (c :: cur) cs

/-- The function `strings.Fields`. -/
def fields (s : String) : List String := (fieldsFrom [] s.data).map String.mk

/-- The verb `%q` of fmt for a text that needs no escaping. -/
def quote (s : String) : String := "\"" ++ s ++ "\""

/-- The function `optionalScoreString`. -/
def optionalScoreString (token : String) : Except String OptionalString :=
  if token = "-" then .ok (NewOptionalString none)
  else if ¬ (':' ∈ token.data) then .error ("некорректный формат счёта " ++ quote token)
  else .ok (NewOptionalString (some token))

/-- The function `optionalScoreInt`. -/
def optionalScoreInt (token : String) : Except String OptionalInt :=
  if token = "-" then .ok (NewOptionalInt none)
  else
    match parseInt token with
    | none => .error ("некорректное значение счёта " ++ quote token)
    | some value => .ok (NewOptionalInt (some value))

/-- The method `startMatchEditWizard`. -/
def startMatchEditWizard (b : Bot) (chatID adminID matchID : Int) : Bot × GoError :=
  let state : WizardState :=
    { Flow := "match_edit", Step := 0, Data := some (mapSet ∅ "match_id" (formatInt matchID)) }
  let saved := saveSession b adminID (some state.Flow) state
  match saved.2 with
  | some e => (saved.1, some e)
  | none =>
    replyOnly saved.1 chatID
      "Введите статус (scheduled/played/canceled) или '-' чтобы оставить без изменений."

/-- The part of `finishMatchEditWizard` between `Matches.Get`, which gave `m`, and
`Matches.Update`: the patch, or the error that ends the method. -/
def matchPatchOf (env : Env) (m : Match) (state : WizardState) : Except String MatchPatch := do
  let status := state.get "status"
  let patchStatus : Option String ←
    if status ≠ "" ∧ status ≠ "-" then
      if status ≠ "scheduled" ∧ status ≠ "played" ∧ status ≠ "canceled" then
        Except.error ("неверный статус: " ++ status)
      else Except.ok (some status)
    else Except.ok none
  let dateVal := if state.get "date" = "" then "-" else state.get "date"
  let timeVal := if state.get "time" = "" then "-" else state.get "time"
  let startTime : OptionalTime ←
    if dateVal ≠ "-" ∨ timeVal ≠ "-" then do
      let day : Time ←
        if dateVal ≠ "-" then
          match env.parseDate dateVal with
          | .error e => Except.error ("неверный формат даты: " ++ e)
          | .ok t => Except.ok t
        else Except.ok m.StartTime
      let clock : Time ←
        if timeVal ≠ "-" then
          match env.parseClock timeVal with
          | .error e => Except.error ("неверный формат времени: " ++ e)
          | .ok t => Except.ok t
        else Except.ok m.StartTime
      Except.ok (NewOptionalTime (some ⟨day.year, day.month, day.day, clock.hour, clock.minute, 0⟩))
    else Except.ok ⟨false, none⟩
  let loc := state.get "location"
  let location : OptionalString :=
    if loc ≠ "" then
      if loc = "-" then NewOptionalString none else NewOptionalString (some loc)
    else ⟨false, none⟩
  let base : MatchPatch := { StartTime := startTime, Location := location, Status := patchStatus }
  let scores := state.get "scores"
  if patchStatus = some "canceled" then
    Except.ok { base with
      ScoreHT := NewOptionalString none, ScoreFT := NewOptionalString none
      ScoreET := NewOptionalString none, ScorePEN := NewOptionalString none
      ScoreFinalUs := NewOptionalInt none, ScoreFinalThem := NewOptionalInt none }
  else if scores ≠ "" ∧ scores ≠ "-" then
    match fields scores with
    | [t0, t1, t2, t3, t4, t5] => do
      let ht ← optionalScoreString t0
      let ft ← optionalScoreString t1
      let et ← optionalScoreString t2
      let pen ← optionalScoreString t3
      let us ← optionalScoreInt t4
      let them ← optionalScoreInt t5
      Except.ok { base with
        ScoreHT := ht, ScoreFT := ft, ScoreET := et, ScorePEN := pen
        ScoreFinalUs := us, ScoreFinalThem := them }
    | tokens =>
      Except.error ("ожидалось 6 значений для счётов, получено " ++ toString tokens.length)
  else Except.ok base

/-- The method `finishMatchEditWizard`. -/
def finishMatchEditWizard (env : Env) (b : Bot) (state : WizardState) : Bot × GoError :=
  let matchID := parseInt64 (state.get "match_id")
  let got := callDomain env b (.matchesGet matchID)
  match got.2 with
  | some e => (got.1, some e)
  | none =>
    match matchPatchOf env (env.matchOf b.log matchID) state with
    | .error e => (got.1, some e)
    | .ok patch => callDomain env got.1 (.matchesUpdate matchID patch)

/-- The method `advanceMatchEditWizard`. -/
def advanceMatchEditWizard (env : Env) (b : Bot) (msg : Message) (adminID : Int)
    (state : WizardState) : Bot × GoError :=
  let text := trimSpace msg.Text
  let chatID := msg.ChatID
  if state.Step = 0 then
    if text ≠ "" ∧ text ≠ "-" then
      let normalized := env.toLower text
      if normalized ≠ "scheduled" ∧ normalized ≠ "played" ∧ normalized ≠ "canceled" then
        replyOnly b chatID "Допустимые статусы: scheduled, played, canceled или '-'."
      else
        afterAssign b (state.put "status" normalized) fun state =>
          nextStep b adminID chatID state
            "Введите дату матча (YYYY-MM-DD) или '-' чтобы оставить без изменений."
    else
      nextStep b adminID chatID state
        "Введите дату матча (YYYY-MM-DD) или '-' чтобы оставить без изменений."
  else if state.Step = 1 then
    if text ≠ "" ∧ text ≠ "-" then
      match parseErr (env.parseDate text) with
      | some _ => replyOnly b chatID "Неверный формат даты. Используйте YYYY-MM-DD или '-'."
      | none =>
        afterAssign b (state.put "date" text) fun state =>
          nextStep b adminID chatID state
            "Введите время матча (HH:MM) или '-' чтобы оставить без изменений."
    else
      nextStep b adminID chatID state
        "Введите время матча (HH:MM) или '-' чтобы оставить без изменений."
  else if state.Step = 2 then
    if text ≠ "" ∧ text ≠ "-" then
      match parseErr (env.parseClock text) with
      | some _ => replyOnly b chatID "Неверный формат времени. Используйте HH:MM или '-'."
      | none =>
        afterAssign b (state.put "time" text) fun state =>
          nextStep b adminID chatID state
            "Введите место проведения или '-' чтобы очистить (оставьте пустым для без изменений)."
    else
      nextStep b adminID chatID state
        "Введите место проведения или '-' чтобы очистить (оставьте пустым для без изменений)."
  else if state.Step = 3 then
    afterAssign b (if text ≠ "" then state.put "location" text else some state) fun state =>
      nextStep b adminID chatID state
        ("Введите счёты через пробел: HT FT ET PEN FINAL_US FINAL_THEM. Используйте '-' для " ++
          "каждого значения или '-' целиком чтобы пропустить.")
  else if state.Step = 4 then
    afterAssign b (if text ≠ "" then state.put "scores" text else some state) fun state =>
      let done := finishMatchEditWizard env b state
      match done.2 with
      | some e =>
        replyOnly done.1 chatID ("Не удалось обновить матч: " ++ e ++ ". Повторите ввод счётов.")
      | none =>
        let b1 := sendSimple done.1 chatID "Матч обновлён."
        Store.Clear (runScreen env b1 (.showMatch chatID (parseInt64 (state.get "match_id")))).1
          adminID
  else saveSession b adminID (some state.Flow) state

/-! ### bot.go: the wizard engine -/

/-- The method `advanceWizard`. -/
def advanceWizard (env : Env) (b : Bot) (msg : Message) (adminID : Int) (state : WizardState) :
    Bot × GoError :=
  if state.Flow = "create_tournament" then advanceTournamentWizard env b msg adminID state
  else if state.Flow = "edit_tournament" then advanceTournamentEditWizard env b msg adminID state
  else if state.Flow = "create_team" then advanceTeamWizard env b msg adminID state
  else if state.Flow = "edit_team" then advanceTeamEditWizard env b msg adminID state
  else if state.Flow = "create_player" then advancePlayerWizard env b msg adminID state
  else if state.Flow = "edit_player" then advancePlayerEditWizard env b msg adminID state
  else if state.Flow = "roster_add_player" then advanceRosterAddWizard env b msg adminID state
  else if state.Flow = "roster_change_number" then
    advanceRosterChangeWizard env b msg adminID state
  else if state.Flow = "match_create" then advanceMatchCreateWizard env b msg adminID state
  else if state.Flow = "match_edit" then advanceMatchEditWizard env b msg adminID state
  else if state.Flow = "lineup_number" then advanceLineupNumberWizard env b msg adminID state
  else if state.Flow = "event_goal" then advanceEventGoalWizard env b msg adminID state
  else if state.Flow = "event_card" then advanceEventCardWizard env b msg adminID state
  else if state.Flow = "event_sub" then advanceEventSubWizard env b msg adminID state
  else (b, none)

/-! ### bot.go: the update dispatcher -/

/-- The method `isAdmin`. -/
def isAdmin (b : Bot) (id : Int) : Bool := decide (id ∈ b.admins)

/-- The method `handleNavEntry`. -/
def handleNavEntry (env : Env) (b : Bot) (chatID : Int) (entry : navEntry) : Bot × GoError :=
  if entry.Action = "tournaments_page" then
    runScreen env b (.sendTournamentList chatID (parseIntParam entry.Params "page" 1))
  else if entry.Action = "teams_menu" then runScreen env b (.sendTeams chatID)
  else if entry.Action = "players_menu" then
    runScreen env b (.sendPlayersPage chatID (parseIntParam entry.Params "page" 1))
  else if entry.Action = "games_open_team" then
    runScreen env b (.sendGamesMatches chatID (parseInt64 (mapGet entry.Params "t"))
      (parseInt64 (mapGet entry.Params "team")))
  else if entry.Action = "games_open_tournament" then
    runScreen env b (.sendGamesTeams chatID (parseInt64 (mapGet entry.Params "id")))
  else if entry.Action = "roster_open_tournament" then
    runScreen env b (.sendRosterTeams chatID (parseInt64 (mapGet entry.Params "id")))
  else replyOnly b chatID "Вернуться не удалось."

/-- The command branch of `handleMessage`, after `clearNav`. -/
def runCommand (env : Env) (b : Bot) (chatID : Int) (command : String) : Bot × GoError :=
  if command = "start" then
    replyOnly b chatID
      "Доступные разделы: /tournaments, /teams, /players, /tournament_rosters, /games."
  else if command = "tournaments" then runScreen env b (.sendTournamentList chatID 1)
  else if command = "teams" then runScreen env b (.sendTeams chatID)
  else if command = "players" then runScreen env b (.sendPlayersPage chatID 1)
  else if command = "tournament_rosters" then runScreen env b (.sendRosterTournaments chatID)
  else if command = "games" then runScreen env b (.sendGamesTournaments chatID)
  else replyOnly b chatID "Неизвестная команда."

/-- The method `handleMessage`. -/
def handleMessage (env : Env) (b : Bot) (msg : Message) : Bot × GoError :=
  match msg.From with
  | none => (b, none)
  | some adminID =>
    if isAdmin b adminID = false then
      (b.emit (.reply msg.ChatID msg.MessageID "У вас нет прав. Обратитесь к директору клуба."),
        none)
    else
      match msg.Command with
      | some command => runCommand env (clearNav b adminID) msg.ChatID command
      | none =>
        let loaded := Store.Load b adminID (some WizardState.zero) (some [])
        match loaded.2.err with
        | some e => (loaded.1, some e)
        | none =>
          let b1 := restoreNav loaded.1 adminID (loaded.2.navOut.getD [])
          let sessionState := loaded.2.wizardOut.getD WizardState.zero
          if loaded.2.session.isNone ∨ sessionState.Flow = "" then (b1, none)
          else advanceWizard env b1 msg adminID sessionState

/-- The page of a payload read with `strconv.Atoi` and raised to 1 when it is smaller. -/
def pageAtLeastOne (raw : String) : Int :=
  if (parseIntRaw raw).1 < 1 then 1 else (parseIntRaw raw).1

/-- A navigation entry with one parameter. -/
def entry1 (action key value : String) : navEntry :=
  { Action := action, Params := mapSet ∅ key value }

/-- The answer to the button press that ends `handleCallback` after its switch. -/
def answerEmpty (b : Bot) (cb : CallbackQuery) : Bot × GoError :=
  (b.emit (.answer cb.ID ""), none)

/-- The cases of the switch of `handleCallback` that open a screen or act at once, without
a wizard and without the navigation stack; `none` for any other action. -/
def directScreen (chatID : Int) (action : String) (p : GoMap) : Option Screen :=
  if action = "tournaments_page" then
    some (.sendTournamentList chatID (pageAtLeastOne (mapGet p "page")))
  else if action = "teams_menu" then some (.sendTeams chatID)
  else if action = "players_page" then
    some (.sendPlayersPage chatID (pageAtLeastOne (mapGet p "page")))
  else if action = "players_menu" then
    some (.sendPlayersPage chatID
      (if parseInt64 (mapGet p "page") < 1 then 1 else parseInt64 (mapGet p "page")))
  else if action = "roster_open_tournament" then
    some (.sendRosterTeams chatID (parseInt64 (mapGet p "id")))
  else if action = "roster_add_player" then
    some (.sendRosterAddPlayerList chatID (parseInt64 (mapGet p "t"))
      (parseInt64 (mapGet p "team")) (pageAtLeastOne (mapGet p "page")))
  else if action = "games_open_tournament" then
    some (.sendGamesTeams chatID (parseInt64 (mapGet p "id")))
  else if action = "match_lineup_menu" then
    some (.sendLineupMenu chatID (parseInt64 (mapGet p "match")))
  else if action = "match_lineup_add" then
    some (.sendLineupAddList chatID (parseInt64 (mapGet p "match"))
      (pageAtLeastOne (mapGet p "page")))
  else if action = "match_lineup_add_pick" then
    some (.addPlayerToLineup chatID (parseInt64 (mapGet p "match"))
      (parseInt64 (mapGet p "player")))
  else if action = "match_lineup_remove" then
    some (.removePlayerFromLineup chatID (parseInt64 (mapGet p "match"))
      (parseInt64 (mapGet p "player")))
  else if action = "match_lineup_role_toggle" then
    some (.toggleLineupRole chatID (parseInt64 (mapGet p "match"))
      (parseInt64 (mapGet p "player")))
  else if action = "match_events_menu" then
    some (.sendEventsMenu chatID (parseInt64 (mapGet p "match")))
  else if action = "match_events_add_goal" then
    some (.sendEventsGoalPlayerList chatID (parseInt64 (mapGet p "match")))
  else if action = "match_events_add_card" then
    some (.sendEventsCardPlayerList chatID (parseInt64 (mapGet p "match")))
  else if action = "match_events_card_pick" then
    some (.sendEventsCardTypeMenu chatID (parseInt64 (mapGet p "match"))
      (parseInt64 (mapGet p "player")))
  else if action = "match_events_add_sub" then
    some (.sendEventSubOutList chatID (parseInt64 (mapGet p "match")))
  else if action = "match_events_sub_pick_out" then
    some (.sendEventSubInList chatID (parseInt64 (mapGet p "match"))
      (parseInt64 (mapGet p "player")))
  else if action = "match_status_set" then
    some (.setMatchStatus chatID (parseInt64 (mapGet p "id")) (mapGet p "status"))
  else if action = "match_scores_reset" then
    some (.resetMatchScores chatID (parseInt64 (mapGet p "id")))
  else none

/-- The cases of the switch of `handleCallback` that start a wizard; `none` for any other
action. -/
def wizardStart (env : Env) (b : Bot) (chatID adminID : Int) (action : String) (p : GoMap) :
    Option (Bot × GoError) :=
  if action = "tournaments_start_create" then some (startTournamentWizard b chatID adminID)
  else if action = "tournament_edit" then
    some (startTournamentEditWizard env b chatID adminID (parseInt64 (mapGet p "id")))
  else if action = "teams_start_create" then some (startTeamWizard b chatID adminID)
  else if action = "team_edit" then
    some (startTeamEditWizard env b chatID adminID (parseInt64 (mapGet p "id")))
  else if action = "players_start_create" then some (startPlayerWizard b chatID adminID)
  else if action = "player_edit" then
    some (startPlayerEditWizard env b chatID adminID (parseInt64 (mapGet p "id"))
      (parseInt64 (mapGet p "page")))
  else if action = "roster_add_pick" then
    some (startRosterAddWizard b chatID adminID (parseInt64 (mapGet p "t"))
      (parseInt64 (mapGet p "team")) (parseInt64 (mapGet p "player")))
  else if action = "roster_change_number" then
    some (startRosterChangeWizard b chatID adminID (parseInt64 (mapGet p "t"))
      (parseInt64 (mapGet p "team")) (parseInt64 (mapGet p "player")))
  else if action = "match_start_create" then
    some (startMatchCreateWizard b chatID adminID (parseInt64 (mapGet p "t"))
      (parseInt64 (mapGet p "team")))
  else if action = "match_edit" then
    some (startMatchEditWizard b chatID adminID (parseInt64 (mapGet p "id")))
  else if action = "match_lineup_number" then
    some (startLineupNumberWizard b chatID adminID (parseInt64 (mapGet p "match"))
      (parseInt64 (mapGet p "player")))
  else if action = "match_events_goal_pick" then
    some (startEventGoalWizard b chatID adminID (parseInt64 (mapGet p "match"))
      (parseInt64 (mapGet p "player")))
  else if action = "match_events_card_type" then
    some (startEventCardWizard env b chatID adminID (parseInt64 (mapGet p "match"))
      (parseInt64 (mapGet p "player")) (mapGet p "type"))
  else if action = "match_events_sub_pick_in" then
    some (startEventSubWizard b chatID adminID (parseInt64 (mapGet p "match"))
      (parseInt64 (mapGet p "out")) (parseInt64 (mapGet p "player")))
  else none

/-- The switch of `handleCallback` and what follows it, for a decoded payload. -/
def dispatchCallback (env : Env) (b : Bot) (cb : CallbackQuery) (adminID : Int)
    (action : String) (p : GoMap) : Bot × GoError :=
  let chatID := cb.ChatID
  if action = "open_tournament" then
    let page := parseIntParam p "page" 1
    let b1 := pushNav b adminID (entry1 "tournaments_page" "page" (formatInt page))
    let shown := runScreen env b1
      (.showTournament chatID cb.MessageID (parseIntRaw (mapGet p "id")).1)
    match shown.2 with
    | some e => (shown.1, some e)
    | none => answerEmpty shown.1 cb
  else if action = "team_open" then
    runScreen env (pushNav b adminID { Action := "teams_menu", Params := ∅ })
      (.showTeam chatID (parseInt64 (mapGet p "id")))
  else if action = "player_open" then
    let page := parseIntParam p "page" 1
    runScreen env (pushNav b adminID (entry1 "players_menu" "page" (formatInt page)))
      (.showPlayer chatID (parseInt64 (mapGet p "id")) page)
  else if action = "roster_open_team" then
    let tournamentID := parseInt64 (mapGet p "t")
    runScreen env
      (pushNav b adminID (entry1 "roster_open_tournament" "id" (formatInt tournamentID)))
      (.showRoster chatID tournamentID (parseInt64 (mapGet p "team")))
  else if action = "roster_remove_player" then
    let tournamentID := parseInt64 (mapGet p "t")
    let teamID := parseInt64 (mapGet p "team")
    let done := callDomain env b
      (.rostersRemovePlayer tournamentID teamID (parseInt64 (mapGet p "player")))
    let b1 :=
      match done.2 with
      | some e => sendSimple done.1 chatID ("Не удалось удалить игрока: " ++ e)
      | none => sendSimple done.1 chatID "Игрок удалён из заявки."
    runScreen env b1 (.showRoster chatID tournamentID teamID)
  else if action = "games_open_team" then
    let tournamentID := parseInt64 (mapGet p "t")
    runScreen env
      (pushNav b adminID (entry1 "games_open_tournament" "id" (formatInt tournamentID)))
      (.sendGamesMatches chatID tournamentID (parseInt64 (mapGet p "team")))
  else if action = "open_match" then
    let matchID := parseInt64 (mapGet p "id")
    let got := callDomain env b (.matchesGet matchID)
    match got.2 with
    | some e => (got.1, some e)
    | none =>
      let m := env.matchOf b.log matchID
      runScreen env
        (pushNav got.1 adminID
          { Action := "games_open_team"
            Params := mapSet (mapSet ∅ "t" (formatInt m.TournamentID))
              "team" (formatInt m.TeamID) })
        (.renderMatch chatID matchID)
  else if action = "nav_back" then
    let popped := popNav b adminID
    if popped.2.2 = false then replyOnly popped.1 chatID "История экранов пуста."
    else handleNavEntry env popped.1 chatID popped.2.1
  else
    match wizardStart env b chatID adminID action p with
    | some r => r
    | none =>
      match directScreen chatID action p with
      | some screen => runScreen env b screen
      | none => answerEmpty (b.emit (.answer cb.ID "Функция в разработке")) cb

/-- The method `handleCallback`. -/
def handleCallback (env : Env) (b : Bot) (cb : CallbackQuery) : Bot × GoError :=
  match cb.From with
  | none => (b, none)
  | some adminID =>
    if isAdmin b adminID = false then (b.emit (.answer cb.ID "Недостаточно прав"), none)
    else
      match parseCallback cb.Data with
      | (some payload, none) => dispatchCallback env b cb adminID payload.Action payload.Params
      | _ => (b.emit (.answer cb.ID "Некорректная кнопка"), none)

/-- An inbound update (`tgbotapi.Update`): a message, a button press, or neither. -/
inductive Update where
  | message (msg : Message)
  | callback (cb : CallbackQuery)
  | other

/-- The method `handleUpdate`. -/
def handleUpdate (env : Env) (b : Bot) (update : Update) : Bot × GoError :=
  match update with
  | .message msg => handleMessage env b msg
  | .callback cb => handleCallback env b cb
  | .other => (b, none)

/-! ### service.go: `matchesService.Update` -/

/-- The patch that `matchesService.Update` hands to `repo.Update`: for the status canceled
the six score fields are overwritten with set-to-null. -/
def matchesService.Update (patch : MatchPatch) : MatchPatch :=
  if patch.Status = some "canceled" then
    { patch with
      ScoreHT := NewOptionalString none, ScoreFT := NewOptionalString none
      ScoreET := NewOptionalString none, ScorePEN := NewOptionalString none
      ScoreFinalUs := NewOptionalInt none, ScoreFinalThem := NewOptionalInt none }
  else patch

/-! ### bot.go: the page bounds of `sendTournamentList` -/

/-- Arithmetic on Go `int` wraps around in 64 bits. -/
def wrapInt (n : Int) : Int := (n + 9223372036854775808) % 18446744073709551616 - 9223372036854775808

/-- The constant `perPage` of bot.go. -/
def perPage : Int := 20

/-- The slice bounds `start` and `end` that `sendTournamentList` computes for a page and a
list of `len` tournaments before it evaluates `tournaments[start:end]`. -/
def tournamentListBounds (page : Int) (len : Nat) : Int × Int :=
  let start0 := wrapInt (wrapInt (page - 1) * perPage)
  let start := if start0 ≥ (len : Int) then 0 else start0
  let end0 := wrapInt (start + perPage)
  let end1 := if end0 > (len : Int) then (len : Int) else end0
  (start, end1)

/-! ## Vocabulary of the properties -/

/-- Pushes the entries one after the other, the first entry first. -/
def pushAll (b : Bot) (adminID : Int) (es : List navEntry) : Bot :=
  es.foldl (fun acc e => pushNav acc adminID e) b

/-- Pops `n` times and lists what each pop returned, the first pop first. -/
def popTimes (b : Bot) (adminID : Int) : Nat → Bot × List (navEntry × Bool)
  | 0 => (b, [])
  | n + 1 =>
    let r := popNav b adminID
    let rest := popTimes r.1 adminID n
    (rest.1, (r.2.1, r.2.2) :: rest.2)

/-- The texts sent to chats, oldest first. -/
def sentTexts : List Effect → List String
  | [] => []
  | .send _ text :: rest => text :: sentTexts rest
  | .reply _ _ text :: rest => text :: sentTexts rest
  | _ :: rest => sentTexts rest

/-- The domain calls made, oldest first. -/
def domainCalls : List Effect → List DomainCall
  | [] => []
  | .domain c :: rest => c :: domainCalls rest
  | _ :: rest => domainCalls rest

/-- The number of session store writes (saves and deletes). -/
def storeWrites : List Effect → Nat
  | [] => 0
  | .sessionSave _ :: rest => storeWrites rest + 1
  | .sessionDelete _ :: rest => storeWrites rest + 1
  | _ :: rest => storeWrites rest

/-- The flow name stored for an admin: `none` without a row, `some none` for a row whose
flow column is null. -/
def storedFlow (b : Bot) (adminID : Int) : Option (Option String) :=
  (b.rows adminID).map fun row => row.CurrentFlow

/-- The wizard state that `handleMessage` reads for an admin from the session store. -/
def storedWizard (b : Bot) (adminID : Int) : Option WizardState :=
  (Store.Load b adminID (some WizardState.zero) (some [])).2.wizardOut

/-- The navigation entries that `handleMessage` reads for an admin from the session store. -/
def storedNav (b : Bot) (adminID : Int) : List NavigationEntry :=
  ((Store.Load b adminID (some WizardState.zero) (some [])).2.navOut).getD []

/-- The index of the last step of each flow (0 for a name that is no flow). -/
def lastStep (flow : String) : Int :=
  if flow = "create_tournament" ∨ flow = "edit_tournament" then 5
  else if flow = "edit_player" ∨ flow = "match_edit" then 4
  else if flow = "create_team" ∨ flow = "edit_team" ∨ flow = "create_player" ∨
    flow = "match_create" then 3
  else 0

/-- The validation of a date that may also be skipped with `-` or cleared with the word for
deletion. -/
def badEditDate (env : Env) (t : String) : Prop :=
  t ≠ "" ∧ t ≠ "-" ∧ env.equalFold t "удалить" = false ∧ (parseErr (env.parseDate t)).isSome

instance badEditDate.decidable (env : Env) (t : String) : Decidable (badEditDate env t) :=
  inferInstanceAs (Decidable (_ ∧ _))

/-- Invalid answers in the create_tournament wizard. -/
def invalidCreateTournament (env : Env) (step : Int) (t : String) : Prop :=
  (step = 2 ∧ t ≠ "" ∧ t ≠ "planned" ∧ t ≠ "active" ∧ t ≠ "finished") ∨
  ((step = 3 ∨ step = 4) ∧ t ≠ "-" ∧ t ≠ "" ∧ (parseErr (env.parseDate t)).isSome)

instance invalidCreateTournament.decidable (env : Env) (step : Int) (t : String) :
    Decidable (invalidCreateTournament env step t) :=
  inferInstanceAs (Decidable (_ ∨ _))

/-- Invalid answers in the edit_tournament wizard. -/
def invalidEditTournament (env : Env) (step : Int) (t : String) : Prop :=
  (step = 2 ∧ t ≠ "" ∧ t ≠ "-" ∧ env.toLower t ≠ "planned" ∧ env.toLower t ≠ "active" ∧
    env.toLower t ≠ "finished") ∨
  ((step = 3 ∨ step = 4) ∧ badEditDate env t)

instance invalidEditTournament.decidable (env : Env) (step : Int) (t : String) :
    Decidable (invalidEditTournament env step t) :=
  inferInstanceAs (Decidable (_ ∨ _))

/-- Invalid answers in the create_team wizard. -/
def invalidCreateTeam (env : Env) (step : Int) (t : String) : Prop :=
  ((step = 0 ∨ step = 1) ∧ t = "") ∨ (step = 2 ∧ t ≠ "" ∧ (parseYesNo env t).2 = false)

instance invalidCreateTeam.decidable (env : Env) (step : Int) (t : String) :
    Decidable (invalidCreateTeam env step t) :=
  inferInstanceAs (Decidable (_ ∨ _))

/-- Invalid answers in the edit_team wizard. -/
def invalidEditTeam (env : Env) (step : Int) (t : String) : Prop :=
  step = 2 ∧ t ≠ "" ∧ t ≠ "-" ∧ (parseYesNo env t).2 = false

instance invalidEditTeam.decidable (env : Env) (step : Int) (t : String) :
    Decidable (invalidEditTeam env step t) :=
  inferInstanceAs (Decidable (_ ∧ _))

/-- Invalid answers in the create_player wizard. -/
def invalidCreatePlayer (env : Env) (step : Int) (t : String) : Prop :=
  (step = 0 ∧ t = "") ∨ (step = 1 ∧ t ≠ "-" ∧ t ≠ "" ∧ (parseErr (env.parseDate t)).isSome)

instance invalidCreatePlayer.decidable (env : Env) (step : Int) (t : String) :
    Decidable (invalidCreatePlayer env step t) :=
  inferInstanceAs (Decidable (_ ∨ _))

/-- Invalid answers in the edit_player wizard. -/
def invalidEditPlayer (env : Env) (step : Int) (t : String) : Prop :=
  (step = 1 ∧ badEditDate env t) ∨
  (step = 3 ∧ t ≠ "" ∧ t ≠ "-" ∧ (parseYesNo env t).2 = false)

instance invalidEditPlayer.decidable (env : Env) (step : Int) (t : String) :
    Decidable (invalidEditPlayer env step t) :=
  inferInstanceAs (Decidable (_ ∨ _))

/-- Invalid answers in the two roster wizards. -/
def invalidRosterNumber (step : Int) (t : String) : Prop :=
  step = 0 ∧ t ≠ "-" ∧ t ≠ "" ∧ (parseInt t).isNone

instance invalidRosterNumber.decidable (step : Int) (t : String) :
    Decidable (invalidRosterNumber step t) :=
  inferInstanceAs (Decidable (_ ∧ _))

/-- Invalid answers in the match_create wizard. -/
def invalidMatchCreate (env : Env) (step : Int) (t : String) : Prop :=
  (step = 0 ∧ t = "") ∨ (step = 1 ∧ (parseErr (env.parseDate t)).isSome) ∨
  (step = 2 ∧ (parseErr (env.parseClock t)).isSome)

instance invalidMatchCreate.decidable (env : Env) (step : Int) (t : String) :
    Decidable (invalidMatchCreate env step t) :=
  inferInstanceAs (Decidable (_ ∨ _))

/-- A token of the scores text that a text field accepts: a dash or a text with a colon. -/
def scoreTextOK (t : String) : Prop := t = "-" ∨ ':' ∈ t.data

instance (t : String) : Decidable (scoreTextOK t) := inferInstanceAs (Decidable (_ ∨ _))

/-- A token of the scores text that a number field accepts: a dash or a decimal integer
(a text that `strconv.Atoi` parses). -/
def scoreIntOK (t : String) : Prop := t = "-" ∨ (parseInt t).isSome

instance (t : String) : Decidable (scoreIntOK t) := inferInstanceAs (Decidable (_ ∨ _))

/-- The scores text splits on whitespace into exactly six tokens, the first four accepted by
a text field and the last two by a number field. -/
def scoresWellFormed (scores : String) : Prop :=
  (fields scores).length = 6 ∧ (∀ t ∈ (fields scores).take 4, scoreTextOK t) ∧
    ∀ t ∈ (fields scores).drop 4, scoreIntOK t

instance (scores : String) : Decidable (scoresWellFormed scores) :=
  inferInstanceAs (Decidable (_ ∧ _))

/-- Invalid answers in the steps of the match_edit wizard that come before the last. -/
def invalidMatchEdit (env : Env) (step : Int) (t : String) : Prop :=
  (step = 0 ∧ t ≠ "" ∧ t ≠ "-" ∧ env.toLower t ≠ "scheduled" ∧ env.toLower t ≠ "played" ∧
    env.toLower t ≠ "canceled") ∨
  (step = 1 ∧ t ≠ "" ∧ t ≠ "-" ∧ (parseErr (env.parseDate t)).isSome) ∨
  (step = 2 ∧ t ≠ "" ∧ t ≠ "-" ∧ (parseErr (env.parseClock t)).isSome)

instance invalidMatchEdit.decidable (env : Env) (step : Int) (t : String) :
    Decidable (invalidMatchEdit env step t) :=
  inferInstanceAs (Decidable (_ ∨ _))

/-- Invalid answers in the lineup_number wizard. -/
def invalidLineupNumber (step : Int) (t : String) : Prop :=
  step = 0 ∧ t ≠ "-" ∧ (t = "" ∨ (parseInt t).isNone)

instance invalidLineupNumber.decidable (step : Int) (t : String) :
    Decidable (invalidLineupNumber step t) :=
  inferInstanceAs (Decidable (_ ∧ _))

/-- Invalid answers in the three event wizards. -/
def invalidEventTime (step : Int) (t : String) : Prop := step = 0 ∧ t = ""

instance invalidEventTime.decidable (step : Int) (t : String) :
    Decidable (invalidEventTime step t) :=
  inferInstanceAs (Decidable (_ ∧ _))

/-- The answers that a step handler tests itself, before it stores anything or calls the
domain layer: whether the trimmed text `t` is an invalid answer to step `step` of `flow`. -/
def stepInvalid (env : Env) (flow : String) (step : Int) (t : String) : Prop :=
  (flow = "create_tournament" ∧ invalidCreateTournament env step t) ∨
  (flow = "edit_tournament" ∧ invalidEditTournament env step t) ∨
  (flow = "create_team" ∧ invalidCreateTeam env step t) ∨
  (flow = "edit_team" ∧ invalidEditTeam env step t) ∨
  (flow = "create_player" ∧ invalidCreatePlayer env step t) ∨
  (flow = "edit_player" ∧ invalidEditPlayer env step t) ∨
  ((flow = "roster_add_player" ∨ flow = "roster_change_number") ∧ invalidRosterNumber step t) ∨
  (flow = "match_create" ∧ invalidMatchCreate env step t) ∨
  (flow = "match_edit" ∧ invalidMatchEdit env step t) ∨
  (flow = "lineup_number" ∧ invalidLineupNumber step t) ∨
  ((flow = "event_goal" ∨ flow = "event_card" ∨ flow = "event_sub") ∧ invalidEventTime step t)

instance stepInvalid.decidable (env : Env) (flow : String) (step : Int) (t : String) :
    Decidable (stepInvalid env flow step t) :=
  inferInstanceAs (Decidable (_ ∨ _))

/-- The scores of a state are invalid, as `finishMatchEditWizard` finds out after the call
`Matches.Get`: the status is not canceled and the scores are neither empty nor a dash nor
six well-formed tokens. An assignment that panicked (`none`) left no state to check. -/
def invalidScoresOf : Option WizardState → Prop
  | none => False
  | some st =>
    st.get "status" ≠ "canceled" ∧ st.get "scores" ≠ "" ∧ st.get "scores" ≠ "-" ∧
      ¬ scoresWellFormed (st.get "scores")

instance invalidScoresOf.decidable : (o : Option WizardState) → Decidable (invalidScoresOf o)
  | none => isFalse fun h => h
  | some _ => inferInstanceAs (Decidable (_ ∧ _))

/-- An invalid answer to the last step of match_edit (step 4): the step stores a non-empty
text `t` as the scores, and the scores of the state are then invalid. -/
def invalidScores (state : WizardState) (t : String) : Prop :=
  state.Step = 4 ∧ invalidScoresOf (if t ≠ "" then state.put "scores" t else some state)

instance invalidScores.decidable (state : WizardState) (t : String) :
    Decidable (invalidScores state t) :=
  inferInstanceAs (Decidable (_ ∧ _))

/-- The step handler of a state rejects the trimmed text `t` as invalid: by its own test
before anything is stored, or, at the last step of match_edit, by the check of the scores
inside `finishMatchEditWizard`. -/
def inputInvalid (env : Env) (state : WizardState) (t : String) : Prop :=
  stepInvalid env state.Flow state.Step t ∨
    (state.Flow = "match_edit" ∧ invalidScores state t)

instance inputInvalid.decidable (env : Env) (state : WizardState) (t : String) :
    Decidable (inputInvalid env state t) :=
  inferInstanceAs (Decidable (_ ∨ _))

/-- The admins whose session row was deleted (`Sessions.Clear`), oldest call first. -/
def storeClears : List Effect → List Int
  | [] => []
  | .sessionDelete adminID :: rest => adminID :: storeClears rest
  | _ :: rest => storeClears rest

/-- The state after an admin has sent the texts one after the other as free-text messages
in a chat. -/
def replies (env : Env) (b : Bot) (adminID chatID : Int) (texts : List String) : Bot :=
  texts.foldl (fun acc t => (handleMessage env acc ⟨some adminID, chatID, 0, t, none⟩).1) b

/-- The session store holds a wizard state for the admin: `Store.Load`, called as
`handleMessage` calls it, returns a row, no error and the state. -/
def wizardStored (b : Bot) (adminID : Int) (w : WizardState) : Prop :=
  (Store.Load b adminID (some WizardState.zero) (some [])).2.err = none ∧
  (Store.Load b adminID (some WizardState.zero) (some [])).2.session.isSome = true ∧
  (Store.Load b adminID (some WizardState.zero) (some [])).2.wizardOut = some w

/-- The texts of the answers to button presses, oldest first. -/
def answerTexts : List Effect → List String
  | [] => []
  | .answer _ text :: rest => text :: answerTexts rest
  | _ :: rest => answerTexts rest

/-- The payload text `a|k_1=v_1|...|k_n=v_n` of an action and a list of pairs. -/
def payloadText (a : String) (pairs : List (String × String)) : String :=
  String.mk (a.data ++ pairs.flatMap fun kv => '|' :: (kv.1.data ++ '=' :: kv.2.data))

/-- One operation on the navigation map. -/
inductive NavOp where
  | push (adminID : Int) (entry : navEntry)
  | pop (adminID : Int)
  | clear (adminID : Int)
  | restore (adminID : Int) (entries : List NavigationEntry)

/-- The admin an operation is issued for. -/
def NavOp.admin : NavOp → Int
  | .push a _ => a
  | .pop a => a
  | .clear a => a
  | .restore a _ => a

/-- The state after one operation. -/
def applyNavOp (b : Bot) : NavOp → Bot
  | .push a e => pushNav b a e
  | .pop a => (popNav b a).1
  | .clear a => clearNav b a
  | .restore a es => restoreNav b a es

/-- The state after a sequence of operations, the first operation first. -/
def applyNavOps (b : Bot) (ops : List NavOp) : Bot := ops.foldl applyNavOp b

/-- The actions that `handleNavEntry` has a case for. -/
def handledActions : List String :=
  ["tournaments_page", "teams_menu", "players_menu", "games_open_team", "games_open_tournament",
    "roster_open_tournament"]

/-- A handler result adds to the stacks only entries that `handleNavEntry` has a case for:
every entry on a stack afterwards was on that stack before or has a handled action. -/
def keepsHandled (b : Bot) (r : Bot × GoError) : Prop :=
  ∀ k, ∀ e ∈ r.1.stack k, e ∈ b.stack k ∨ e.Action ∈ handledActions

/-- The renderers and direct actions called, oldest first. -/
def screens : List Effect → List Screen
  | [] => []
  | .screen s :: rest => s :: screens rest
  | _ :: rest => screens rest

/-- The names of the flows that `advanceWizard` dispatches. -/
def wizardFlows : List String :=
  ["create_tournament", "edit_tournament", "create_team", "edit_team", "create_player",
    "edit_player", "roster_add_player", "roster_change_number", "match_create", "match_edit",
    "lineup_number", "event_goal", "event_card", "event_sub"]

/-- The text field a token asks for: set to null for a dash, set to the token otherwise. -/
def scoreTextField (t : String) : OptionalString :=
  if t = "-" then ⟨true, none⟩ else ⟨true, some t⟩

/-- The number field a token asks for: set to null for a dash, set to its number otherwise. -/
def scoreIntField (t : String) : OptionalInt :=
  if t = "-" then ⟨true, none⟩ else ⟨true, parseInt t⟩

/-- The domain calls a handler added to those already made in `b`. -/
def newCalls (b : Bot) (r : Bot × GoError) : List DomainCall :=
  (domainCalls r.1.log).drop (domainCalls b.log).length

/-! ## Sample values, for evaluating the definitions -/

/-- Lower case of ASCII and of the basic Cyrillic letters. -/
def sampleLower (c : Char) : Char :=
  if 0x410 ≤ c.toNat ∧ c.toNat ≤ 0x42F then Char.ofNat (c.toNat + 0x20)
  else if 0x400 ≤ c.toNat ∧ c.toNat ≤ 0x40F then Char.ofNat (c.toNat + 0x50)
  else c.toLower

/-- A date of the form YYYY-MM-DD with a month up to 12 and a day up to 31. -/
def sampleDate (s : String) : Except String Time :=
  match s.data with
  | [y1, y2, y3, y4, '-', m1, m2, '-', d1, d2] =>
    match digitsValue [y1, y2, y3, y4], digitsValue [m1, m2], digitsValue [d1, d2] with
    | some y, some m, some d =>
      if 1 ≤ m ∧ m ≤ 12 ∧ 1 ≤ d ∧ d ≤ 31 then .ok ⟨y, m, d, 0, 0, 0⟩
      else .error "parsing time: value out of range"
    | _, _, _ => .error "parsing time: cannot parse"
  | _ => .error "parsing time: cannot parse"

/-- A time of day of the form HH:MM. -/
def sampleClock (s : String) : Except String Time :=
  match s.data with
  | [h1, h2, ':', m1, m2] =>
    match digitsValue [h1, h2], digitsValue [m1, m2] with
    | some h, some m =>
      if h ≤ 23 ∧ m ≤ 59 then .ok ⟨0, 1, 1, h, m, 0⟩
      else .error "parsing time: value out of range"
    | _, _ => .error "parsing time: cannot parse"
  | _ => .error "parsing time: cannot parse"

/-- Sample surroundings: simple text and date functions, domain services that always
succeed and return fixed records. -/
def sampleEnv : Env where
  toLower := fun s => String.mk (s.data.map sampleLower)
  equalFold := fun a b => decide (a.data.map sampleLower = b.data.map sampleLower)
  parseDate := sampleDate
  parseClock := sampleClock
  parseDateTime := fun s =>
    match sampleDate (String.mk (s.data.take 10)), sampleClock (String.mk (s.data.drop 11)) with
    | .ok d, .ok c => .ok ⟨d.year, d.month, d.day, c.hour, c.minute, 0⟩
    | _, _ => .error "parsing time: cannot parse"
  formatDate := fun t => toString t.year ++ "-" ++ toString t.month ++ "-" ++ toString t.day
  callErr := fun _ _ => none
  tournament := fun _ _ => ⟨"Cup", none, "planned", none, none, none⟩
  team := fun _ id => ⟨id, "Eagles", none⟩
  player := fun _ _ => ⟨"Ivan", none, none, true, none⟩
  matchOf := fun _ _ => ⟨1, 1, ⟨2025, 1, 1, 12, 0, 0⟩⟩
  screenErr := fun _ _ => none

/-- A fresh process with admin 1 in the allow-list and an empty session table. -/
def freshBot : Bot := ⟨[1], fun _ => none, fun _ => none, []⟩

/-- A free-text message of admin 1 in chat 10. -/
def textMsg (text : String) : Message := ⟨some 1, 10, 100, text, none⟩

/-- A slash command of admin 1 in chat 10. -/
def commandMsg (command : String) : Message := ⟨some 1, 10, 100, "/" ++ command, some command⟩

/-- A button press of admin 1 in chat 10. -/
def press (data : String) : CallbackQuery := ⟨some 1, "cb", data, 10, 100⟩

/-- The entry that `team_open` pushes. -/
def teamsMenuEntry : navEntry := { Action := "teams_menu", Params := ∅ }

/-- Two distinct entries that `compareParamMaps` equates: each has one key, with the empty
text as its value, and the keys differ. -/
def entryX : navEntry := entry1 "a" "x" ""

/-- The second of the two entries. -/
def entryY : navEntry := entry1 "a" "y" ""

/-- A stack of ten entries whose top is `entryX`. -/
def fullStack : List navEntry :=
  (List.range 9).map (fun i => entry1 "tournaments_page" "page" (toString i)) ++ [entryX]

/-- A process in which admin 1 holds `fullStack`. -/
def fullBot : Bot := freshBot.setNav 1 fullStack

/-- Admin 1 after the button `teams_start_create`: the create_team wizard is at step 0. -/
def wizardBot : Bot := (handleCallback sampleEnv freshBot (press "teams_start_create")).1

/-- A restarted process: the navigation map is empty, the session table holds for admin 1
the stack that `open_tournament` with page 1 persisted. -/
def restartedBot : Bot :=
  { freshBot with
    rows := (handleCallback sampleEnv freshBot (press "open_tournament|id=5|page=1")).1.rows }

/-- Admin 1 after the buttons `team_open` (a push) and `team_edit`: an edit_team wizard is
stored and the in-memory stack holds one entry. -/
def wizardNavBot : Bot :=
  (handleCallback sampleEnv (handleCallback sampleEnv freshBot (press "team_open|id=3")).1
    (press "team_edit|id=3")).1

/-- Admin 1 after `team_open`, `teams_start_create` and the four answers of the create_team
wizard: the wizard has completed. -/
def finishedBot : Bot :=
  (handleMessage sampleEnv
    (handleMessage sampleEnv
      (handleMessage sampleEnv
        (handleMessage sampleEnv
          (handleCallback sampleEnv
            (handleCallback sampleEnv freshBot (press "team_open|id=3")).1
            (press "teams_start_create")).1
          (textMsg "Eagles")).1
        (textMsg "U12")).1
      (textMsg "да")).1
    (textMsg "-")).1

/-- A row in the shape written before the envelope: the blob is the wizard state itself. -/
def legacyRow : AdminSession :=
  ⟨1, some "create_team", .doc (marshalWizardState ⟨"create_team", 1, some (mapSet ∅ "name" "Eagles")⟩)⟩

/-- A process whose session table holds `legacyRow` for admin 1. -/
def legacyBot : Bot := { freshBot with rows := fun k => if k = 1 then some legacyRow else none }

/-- Surroundings in which every domain call fails with the error boom. -/
def failingEnv : Env := { sampleEnv with callErr := fun _ _ => some "boom" }

/-- A field map with which the last step of every flow reaches its domain call. -/
def finalData : GoMap :=
  mapSet (mapSet (mapSet (mapSet (mapSet ∅ "name" "Cup") "date" "2025-01-01") "time" "12:00")
    "card_type" "yellow") "opponent" "Lions"

/-- The outcome of the last step of a flow, answered with `-` by admin 1, when the domain
call fails. -/
def failedFinalStep (flow : String) : Bot × GoError :=
  advanceWizard failingEnv freshBot (textMsg "-") 1 ⟨flow, lastStep flow, some finalData⟩

/-- The match_edit state before the last step is finished, with a full scores text. -/
def scoresState : WizardState :=
  ⟨"match_edit", 4, some (mapSet (mapSet ∅ "match_id" "7") "scores" "1:0 2:1 - - 2 1")⟩

/-- The patch that the scores text of the state above asks for. -/
def scoresPatch : MatchPatch :=
  { ScoreHT := ⟨true, some "1:0"⟩, ScoreFT := ⟨true, some "2:1"⟩, ScoreET := ⟨true, none⟩,
    ScorePEN := ⟨true, none⟩, ScoreFinalUs := ⟨true, some 2⟩, ScoreFinalThem := ⟨true, some 1⟩ }

/-- The match_edit state with a scores text of two tokens. -/
def shortScoresState : WizardState :=
  ⟨"match_edit", 4, some (mapSet (mapSet ∅ "match_id" "7") "scores" "1:0 2:1")⟩

/-! # Theorems -/

set_option linter.unusedTactic false

set_option linter.unreachableTactic false

/-! ## Maps and the duplicate check -/


theorem mapGet_of_lookup {m : GoMap} {k v : String} (h : m.lookup k = some v) : mapGet m k = v := by
  simp [mapGet, h]

theorem mapLen_eq_zero {m : GoMap} (h : mapLen m = 0) : m = ∅ := by
  apply Finmap.ext_lookup
  intro k
  have hk : m.keys = ∅ := Finset.card_eq_zero.mp h
  have : k ∉ m := by
    intro hm
    have := Finmap.mem_keys.mpr hm
    simp [hk] at this
  rw [Finmap.lookup_eq_none.mpr this, Finmap.lookup_empty]

theorem compareParamMaps_eq_true_iff (a b : GoMap) :
    compareParamMaps a b = true ↔
      mapLen a = mapLen b ∧ ∀ k ∈ a.keys, mapGet b k = mapGet a k := by
  unfold compareParamMaps
  by_cases h : mapLen a = mapLen b <;> simp [h]

theorem compareParamMaps_self (a : GoMap) : compareParamMaps a a = true := by
  rw [compareParamMaps_eq_true_iff]; exact ⟨rfl, fun _ _ => rfl⟩

theorem compareParamMaps_values (a b : GoMap) (hv : ∀ k ∈ a.keys, mapGet a k ≠ "") :
    compareParamMaps a b = true ↔ a = b := by
  constructor
  · intro h
    rw [compareParamMaps_eq_true_iff] at h
    obtain ⟨hlen, hall⟩ := h
    have hsub : a.keys ⊆ b.keys := by
      intro k hk
      by_contra hnb
      have hnone : b.lookup k = none := Finmap.lookup_eq_none.mpr (fun hm => hnb (Finmap.mem_keys.mpr hm))
      have h1 := hall k hk
      have h2 := hv k hk
      rw [← h1] at h2
      simp [mapGet, hnone] at h2
    have hkeys : a.keys = b.keys := Finset.eq_of_subset_of_card_le hsub (le_of_eq hlen.symm)
    apply Finmap.ext_lookup
    intro k
    by_cases hk : k ∈ a.keys
    · have hkb : k ∈ b.keys := hkeys ▸ hk
      obtain ⟨va, hva⟩ := Finmap.mem_iff.mp (Finmap.mem_keys.mp hk)
      obtain ⟨vb, hvb⟩ := Finmap.mem_iff.mp (Finmap.mem_keys.mp hkb)
      have := hall k hk
      simp [mapGet, hva, hvb] at this
      rw [hva, hvb, this]
    · have hkb : k ∉ b.keys := hkeys ▸ hk
      rw [Finmap.lookup_eq_none.mpr (fun hm => hk (Finmap.mem_keys.mpr hm)),
        Finmap.lookup_eq_none.mpr (fun hm => hkb (Finmap.mem_keys.mpr hm))]
  · rintro rfl
    exact compareParamMaps_self a


/-! ## The navigation stack -/

theorem Store.Save_nav (b : Bot) (adminID : Int) (f : Option String) (w : Option WizardState)
    (nav : List NavigationEntry) : (Store.Save b adminID f w nav).1.nav = b.nav := by
  unfold Store.Save
  dsimp only
  split <;> rfl

theorem persistNav_nav (b : Bot) (adminID : Int) (s : List navEntry) :
    (persistNav b adminID s).nav = b.nav := Store.Save_nav b adminID none none s

theorem persistNav_stack (b : Bot) (adminID k : Int) (s : List navEntry) :
    (persistNav b adminID s).stack k = b.stack k := by
  simp [Bot.stack, persistNav_nav]

theorem stack_setNav (b : Bot) (adminID : Int) (s : List navEntry) :
    (b.setNav adminID s).stack adminID = s := by
  simp [Bot.stack, Bot.setNav]

theorem stack_deleteNav (b : Bot) (adminID : Int) :
    (b.deleteNav adminID).stack adminID = [] := by
  simp [Bot.stack, Bot.deleteNav]

theorem pushNav_stack (b : Bot) (adminID : Int) (entry : navEntry)
    (hA : entry.Action ≠ "")
    (hD : ∀ last, (b.stack adminID).getLast? = some last → last.Action = entry.Action →
      compareParamMaps last.Params entry.Params = false) :
    (pushNav b adminID entry).stack adminID =
      if maxNavDepth < (b.stack adminID ++ [entry]).length then (b.stack adminID ++ [entry]).drop 1
      else b.stack adminID ++ [entry] := by
  unfold pushNav
  simp only [hA, if_false]
  cases hl : (b.stack adminID).getLast? with
  | none => simp [persistNav_stack, stack_setNav]
  | some last =>
    have hd : (decide (last.Action = entry.Action) &&
        compareParamMaps last.Params entry.Params) = false := by
      by_cases h : last.Action = entry.Action
      · simp [hD last hl h]
      · simp [h]
    simp [hd, persistNav_stack, stack_setNav]

theorem not_dup_of_ne (stack : List navEntry) (entry : navEntry)
    (hv : ∀ e ∈ stack, ∀ k ∈ e.Params.keys, mapGet e.Params k ≠ "")
    (hne : ∀ last, stack.getLast? = some last → last ≠ entry) :
    ∀ last, stack.getLast? = some last → last.Action = entry.Action →
      compareParamMaps last.Params entry.Params = false := by
  intro last hl hA
  have hmem : last ∈ stack := List.mem_of_getLast?_eq_some hl
  have hP : last.Params ≠ entry.Params := by
    intro hP
    apply hne last hl
    cases last; cases entry; simp_all
  rw [← Bool.not_eq_true, compareParamMaps_values _ _ (hv last hmem)]
  exact hP

theorem popNav_snoc (b : Bot) (adminID : Int) (s : List navEntry) (x : navEntry)
    (h : b.stack adminID = s ++ [x]) :
    (popNav b adminID).2 = (x, true) ∧ (popNav b adminID).1.stack adminID = s := by
  unfold popNav
  simp only [h, List.getLast?_append, List.getLast?_singleton, List.dropLast_concat, Option.or]
  refine ⟨trivial, ?_⟩
  rw [persistNav_stack]
  split
  · rename_i h0
    rw [stack_deleteNav]
    exact (List.length_eq_zero.mp h0).symm
  · exact stack_setNav _ _ _

theorem popTimes_stack (adminID : Int) (s : List navEntry) :
    ∀ b : Bot, b.stack adminID = s →
      (popTimes b adminID s.length).2 = s.reverse.map (fun e => (e, true)) ∧
      (popTimes b adminID s.length).1.stack adminID = [] := by
  induction s using List.reverseRecOn with
  | nil => intro b h; exact ⟨rfl, h⟩
  | append_singleton s x ih =>
    intro b h
    obtain ⟨h1, h2⟩ := popNav_snoc b adminID s x h
    have := ih (popNav b adminID).1 h2
    simp only [List.length_append, List.length_singleton, popTimes, List.reverse_append,
      List.reverse_singleton, List.singleton_append, List.map_cons]
    refine ⟨?_, this.2⟩
    rw [this.1]
    simp [h1]

theorem pushAll_snoc (b : Bot) (adminID : Int) (es : List navEntry) (e : navEntry) :
    pushAll b adminID (es ++ [e]) = pushNav (pushAll b adminID es) adminID e := by
  simp [pushAll, List.foldl_append]

theorem pushAll_stack (b : Bot) (adminID : Int) (h0 : b.stack adminID = []) (es : List navEntry) :
    (∀ e ∈ es, e.Action ≠ "") →
    (∀ e ∈ es, ∀ k ∈ e.Params.keys, mapGet e.Params k ≠ "") →
    es.Nodup →
    (pushAll b adminID es).stack adminID = es.drop (es.length - maxNavDepth) := by
  induction es using List.reverseRecOn with
  | nil => intro _ _ _; simpa [pushAll] using h0
  | append_singleton es e ih =>
    intro hA hV hN
    have hN' : es.Nodup ∧ e ∉ es := by
      have := List.nodup_append.mp hN
      refine ⟨this.1, ?_⟩
      intro hmem
      exact this.2.2 hmem (List.mem_singleton_self e)
    have ih' := ih (fun x hx => hA x (List.mem_append_left _ hx))
      (fun x hx => hV x (List.mem_append_left _ hx)) hN'.1
    rw [pushAll_snoc]
    have hv' : ∀ x ∈ (pushAll b adminID es).stack adminID, ∀ k ∈ x.Params.keys,
        mapGet x.Params k ≠ "" := by
      intro x hx
      rw [ih'] at hx
      exact hV x (List.mem_append_left _ (List.mem_of_mem_drop hx))
    have hne' : ∀ last, ((pushAll b adminID es).stack adminID).getLast? = some last →
        last ≠ e := by
      intro last hl h
      rw [ih'] at hl
      have : last ∈ es := List.mem_of_mem_drop (List.mem_of_getLast?_eq_some hl)
      exact hN'.2 (h ▸ this)
    have hdup := not_dup_of_ne _ e hv' hne'
    rw [pushNav_stack _ _ _ (hA e (List.mem_append_right _ (List.mem_singleton_self e))) hdup, ih']
    simp only [List.length_append, List.length_singleton, List.length_drop, maxNavDepth]
    by_cases hlen : 10 ≤ es.length
    · have h1 : 10 < es.length - (es.length - 10) + 1 := by omega
      rw [if_pos h1]
      have h2 : es.length + 1 - 10 = (es.length - 10) + 1 := by omega
      rw [h2, List.drop_append_of_le_length (by simp; omega),
        List.drop_append_of_le_length (by omega), List.drop_drop]
    · have h1 : ¬ 10 < es.length - (es.length - 10) + 1 := by omega
      rw [if_neg h1]
      have h2 : es.length + 1 - 10 = 0 := by omega
      have h3 : es.length - 10 = 0 := by omega
      rw [h2, h3]; rfl


/-! ## The JSON round trip -/

theorem mem_sortedKeys (m : GoMap) (k : String) : k ∈ sortedKeys m ↔ k ∈ m := by
  unfold sortedKeys
  rw [← Finmap.mem_keys, ← Finset.mem_val]
  obtain ⟨l, hl⟩ := Quot.exists_rep m.keys.val
  rw [← hl]
  exact (List.perm_insertionSort keyLE l).mem_iff

theorem decodeMap_fold (m : GoMap) (l : List String) :
    ∀ acc : GoMap,
      (List.foldl decodeMapMember (acc, true)
          (l.map fun k => (k, Json.str (mapGet m k)))).2 = true ∧
      ∀ k, (List.foldl decodeMapMember (acc, true)
          (l.map fun k => (k, Json.str (mapGet m k)))).1.lookup k =
        if k ∈ l then some (mapGet m k) else acc.lookup k := by
  induction l with
  | nil => intro acc; simp
  | cons k0 l ih =>
    intro acc
    simp only [List.map_cons, List.foldl_cons, decodeMapMember]
    obtain ⟨h1, h2⟩ := ih (mapSet acc k0 (mapGet m k0))
    refine ⟨h1, fun k => ?_⟩
    rw [h2 k]
    by_cases hk : k ∈ l
    · simp [hk]
    · by_cases hk0 : k = k0
      · subst hk0
        simp [hk, mapSet, Finmap.lookup_insert]
      · simp [hk, hk0, mapSet, Finmap.lookup_insert_of_ne _ hk0]

theorem decodeMap_marshalMap (m : GoMap) : decodeMap ∅ (marshalMap m) = (m, true) := by
  unfold marshalMap decodeMap
  obtain ⟨h1, h2⟩ := decodeMap_fold m (sortedKeys m) ∅
  apply Prod.ext
  · apply Finmap.ext_lookup
    intro k
    simp only
    rw [h2 k]
    by_cases hk : k ∈ m
    · rw [if_pos ((mem_sortedKeys m k).mpr hk)]
      obtain ⟨v, hv⟩ := Finmap.mem_iff.mp hk
      simp [mapGet, hv]
    · rw [if_neg (fun h => hk ((mem_sortedKeys m k).mp h)), Finmap.lookup_empty,
        Finmap.lookup_eq_none.mpr hk]
  · exact h1

theorem decodeNavigationEntry_marshal (e : NavigationEntry) :
    decodeNavigationEntry NavigationEntry.zero (marshalNavigationEntry e) = (e, true) := by
  unfold marshalNavigationEntry decodeNavigationEntry
  have fa : fieldIs "action" "action" = true := by decide
  have fp : fieldIs "action" "params" = false := by decide
  have fpp : fieldIs "params" "params" = true := by decide
  by_cases h : mapLen e.Params = 0
  · have := mapLen_eq_zero h
    cases e
    simp_all [decodeEntryMember, decodeString, NavigationEntry.zero]
  · cases e
    simp [h, decodeEntryMember, decodeString, NavigationEntry.zero, fa, fp, fpp,
      decodeMap_marshalMap]

theorem decodeEntries_marshal (es : List NavigationEntry) :
    decodeEntries [] (es.map marshalNavigationEntry) = (es, true) := by
  induction es with
  | nil => rfl
  | cons e es ih =>
    simp only [List.map_cons, decodeEntries, List.headD_nil, List.tail_nil, ih,
      decodeNavigationEntry_marshal, Bool.and_self]

theorem decodeNilableMap_marshal (d : Option GoMap) :
    decodeNilableMap none
      (match d with
        | none => Json.null
        | some m => marshalMap m) = (d, true) := by
  cases d with
  | none => rfl
  | some m =>
    show (some (decodeMap ∅ (marshalMap m)).1, (decodeMap ∅ (marshalMap m)).2) = _
    rw [decodeMap_marshalMap]

theorem decodeWizardState_marshal (w : WizardState) (h : isInt64 w.Step) :
    decodeWizardState WizardState.zero (marshalWizardState w) = (w, true) := by
  unfold marshalWizardState decodeWizardState
  have f1 : fieldIs "flow" "flow" = true := by decide
  have f2 : fieldIs "flow" "step" = false := by decide
  have f3 : fieldIs "step" "step" = true := by decide
  have f4 : fieldIs "flow" "data" = false := by decide
  have f5 : fieldIs "step" "data" = false := by decide
  have f6 : fieldIs "data" "data" = true := by decide
  cases w
  simp_all [decodeWizardMember, decodeString, decodeInt, WizardState.zero,
    decodeNilableMap_marshal]


theorem save_then_load (b : Bot) (adminID : Int) (flowName : Option String) (w : WizardState)
    (nav navBefore : List NavigationEntry) (hstep : isInt64 w.Step) :
    (Store.Save b adminID flowName (some w) nav).2 = none ∧
    (Store.Load (Store.Save b adminID flowName (some w) nav).1 adminID
        (some WizardState.zero) (some navBefore)).2.err = none ∧
    (Store.Load (Store.Save b adminID flowName (some w) nav).1 adminID
        (some WizardState.zero) (some navBefore)).2.session.map (fun s => s.CurrentFlow)
      = some flowName ∧
    (Store.Load (Store.Save b adminID flowName (some w) nav).1 adminID
        (some WizardState.zero) (some navBefore)).2.wizardOut = some w ∧
    (Store.Load (Store.Save b adminID flowName (some w) nav).1 adminID
        (some WizardState.zero) (some navBefore)).2.navOut = some nav := by
  have fw : fieldIs "wizard" "wizard" = true := by decide
  have fn : fieldIs "wizard" "nav" = false := by decide
  have fnn : fieldIs "nav" "nav" = true := by decide
  cases nav with
  | nil =>
    simp [Store.Save, Store.Load, Store.loadFrom, sessionsSave, sessionsGet, Bot.emit,
      marshalPersistedSession, unmarshal, decodePersistedSession, decodeEnvelopeMember,
      persistedSession.zero, Bytes.nonEmpty, fw, decodeWizardState_marshal w hstep]
  | cons e es =>
    have hd := decodeEntries_marshal (e :: es)
    simp only [List.map_cons] at hd
    simp [Store.Save, Store.Load, Store.loadFrom, sessionsSave, sessionsGet, Bot.emit,
      marshalPersistedSession, unmarshal, decodePersistedSession, decodeEnvelopeMember,
      persistedSession.zero, Bytes.nonEmpty, fw, fn, fnn, decodeNav, hd,
      decodeWizardState_marshal w hstep]


/-! ## Claims C1 to C5 -/

/-- C1, as stated, fails: a sequence of one entry (pairwise distinct) whose action is empty
leaves the stack of a fresh process empty, while min(1, 10) is 1. -/
theorem push_sequence_empty_action :
    [NavigationEntry.zero].Nodup ∧
    ((pushAll freshBot 1 [NavigationEntry.zero]).stack 1).length = 0 ∧
    min [NavigationEntry.zero].length maxNavDepth = 1 := by
  decide

/-- C1, amended: from an empty stack, after pushing N pairwise distinct entries that have
non-empty actions and no empty parameter value, the stack has length min(N, 10), popping
min(N, 10) times returns the last min(N, 10) entries pushed, most recent first, each with
the flag true, and the stack is then empty. -/
theorem push_pop_sequence (b : Bot) (adminID : Int) (es : List navEntry)
    (h0 : b.stack adminID = [])
    (hA : ∀ e ∈ es, e.Action ≠ "")
    (hV : ∀ e ∈ es, ∀ k ∈ e.Params.keys, mapGet e.Params k ≠ "")
    (hN : es.Nodup) :
    ((pushAll b adminID es).stack adminID).length = min es.length maxNavDepth ∧
    (popTimes (pushAll b adminID es) adminID (min es.length maxNavDepth)).2 =
      (es.drop (es.length - maxNavDepth)).reverse.map (fun e => (e, true)) ∧
    (popTimes (pushAll b adminID es) adminID (min es.length maxNavDepth)).1.stack adminID
      = [] := by
  have hs := pushAll_stack b adminID h0 es hA hV hN
  have hlen : (es.drop (es.length - maxNavDepth)).length = min es.length maxNavDepth := by
    simp only [List.length_drop, maxNavDepth]; omega
  have hp := popTimes_stack adminID (es.drop (es.length - maxNavDepth))
    (pushAll b adminID es) hs
  rw [hlen] at hp
  exact ⟨by rw [hs, hlen], hp.1, hp.2⟩

/-- Witness of C1: two distinct entries pushed into a fresh process. -/
theorem push_pop_sequence_witness :
    freshBot.stack 1 = [] ∧
    (popTimes (pushAll freshBot 1 [entry1 "tournaments_page" "page" "1", teamsMenuEntry]) 1
        (min 2 maxNavDepth)).2 =
      [(teamsMenuEntry, true), (entry1 "tournaments_page" "page" "1", true)] :=
  ⟨by decide,
    (push_pop_sequence freshBot 1 [entry1 "tournaments_page" "page" "1", teamsMenuEntry]
      (by decide) (by decide) (by decide) (by decide)).2.1⟩

/-- C2, the code at the failing input: `compareParamMaps` answers true for the maps
with the single entries x: "" and y: "", whose key sets differ, so `pushNav` drops an
entry that differs from the top in a parameter key. -/
theorem compareParamMaps_missing_key :
    compareParamMaps entryX.Params entryY.Params = true ∧
    entryX.Params.keys ≠ entryY.Params.keys ∧
    entryX.Action = entryY.Action ∧ entryY.Action ≠ "" ∧
    (pushNav (freshBot.setNav 1 [entryX]) 1 entryY).stack 1 = [entryX] := by
  decide

/-- C3: a push of an entry whose action and parameter map equal those of the top of a
non-empty stack returns the state it was given: the same stack, the same session table and
the same log, hence no persistence call. -/
theorem pushNav_same_as_top (b : Bot) (adminID : Int) (entry top : navEntry)
    (htop : (b.stack adminID).getLast? = some top)
    (hA : entry.Action = top.Action) (hP : entry.Params = top.Params) :
    pushNav b adminID entry = b := by
  unfold pushNav
  by_cases h : entry.Action = ""
  · simp [h]
  · simp [h, htop, hA, hP, compareParamMaps_self]

/-- Witness of C3: the entry of `team_open` pushed on a stack whose top it is. -/
theorem pushNav_same_as_top_witness :
    ((freshBot.setNav 1 [teamsMenuEntry]).stack 1).getLast? = some teamsMenuEntry ∧
    pushNav (freshBot.setNav 1 [teamsMenuEntry]) 1 teamsMenuEntry
      = freshBot.setNav 1 [teamsMenuEntry] :=
  ⟨by decide,
    pushNav_same_as_top (freshBot.setNav 1 [teamsMenuEntry]) 1 teamsMenuEntry teamsMenuEntry
      (by decide) rfl rfl⟩

/-- On a stack of exactly ten entries, a push of an entry with a non-empty action that the
duplicate check does not equate with the top evicts the oldest entry and appends the new
one. -/
theorem pushNav_full_stack (b : Bot) (adminID : Int) (entry : navEntry)
    (hlen : (b.stack adminID).length = maxNavDepth)
    (hA : entry.Action ≠ "")
    (hD : ∀ last, (b.stack adminID).getLast? = some last → last.Action = entry.Action →
      compareParamMaps last.Params entry.Params = false) :
    (pushNav b adminID entry).stack adminID = (b.stack adminID).drop 1 ++ [entry] := by
  rw [pushNav_stack b adminID entry hA hD]
  have h1 : maxNavDepth < (b.stack adminID ++ [entry]).length := by
    simp [hlen]
  rw [if_pos h1, List.drop_append_of_le_length (by rw [hlen]; decide)]

/-- C4, the code at the failing input: on a stack of ten entries whose top has the single
parameter x: "", a push of the entry with the same action and the single parameter y: "",
which is not identical to the top, leaves the stack as it was instead of evicting the
oldest entry. -/
theorem full_stack_push_dropped :
    fullStack.length = 10 ∧ fullBot.stack 1 = fullStack ∧
    fullStack.getLast? = some entryX ∧ entryX ≠ entryY ∧ entryY.Action ≠ "" ∧
    (pushNav fullBot 1 entryY).stack 1 = fullStack ∧
    (pushNav fullBot 1 entryY).stack 1 ≠ fullStack.drop 1 ++ [entryY] := by
  decide

/-- C5: `Store.Save` of a flow name, a wizard state (with a step in the range of `int`) and
a list of navigation entries, followed by `Store.Load` into a fresh wizard state, succeeds
and returns a session with the saved flow name, the saved wizard state and the saved
entries, whatever the navigation output held before. -/
theorem save_load_roundtrip (b : Bot) (adminID : Int) (flowName : Option String)
    (w : WizardState) (nav navBefore : List NavigationEntry) (hstep : isInt64 w.Step) :
    (Store.Save b adminID flowName (some w) nav).2 = none ∧
    (Store.Load (Store.Save b adminID flowName (some w) nav).1 adminID
        (some WizardState.zero) (some navBefore)).2.err = none ∧
    (Store.Load (Store.Save b adminID flowName (some w) nav).1 adminID
        (some WizardState.zero) (some navBefore)).2.session.map (fun s => s.CurrentFlow)
      = some flowName ∧
    (Store.Load (Store.Save b adminID flowName (some w) nav).1 adminID
        (some WizardState.zero) (some navBefore)).2.wizardOut = some w ∧
    (Store.Load (Store.Save b adminID flowName (some w) nav).1 adminID
        (some WizardState.zero) (some navBefore)).2.navOut = some nav :=
  save_then_load b adminID flowName w nav navBefore hstep

/-- Witness of C5: a create_team state at step 1 saved with two navigation entries. -/
theorem save_load_roundtrip_witness :
    isInt64 1 ∧
    (Store.Load (Store.Save freshBot 1 (some "create_team")
        (some ⟨"create_team", 1, some (mapSet ∅ "name" "Eagles")⟩)
        [entry1 "tournaments_page" "page" "2", teamsMenuEntry]).1 1
        (some WizardState.zero) (some [])).2.navOut
      = some [entry1 "tournaments_page" "page" "2", teamsMenuEntry] :=
  ⟨by decide,
    (save_load_roundtrip freshBot 1 (some "create_team")
      ⟨"create_team", 1, some (mapSet ∅ "name" "Eagles")⟩
      [entry1 "tournaments_page" "page" "2", teamsMenuEntry] [] (by decide)).2.2.2.2⟩

/-! ## Frame lemmas: what each primitive leaves alone -/

@[simp] theorem emit_nav (b : Bot) (e : Effect) : (b.emit e).nav = b.nav := rfl

@[simp] theorem emit_rows (b : Bot) (e : Effect) : (b.emit e).rows = b.rows := rfl

@[simp] theorem emit_admins (b : Bot) (e : Effect) : (b.emit e).admins = b.admins := rfl

@[simp] theorem emit_log (b : Bot) (e : Effect) : (b.emit e).log = b.log ++ [e] := rfl

@[simp] theorem sendSimple_nav (b : Bot) (c : Int) (t : String) :
    (sendSimple b c t).nav = b.nav := rfl

@[simp] theorem sendSimple_rows (b : Bot) (c : Int) (t : String) :
    (sendSimple b c t).rows = b.rows := rfl

@[simp] theorem sendSimple_admins (b : Bot) (c : Int) (t : String) :
    (sendSimple b c t).admins = b.admins := rfl

@[simp] theorem callDomain_nav (env : Env) (b : Bot) (c : DomainCall) :
    (callDomain env b c).1.nav = b.nav := rfl

@[simp] theorem callDomain_rows (env : Env) (b : Bot) (c : DomainCall) :
    (callDomain env b c).1.rows = b.rows := rfl

@[simp] theorem runScreen_nav (env : Env) (b : Bot) (s : Screen) :
    (runScreen env b s).1.nav = b.nav := rfl

@[simp] theorem runScreen_rows (env : Env) (b : Bot) (s : Screen) :
    (runScreen env b s).1.rows = b.rows := rfl

@[simp] theorem replyOnly_nav (b : Bot) (c : Int) (t : String) :
    (replyOnly b c t).1.nav = b.nav := rfl

@[simp] theorem Store.Clear_nav (b : Bot) (adminID : Int) :
    (Store.Clear b adminID).1.nav = b.nav := rfl

@[simp] theorem Store.Clear_rows_self (b : Bot) (adminID : Int) :
    (Store.Clear b adminID).1.rows adminID = none := by
  simp [Store.Clear, sessionsDelete]

@[simp] theorem saveSession_nav (b : Bot) (adminID : Int) (f : Option String) (st : WizardState) :
    (saveSession b adminID f st).1.nav = b.nav := Store.Save_nav _ _ _ _ _

@[simp] theorem nextStep_nav (b : Bot) (adminID chatID : Int) (st : WizardState) (p : String) :
    (nextStep b adminID chatID st p).1.nav = b.nav := by
  simp [nextStep]

theorem Store.Save_admins (b : Bot) (adminID : Int) (f : Option String) (w : Option WizardState)
    (nav : List NavigationEntry) : (Store.Save b adminID f w nav).1.admins = b.admins := by
  unfold Store.Save
  dsimp only
  split <;> rfl

theorem persistNav_admins (b : Bot) (adminID : Int) (s : List navEntry) :
    (persistNav b adminID s).admins = b.admins := Store.Save_admins b adminID none none s

/-- The row that `persistNav` leaves for the admin has no flow name. -/
theorem persistNav_storedFlow (b : Bot) (adminID : Int) (s : List navEntry) :
    storedFlow (persistNav b adminID s) adminID = some none := by
  cases s <;>
    simp [storedFlow, persistNav, Store.Save, sessionsSave, marshalPersistedSession]

/-- What `Store.Load` reads back after `persistNav`: a session, no error, an untouched
wizard state and the persisted entries. -/
theorem load_after_persistNav (b : Bot) (adminID : Int) (s : List navEntry) :
    (Store.Load (persistNav b adminID s) adminID (some WizardState.zero) (some [])).2.err = none ∧
    ((Store.Load (persistNav b adminID s) adminID (some WizardState.zero)
        (some [])).2.session).isSome = true ∧
    (Store.Load (persistNav b adminID s) adminID (some WizardState.zero) (some [])).2.wizardOut
      = some WizardState.zero ∧
    (Store.Load (persistNav b adminID s) adminID (some WizardState.zero) (some [])).2.navOut
      = some s := by
  have fn : fieldIs "wizard" "nav" = false := by decide
  have fnn : fieldIs "nav" "nav" = true := by decide
  cases s with
  | nil =>
    simp [persistNav, Store.Save, Store.Load, Store.loadFrom, sessionsSave, sessionsGet,
      Bot.emit, Bytes.nonEmpty]
  | cons e es =>
    have hd := decodeEntries_marshal (e :: es)
    simp only [List.map_cons] at hd
    simp [persistNav, Store.Save, Store.Load, Store.loadFrom, sessionsSave, sessionsGet,
      Bot.emit, marshalPersistedSession, unmarshal, decodePersistedSession,
      decodeEnvelopeMember, persistedSession.zero, Bytes.nonEmpty, fn, fnn, decodeNav, hd]

theorem Store.Load_fst (b : Bot) (adminID : Int) (w : Option WizardState)
    (n : Option (List NavigationEntry)) :
    (Store.Load b adminID w n).1 = b.emit (.sessionGet adminID) := rfl

theorem restoreNav_rows (b : Bot) (adminID : Int) (es : List NavigationEntry) :
    (restoreNav b adminID es).rows = b.rows := by
  unfold restoreNav; split <;> rfl

theorem restoreNav_log (b : Bot) (adminID : Int) (es : List NavigationEntry) :
    (restoreNav b adminID es).log = b.log := by
  unfold restoreNav; split <;> rfl

/-- A free-text message of an admin for whom the store holds no wizard state is ignored:
the only call is the session read. -/
theorem handleMessage_ignored (env : Env) (b : Bot) (adminID : Int) (msg : Message)
    (hfrom : msg.From = some adminID) (hadmin : adminID ∈ b.admins)
    (htext : msg.Command = none)
    (herr : (Store.Load b adminID (some WizardState.zero) (some [])).2.err = none)
    (hw : storedWizard b adminID = some WizardState.zero) :
    (handleMessage env b msg).2 = none ∧
    (handleMessage env b msg).1.rows = b.rows ∧
    (handleMessage env b msg).1.log = b.log ++ [Effect.sessionGet adminID] := by
  unfold storedWizard at hw
  unfold handleMessage
  simp only [hfrom, htext, isAdmin, hadmin, decide_True, herr, hw, Option.getD_some]
  simp [WizardState.zero, restoreNav_rows, restoreNav_log, Store.Load_fst]

/-- After `persistNav` no wizard is stored: the row has no flow name, the wizard state read
back is the zero state, and the next free-text message of the admin is ignored. -/
theorem persistNav_drops_wizard (env : Env) (b : Bot) (adminID : Int) (s : List navEntry)
    (msg : Message) (hfrom : msg.From = some adminID) (hadmin : adminID ∈ b.admins)
    (htext : msg.Command = none) :
    storedFlow (persistNav b adminID s) adminID = some none ∧
    storedWizard (persistNav b adminID s) adminID = some WizardState.zero ∧
    (handleMessage env (persistNav b adminID s) msg).2 = none ∧
    (handleMessage env (persistNav b adminID s) msg).1.rows = (persistNav b adminID s).rows ∧
    (handleMessage env (persistNav b adminID s) msg).1.log
      = (persistNav b adminID s).log ++ [Effect.sessionGet adminID] := by
  obtain ⟨h1, _, h3, _⟩ := load_after_persistNav b adminID s
  have hadmin' : adminID ∈ (persistNav b adminID s).admins := by
    rw [persistNav_admins]; exact hadmin
  exact ⟨persistNav_storedFlow b adminID s, h3,
    handleMessage_ignored env _ adminID msg hfrom hadmin' htext h1 h3⟩

/-! ## The wizard engine never touches the navigation map -/

theorem nav_ite {c : Prop} [Decidable c] {x y : Bot × GoError} {n : Int → Option (List navEntry)}
    (hx : x.1.nav = n) (hy : y.1.nav = n) : (if c then x else y).1.nav = n := by
  split <;> assumption

@[simp] theorem finishTournamentWizard_nav (env : Env) (b : Bot) (st : WizardState) :
    (finishTournamentWizard env b st).1.nav = b.nav := by
  unfold finishTournamentWizard
  dsimp only
  split <;> rfl

@[simp] theorem finishTournamentEditWizard_nav (env : Env) (b : Bot) (st : WizardState) :
    (finishTournamentEditWizard env b st).1.nav = b.nav := by
  unfold finishTournamentEditWizard
  dsimp only
  repeat' split
  all_goals rfl

@[simp] theorem finishTeamWizard_nav (env : Env) (b : Bot) (st : WizardState) :
    (finishTeamWizard env b st).1.nav = b.nav := rfl

@[simp] theorem finishTeamEditWizard_nav (env : Env) (b : Bot) (st : WizardState) :
    (finishTeamEditWizard env b st).1.nav = b.nav := by
  unfold finishTeamEditWizard
  dsimp only
  split <;> rfl

@[simp] theorem finishPlayerWizard_nav (env : Env) (b : Bot) (st : WizardState) :
    (finishPlayerWizard env b st).1.nav = b.nav := rfl

@[simp] theorem finishPlayerEditWizard_nav (env : Env) (b : Bot) (st : WizardState) :
    (finishPlayerEditWizard env b st).1.nav = b.nav := by
  unfold finishPlayerEditWizard
  dsimp only
  repeat' split
  all_goals rfl

@[simp] theorem finishMatchCreateWizard_nav (env : Env) (b : Bot) (st : WizardState) :
    (finishMatchCreateWizard env b st).1.nav = b.nav := by
  unfold finishMatchCreateWizard
  dsimp only
  split <;> rfl

@[simp] theorem finishMatchEditWizard_nav (env : Env) (b : Bot) (st : WizardState) :
    (finishMatchEditWizard env b st).1.nav = b.nav := by
  unfold finishMatchEditWizard
  dsimp only
  repeat' split
  all_goals rfl

@[simp] theorem applyLineupNumber_nav (env : Env) (b : Bot) (c a m p : Int) (patch : LineupPatch) :
    (applyLineupNumber env b c a m p patch).1.nav = b.nav := by
  unfold applyLineupNumber
  dsimp only
  split <;> rfl

theorem afterAssign_some (b : Bot) (st : WizardState) (rest : WizardState → Bot × GoError) :
    afterAssign b (some st) rest = rest st := rfl

theorem nav_afterAssign {b : Bot} {a : Option WizardState} {rest : WizardState → Bot × GoError}
    (h : ∀ st, (rest st).1.nav = b.nav) : (afterAssign b a rest).1.nav = b.nav := by
  cases a with
  | none => rfl
  | some st => exact h st

theorem advanceTournamentWizard_nav (env : Env) (b : Bot) (msg : Message) (adminID : Int)
    (state : WizardState) : (advanceTournamentWizard env b msg adminID state).1.nav = b.nav := by
  unfold advanceTournamentWizard
  dsimp only
  repeat' first
    | with_reducible apply nav_ite
    | (with_reducible apply nav_afterAssign; intro _; dsimp only)
    | with_reducible exact nextStep_nav _ _ _ _ _
    | with_reducible exact replyOnly_nav _ _ _
    | with_reducible exact saveSession_nav _ _ _ _
    | with_reducible rfl
    | (simp only [replyOnly_nav, Store.Clear_nav, sendSimple_nav, runScreen_nav, callDomain_nav,
        finishTournamentWizard_nav, finishTournamentEditWizard_nav, finishTeamWizard_nav,
        finishTeamEditWizard_nav, finishPlayerWizard_nav, finishPlayerEditWizard_nav,
        finishMatchCreateWizard_nav, finishMatchEditWizard_nav, applyLineupNumber_nav]; done)
    | split

theorem advanceTournamentEditWizard_nav (env : Env) (b : Bot) (msg : Message) (adminID : Int)
    (state : WizardState) : (advanceTournamentEditWizard env b msg adminID state).1.nav = b.nav := by
  unfold advanceTournamentEditWizard
  dsimp only
  repeat' first
    | with_reducible apply nav_ite
    | (with_reducible apply nav_afterAssign; intro _; dsimp only)
    | with_reducible exact nextStep_nav _ _ _ _ _
    | with_reducible exact replyOnly_nav _ _ _
    | with_reducible exact saveSession_nav _ _ _ _
    | with_reducible rfl
    | (simp only [replyOnly_nav, Store.Clear_nav, sendSimple_nav, runScreen_nav, callDomain_nav,
        finishTournamentWizard_nav, finishTournamentEditWizard_nav, finishTeamWizard_nav,
        finishTeamEditWizard_nav, finishPlayerWizard_nav, finishPlayerEditWizard_nav,
        finishMatchCreateWizard_nav, finishMatchEditWizard_nav, applyLineupNumber_nav]; done)
    | split

theorem advanceTeamWizard_nav (env : Env) (b : Bot) (msg : Message) (adminID : Int)
    (state : WizardState) : (advanceTeamWizard env b msg adminID state).1.nav = b.nav := by
  unfold advanceTeamWizard
  dsimp only
  repeat' first
    | with_reducible apply nav_ite
    | (with_reducible apply nav_afterAssign; intro _; dsimp only)
    | with_reducible exact nextStep_nav _ _ _ _ _
    | with_reducible exact replyOnly_nav _ _ _
    | with_reducible exact saveSession_nav _ _ _ _
    | with_reducible rfl
    | (simp only [replyOnly_nav, Store.Clear_nav, sendSimple_nav, runScreen_nav, callDomain_nav,
        finishTournamentWizard_nav, finishTournamentEditWizard_nav, finishTeamWizard_nav,
        finishTeamEditWizard_nav, finishPlayerWizard_nav, finishPlayerEditWizard_nav,
        finishMatchCreateWizard_nav, finishMatchEditWizard_nav, applyLineupNumber_nav]; done)
    | split

theorem advanceTeamEditWizard_nav (env : Env) (b : Bot) (msg : Message) (adminID : Int)
    (state : WizardState) : (advanceTeamEditWizard env b msg adminID state).1.nav = b.nav := by
  unfold advanceTeamEditWizard
  dsimp only
  repeat' first
    | with_reducible apply nav_ite
    | (with_reducible apply nav_afterAssign; intro _; dsimp only)
    | with_reducible exact nextStep_nav _ _ _ _ _
    | with_reducible exact replyOnly_nav _ _ _
    | with_reducible exact saveSession_nav _ _ _ _
    | with_reducible rfl
    | (simp only [replyOnly_nav, Store.Clear_nav, sendSimple_nav, runScreen_nav, callDomain_nav,
        finishTournamentWizard_nav, finishTournamentEditWizard_nav, finishTeamWizard_nav,
        finishTeamEditWizard_nav, finishPlayerWizard_nav, finishPlayerEditWizard_nav,
        finishMatchCreateWizard_nav, finishMatchEditWizard_nav, applyLineupNumber_nav]; done)
    | split

theorem advancePlayerWizard_nav (env : Env) (b : Bot) (msg : Message) (adminID : Int)
    (state : WizardState) : (advancePlayerWizard env b msg adminID state).1.nav = b.nav := by
  unfold advancePlayerWizard
  dsimp only
  repeat' first
    | with_reducible apply nav_ite
    | (with_reducible apply nav_afterAssign; intro _; dsimp only)
    | with_reducible exact nextStep_nav _ _ _ _ _
    | with_reducible exact replyOnly_nav _ _ _
    | with_reducible exact saveSession_nav _ _ _ _
    | with_reducible rfl
    | (simp only [replyOnly_nav, Store.Clear_nav, sendSimple_nav, runScreen_nav, callDomain_nav,
        finishTournamentWizard_nav, finishTournamentEditWizard_nav, finishTeamWizard_nav,
        finishTeamEditWizard_nav, finishPlayerWizard_nav, finishPlayerEditWizard_nav,
        finishMatchCreateWizard_nav, finishMatchEditWizard_nav, applyLineupNumber_nav]; done)
    | split

theorem advancePlayerEditWizard_nav (env : Env) (b : Bot) (msg : Message) (adminID : Int)
    (state : WizardState) : (advancePlayerEditWizard env b msg adminID state).1.nav = b.nav := by
  unfold advancePlayerEditWizard
  dsimp only
  repeat' first
    | with_reducible apply nav_ite
    | (with_reducible apply nav_afterAssign; intro _; dsimp only)
    | with_reducible exact nextStep_nav _ _ _ _ _
    | with_reducible exact replyOnly_nav _ _ _
    | with_reducible exact saveSession_nav _ _ _ _
    | with_reducible rfl
    | (simp only [replyOnly_nav, Store.Clear_nav, sendSimple_nav, runScreen_nav, callDomain_nav,
        finishTournamentWizard_nav, finishTournamentEditWizard_nav, finishTeamWizard_nav,
        finishTeamEditWizard_nav, finishPlayerWizard_nav, finishPlayerEditWizard_nav,
        finishMatchCreateWizard_nav, finishMatchEditWizard_nav, applyLineupNumber_nav]; done)
    | split

theorem advanceRosterAddWizard_nav (env : Env) (b : Bot) (msg : Message) (adminID : Int)
    (state : WizardState) : (advanceRosterAddWizard env b msg adminID state).1.nav = b.nav := by
  unfold advanceRosterAddWizard
  dsimp only
  repeat' first
    | with_reducible apply nav_ite
    | (with_reducible apply nav_afterAssign; intro _; dsimp only)
    | with_reducible exact nextStep_nav _ _ _ _ _
    | with_reducible exact replyOnly_nav _ _ _
    | with_reducible exact saveSession_nav _ _ _ _
    | with_reducible rfl
    | (simp only [replyOnly_nav, Store.Clear_nav, sendSimple_nav, runScreen_nav, callDomain_nav,
        finishTournamentWizard_nav, finishTournamentEditWizard_nav, finishTeamWizard_nav,
        finishTeamEditWizard_nav, finishPlayerWizard_nav, finishPlayerEditWizard_nav,
        finishMatchCreateWizard_nav, finishMatchEditWizard_nav, applyLineupNumber_nav]; done)
    | split

theorem advanceRosterChangeWizard_nav (env : Env) (b : Bot) (msg : Message) (adminID : Int)
    (state : WizardState) : (advanceRosterChangeWizard env b msg adminID state).1.nav = b.nav := by
  unfold advanceRosterChangeWizard
  dsimp only
  repeat' first
    | with_reducible apply nav_ite
    | (with_reducible apply nav_afterAssign; intro _; dsimp only)
    | with_reducible exact nextStep_nav _ _ _ _ _
    | with_reducible exact replyOnly_nav _ _ _
    | with_reducible exact saveSession_nav _ _ _ _
    | with_reducible rfl
    | (simp only [replyOnly_nav, Store.Clear_nav, sendSimple_nav, runScreen_nav, callDomain_nav,
        finishTournamentWizard_nav, finishTournamentEditWizard_nav, finishTeamWizard_nav,
        finishTeamEditWizard_nav, finishPlayerWizard_nav, finishPlayerEditWizard_nav,
        finishMatchCreateWizard_nav, finishMatchEditWizard_nav, applyLineupNumber_nav]; done)
    | split

theorem advanceMatchCreateWizard_nav (env : Env) (b : Bot) (msg : Message) (adminID : Int)
    (state : WizardState) : (advanceMatchCreateWizard env b msg adminID state).1.nav = b.nav := by
  unfold advanceMatchCreateWizard
  dsimp only
  repeat' first
    | with_reducible apply nav_ite
    | (with_reducible apply nav_afterAssign; intro _; dsimp only)
    | with_reducible exact nextStep_nav _ _ _ _ _
    | with_reducible exact replyOnly_nav _ _ _
    | with_reducible exact saveSession_nav _ _ _ _
    | with_reducible rfl
    | (simp only [replyOnly_nav, Store.Clear_nav, sendSimple_nav, runScreen_nav, callDomain_nav,
        finishTournamentWizard_nav, finishTournamentEditWizard_nav, finishTeamWizard_nav,
        finishTeamEditWizard_nav, finishPlayerWizard_nav, finishPlayerEditWizard_nav,
        finishMatchCreateWizard_nav, finishMatchEditWizard_nav, applyLineupNumber_nav]; done)
    | split

theorem advanceMatchEditWizard_nav (env : Env) (b : Bot) (msg : Message) (adminID : Int)
    (state : WizardState) : (advanceMatchEditWizard env b msg adminID state).1.nav = b.nav := by
  unfold advanceMatchEditWizard
  dsimp only
  repeat' first
    | with_reducible apply nav_ite
    | (with_reducible apply nav_afterAssign; intro _; dsimp only)
    | with_reducible exact nextStep_nav _ _ _ _ _
    | with_reducible exact replyOnly_nav _ _ _
    | with_reducible exact saveSession_nav _ _ _ _
    | with_reducible rfl
    | (simp only [replyOnly_nav, Store.Clear_nav, sendSimple_nav, runScreen_nav, callDomain_nav,
        finishTournamentWizard_nav, finishTournamentEditWizard_nav, finishTeamWizard_nav,
        finishTeamEditWizard_nav, finishPlayerWizard_nav, finishPlayerEditWizard_nav,
        finishMatchCreateWizard_nav, finishMatchEditWizard_nav, applyLineupNumber_nav]; done)
    | split

theorem advanceLineupNumberWizard_nav (env : Env) (b : Bot) (msg : Message) (adminID : Int)
    (state : WizardState) : (advanceLineupNumberWizard env b msg adminID state).1.nav = b.nav := by
  unfold advanceLineupNumberWizard
  dsimp only
  repeat' first
    | with_reducible apply nav_ite
    | (with_reducible apply nav_afterAssign; intro _; dsimp only)
    | with_reducible exact nextStep_nav _ _ _ _ _
    | with_reducible exact replyOnly_nav _ _ _
    | with_reducible exact saveSession_nav _ _ _ _
    | with_reducible rfl
    | (simp only [replyOnly_nav, Store.Clear_nav, sendSimple_nav, runScreen_nav, callDomain_nav,
        finishTournamentWizard_nav, finishTournamentEditWizard_nav, finishTeamWizard_nav,
        finishTeamEditWizard_nav, finishPlayerWizard_nav, finishPlayerEditWizard_nav,
        finishMatchCreateWizard_nav, finishMatchEditWizard_nav, applyLineupNumber_nav]; done)
    | split

theorem advanceEventGoalWizard_nav (env : Env) (b : Bot) (msg : Message) (adminID : Int)
    (state : WizardState) : (advanceEventGoalWizard env b msg adminID state).1.nav = b.nav := by
  unfold advanceEventGoalWizard
  dsimp only
  repeat' first
    | with_reducible apply nav_ite
    | (with_reducible apply nav_afterAssign; intro _; dsimp only)
    | with_reducible exact nextStep_nav _ _ _ _ _
    | with_reducible exact replyOnly_nav _ _ _
    | with_reducible exact saveSession_nav _ _ _ _
    | with_reducible rfl
    | (simp only [replyOnly_nav, Store.Clear_nav, sendSimple_nav, runScreen_nav, callDomain_nav,
        finishTournamentWizard_nav, finishTournamentEditWizard_nav, finishTeamWizard_nav,
        finishTeamEditWizard_nav, finishPlayerWizard_nav, finishPlayerEditWizard_nav,
        finishMatchCreateWizard_nav, finishMatchEditWizard_nav, applyLineupNumber_nav]; done)
    | split

theorem advanceEventCardWizard_nav (env : Env) (b : Bot) (msg : Message) (adminID : Int)
    (state : WizardState) : (advanceEventCardWizard env b msg adminID state).1.nav = b.nav := by
  unfold advanceEventCardWizard
  dsimp only
  repeat' first
    | with_reducible apply nav_ite
    | (with_reducible apply nav_afterAssign; intro _; dsimp only)
    | with_reducible exact nextStep_nav _ _ _ _ _
    | with_reducible exact replyOnly_nav _ _ _
    | with_reducible exact saveSession_nav _ _ _ _
    | with_reducible rfl
    | (simp only [replyOnly_nav, Store.Clear_nav, sendSimple_nav, runScreen_nav, callDomain_nav,
        finishTournamentWizard_nav, finishTournamentEditWizard_nav, finishTeamWizard_nav,
        finishTeamEditWizard_nav, finishPlayerWizard_nav, finishPlayerEditWizard_nav,
        finishMatchCreateWizard_nav, finishMatchEditWizard_nav, applyLineupNumber_nav]; done)
    | split

theorem advanceEventSubWizard_nav (env : Env) (b : Bot) (msg : Message) (adminID : Int)
    (state : WizardState) : (advanceEventSubWizard env b msg adminID state).1.nav = b.nav := by
  unfold advanceEventSubWizard
  dsimp only
  repeat' first
    | with_reducible apply nav_ite
    | (with_reducible apply nav_afterAssign; intro _; dsimp only)
    | with_reducible exact nextStep_nav _ _ _ _ _
    | with_reducible exact replyOnly_nav _ _ _
    | with_reducible exact saveSession_nav _ _ _ _
    | with_reducible rfl
    | (simp only [replyOnly_nav, Store.Clear_nav, sendSimple_nav, runScreen_nav, callDomain_nav,
        finishTournamentWizard_nav, finishTournamentEditWizard_nav, finishTeamWizard_nav,
        finishTeamEditWizard_nav, finishPlayerWizard_nav, finishPlayerEditWizard_nav,
        finishMatchCreateWizard_nav, finishMatchEditWizard_nav, applyLineupNumber_nav]; done)
    | split

/-- No step of any wizard changes the in-memory navigation map. -/
theorem advanceWizard_nav (env : Env) (b : Bot) (msg : Message) (adminID : Int)
    (state : WizardState) : (advanceWizard env b msg adminID state).1.nav = b.nav := by
  unfold advanceWizard
  repeat' with_reducible apply nav_ite
  · exact advanceTournamentWizard_nav env b msg adminID state
  · exact advanceTournamentEditWizard_nav env b msg adminID state
  · exact advanceTeamWizard_nav env b msg adminID state
  · exact advanceTeamEditWizard_nav env b msg adminID state
  · exact advancePlayerWizard_nav env b msg adminID state
  · exact advancePlayerEditWizard_nav env b msg adminID state
  · exact advanceRosterAddWizard_nav env b msg adminID state
  · exact advanceRosterChangeWizard_nav env b msg adminID state
  · exact advanceMatchCreateWizard_nav env b msg adminID state
  · exact advanceMatchEditWizard_nav env b msg adminID state
  · exact advanceLineupNumberWizard_nav env b msg adminID state
  · exact advanceEventGoalWizard_nav env b msg adminID state
  · exact advanceEventCardWizard_nav env b msg adminID state
  · exact advanceEventSubWizard_nav env b msg adminID state
  · rfl

/-! ## Claims C6 to C9 -/

theorem Store.Load_snd_of_rows (b b' : Bot) (adminID : Int) (w : Option WizardState)
    (n : Option (List NavigationEntry)) (h : b.rows = b'.rows) :
    (Store.Load b adminID w n).2 = (Store.Load b' adminID w n).2 := by
  simp [Store.Load, sessionsGet, h]

/-- The shape of a push: nothing at all, or a new stack that is persisted. -/
theorem pushNav_cases (b : Bot) (adminID : Int) (entry : navEntry) :
    pushNav b adminID entry = b ∨
    ∃ s, pushNav b adminID entry = persistNav (b.setNav adminID s) adminID s := by
  unfold pushNav
  dsimp only
  split
  · exact Or.inl rfl
  · split
    · exact Or.inl rfl
    · exact Or.inr ⟨_, rfl⟩

/-- The shape of a pop: the empty indicator and nothing else, or a shorter stack that is
persisted. -/
theorem popNav_cases (b : Bot) (adminID : Int) :
    popNav b adminID = (b, NavigationEntry.zero, false) ∨
    ∃ b1 s e, b1.admins = b.admins ∧ popNav b adminID = (persistNav b1 adminID s, e, true) := by
  unfold popNav
  dsimp only
  split
  · exact Or.inl rfl
  · refine Or.inr ⟨_, _, _, ?_, rfl⟩
    split <;> rfl

/-- C6, as stated, fails: admin 1 has a create_team wizard stored; the press of team_open
(a push) leaves a row without flow name and without wizard state, and the free-text
message Eagles, which the wizard would have answered with its next prompt, gets no answer. -/
theorem wizard_lost_on_push :
    storedFlow wizardBot 1 = some (some "create_team") ∧
    sentTexts (handleMessage sampleEnv wizardBot (textMsg "Eagles")).1.log =
      ["Создание команды: введите название.", "Введите короткий код (например, U12)."] ∧
    storedFlow (handleCallback sampleEnv wizardBot (press "team_open|id=3")).1 1 = some none ∧
    storedWizard (handleCallback sampleEnv wizardBot (press "team_open|id=3")).1 1
      = some WizardState.zero ∧
    sentTexts (handleMessage sampleEnv
        (handleCallback sampleEnv wizardBot (press "team_open|id=3")).1 (textMsg "Eagles")).1.log =
      ["Создание команды: введите название."] := by
  decide

/-- C6, amended: a push or pop either changes nothing (a push with an empty action or of a
duplicate of the top, a pop on an empty stack) or persists the new stack alone: then the
stored row has no flow name, the stored wizard state reads back as the zero state, and the
next free-text message of the admin causes a session read and nothing else (no prompt, no
save): it is not fed to a wizard. -/
theorem nav_change_replaces_wizard (env : Env) (b : Bot) (adminID : Int) (entry : navEntry)
    (msg : Message) (hfrom : msg.From = some adminID) (hadmin : adminID ∈ b.admins)
    (htext : msg.Command = none) :
    (pushNav b adminID entry = b ∨
      (storedFlow (pushNav b adminID entry) adminID = some none ∧
       storedWizard (pushNav b adminID entry) adminID = some WizardState.zero ∧
       (handleMessage env (pushNav b adminID entry) msg).1.rows
         = (pushNav b adminID entry).rows ∧
       (handleMessage env (pushNav b adminID entry) msg).1.log
         = (pushNav b adminID entry).log ++ [Effect.sessionGet adminID])) ∧
    (popNav b adminID = (b, NavigationEntry.zero, false) ∨
      (storedFlow (popNav b adminID).1 adminID = some none ∧
       storedWizard (popNav b adminID).1 adminID = some WizardState.zero ∧
       (handleMessage env (popNav b adminID).1 msg).1.rows = (popNav b adminID).1.rows ∧
       (handleMessage env (popNav b adminID).1 msg).1.log
         = (popNav b adminID).1.log ++ [Effect.sessionGet adminID])) := by
  constructor
  · rcases pushNav_cases b adminID entry with h | ⟨s, h⟩
    · exact Or.inl h
    · right
      rw [h]
      have := persistNav_drops_wizard env (b.setNav adminID s) adminID s msg hfrom hadmin htext
      exact ⟨this.1, this.2.1, this.2.2.2.1, this.2.2.2.2⟩
  · rcases popNav_cases b adminID with h | ⟨b1, s, e, hb1, h⟩
    · exact Or.inl h
    · right
      rw [h]
      have := persistNav_drops_wizard env b1 adminID s msg hfrom (hb1 ▸ hadmin) htext
      exact ⟨this.1, this.2.1, this.2.2.2.1, this.2.2.2.2⟩

/-- Witness of C6: the push of `team_open` for admin 1 with a stored create_team wizard. -/
theorem nav_change_replaces_wizard_witness :
    (textMsg "Eagles").From = some 1 ∧ (1 : Int) ∈ wizardBot.admins ∧
    (textMsg "Eagles").Command = none ∧ pushNav wizardBot 1 teamsMenuEntry ≠ wizardBot ∧
    storedFlow (pushNav wizardBot 1 teamsMenuEntry) 1 = some none :=
  ⟨rfl, by decide, rfl, fun h => absurd (congrArg (fun x => x.nav 1) h) (by decide),
    ((nav_change_replaces_wizard sampleEnv wizardBot 1 teamsMenuEntry (textMsg "Eagles")
        rfl (by decide) rfl).1.resolve_left
      (fun h => absurd (congrArg (fun x => x.nav 1) h) (by decide))).1⟩

/-- Every command branch makes exactly one call: a message or a screen. -/
theorem runCommand_emit (env : Env) (b : Bot) (chatID : Int) (command : String) :
    ∃ e, (runCommand env b chatID command).1 = b.emit e := by
  unfold runCommand
  repeat' split
  all_goals exact ⟨_, rfl⟩

/-- C7, as stated, fails: admin 1 has a create_team wizard stored and no in-memory stack;
after the command /start the wizard is still stored, and the next free-text message is
answered by the wizard with the prompt of its next step. -/
theorem command_keeps_wizard_without_stack :
    wizardBot.nav 1 = none ∧
    storedFlow wizardBot 1 = some (some "create_team") ∧
    storedFlow (handleMessage sampleEnv wizardBot (commandMsg "start")).1 1
      = some (some "create_team") ∧
    sentTexts (handleMessage sampleEnv
        (handleMessage sampleEnv wizardBot (commandMsg "start")).1 (textMsg "Eagles")).1.log =
      ["Создание команды: введите название.",
       "Доступные разделы: /tournaments, /teams, /players, /tournament_rosters, /games.",
       "Введите короткий код (например, U12)."] ∧
    (storedWizard (handleMessage sampleEnv
        (handleMessage sampleEnv wizardBot (commandMsg "start")).1 (textMsg "Eagles")).1 1).map
        (fun w => w.Step) = some 1 := by
  decide

/-- C7, amended: a slash command of an admin clears the stored wizard exactly when the
admin has an in-memory navigation stack. With a stack present, `clearNav` persists an
empty session: the row has no flow name and the next free-text message causes a session
read and nothing else. With the stack absent the command writes nothing: the session table
is unchanged, so a stored wizard stays active. -/
theorem command_clears_wizard_with_stack (env : Env) (b : Bot) (adminID : Int)
    (msg next : Message) (command : String)
    (hfrom : msg.From = some adminID) (hadmin : adminID ∈ b.admins)
    (hcmd : msg.Command = some command)
    (hnext : next.From = some adminID) (hnextText : next.Command = none) :
    ((b.nav adminID).isSome = true →
      storedFlow (handleMessage env b msg).1 adminID = some none ∧
      storedWizard (handleMessage env b msg).1 adminID = some WizardState.zero ∧
      (handleMessage env (handleMessage env b msg).1 next).1.rows
        = (handleMessage env b msg).1.rows ∧
      (handleMessage env (handleMessage env b msg).1 next).1.log
        = (handleMessage env b msg).1.log ++ [Effect.sessionGet adminID]) ∧
    (b.nav adminID = none →
      (handleMessage env b msg).1.rows = b.rows ∧
      (handleMessage env b msg).1.nav adminID = none) := by
  have hm : handleMessage env b msg = runCommand env (clearNav b adminID) msg.ChatID command := by
    unfold handleMessage
    simp [hfrom, hcmd, isAdmin, hadmin]
  obtain ⟨e, he⟩ := runCommand_emit env (clearNav b adminID) msg.ChatID command
  rw [hm, he]
  constructor
  · intro hs
    have hc : clearNav b adminID = persistNav (b.deleteNav adminID) adminID [] := by
      unfold clearNav
      simp [hs]
    rw [hc]
    have hadmin' : adminID ∈ (b.deleteNav adminID).admins := hadmin
    obtain ⟨h1, h2, h3, h4⟩ := load_after_persistNav (b.deleteNav adminID) adminID []
    have hrows : ((persistNav (b.deleteNav adminID) adminID []).emit e).rows
        = (persistNav (b.deleteNav adminID) adminID []).rows := rfl
    have hl := Store.Load_snd_of_rows _ _ adminID (some WizardState.zero) (some []) hrows
    have hw : storedWizard ((persistNav (b.deleteNav adminID) adminID []).emit e) adminID
        = some WizardState.zero := by
      unfold storedWizard; rw [hl]; exact h3
    have hig := handleMessage_ignored env ((persistNav (b.deleteNav adminID) adminID []).emit e)
      adminID next hnext (by rw [emit_admins, persistNav_admins]; exact hadmin) hnextText
      (by rw [hl]; exact h1) hw
    refine ⟨?_, hw, hig.2.1, hig.2.2⟩
    have := persistNav_storedFlow (b.deleteNav adminID) adminID []
    simpa [storedFlow] using this
  · intro hn
    have hc : clearNav b adminID = b.deleteNav adminID := by
      unfold clearNav
      simp [hn]
    rw [hc]
    exact ⟨rfl, by simp [Bot.deleteNav]⟩

/-- Witness of C7: admin 1 with a stored edit_team wizard and a stack of one entry sends
/start. -/
theorem command_clears_wizard_with_stack_witness :
    (commandMsg "start").From = some 1 ∧ (1 : Int) ∈ wizardNavBot.admins ∧
    (commandMsg "start").Command = some "start" ∧
    (wizardNavBot.nav 1).isSome = true ∧
    storedFlow wizardNavBot 1 = some (some "edit_team") ∧
    storedFlow (handleMessage sampleEnv wizardNavBot (commandMsg "start")).1 1 = some none :=
  ⟨rfl, by decide, rfl, by decide, by decide,
    ((command_clears_wizard_with_stack sampleEnv wizardNavBot 1 (commandMsg "start")
      (textMsg "Eagles") "start" rfl (by decide) rfl rfl rfl).1 (by decide)).1⟩

/-- What a pop returns depends on the in-memory stack only. -/
theorem popNav_returns_top (b : Bot) (adminID : Int) (top : navEntry)
    (htop : (b.stack adminID).getLast? = some top) : (popNav b adminID).2 = (top, true) := by
  unfold popNav
  simp [htop]

/-- C8, as stated, fails: admin 1 opened a team (one entry on the stack), ran the
create_team wizard to its end (one `Teams.Create` call, the session row deleted), and the
stack still holds the entry: a go-back press pops it with the flag true. -/
theorem stack_survives_wizard_finish :
    domainCalls finishedBot.log = [DomainCall.teamsCreate ⟨"Eagles", "U12", true, none⟩] ∧
    storedFlow finishedBot 1 = none ∧
    finishedBot.stack 1 = [teamsMenuEntry] ∧
    (popNav finishedBot 1).2 = (teamsMenuEntry, true) := by
  decide

/-- C8, amended: no wizard step changes the in-memory stack, so a go-back press right
after any step, the final one included, pops the top of the stack the admin had; the final
step of create_team, whenever it completes, deletes the stored session row, and with it the
persisted history (it completes unless the field map is nil and a note is to be stored,
where the assignment panics). -/
theorem wizard_finish_keeps_stack (env : Env) (b : Bot) (msg : Message) (adminID : Int)
    (state : WizardState) (top : navEntry)
    (htop : (b.stack adminID).getLast? = some top) :
    (popNav (advanceWizard env b msg adminID state).1 adminID).2 = (top, true) ∧
    (state.Flow = "create_team" → state.Step = 3 →
      state.Data ≠ none ∨ trimSpace msg.Text = "-" ∨ trimSpace msg.Text = "" →
      (advanceWizard env b msg adminID state).1.rows adminID = none) := by
  constructor
  · apply popNav_returns_top
    have : (advanceWizard env b msg adminID state).1.stack adminID = b.stack adminID := by
      simp [Bot.stack, advanceWizard_nav]
    rw [this]; exact htop
  · intro hf hs hd
    unfold advanceWizard
    have h1 : state.Flow ≠ "create_tournament" := by rw [hf]; decide
    have h2 : state.Flow ≠ "edit_tournament" := by rw [hf]; decide
    rw [if_neg h1, if_neg h2, if_pos hf]
    unfold advanceTeamWizard
    have s0 : state.Step ≠ 0 := by rw [hs]; decide
    have s1 : state.Step ≠ 1 := by rw [hs]; decide
    have s2 : state.Step ≠ 2 := by rw [hs]; decide
    simp only [if_neg s0, if_neg s1, if_neg s2, if_pos hs]
    have ha : ∃ st, (if trimSpace msg.Text ≠ "-" ∧ trimSpace msg.Text ≠ "" then
        state.put "note" (trimSpace msg.Text) else some state) = some st := by
      split
      · rename_i ht
        rcases hd with hd | hd | hd
        · obtain ⟨m, hm⟩ := Option.ne_none_iff_exists'.mp hd
          refine ⟨⟨state.Flow, state.Step, some (mapSet m "note" (trimSpace msg.Text))⟩, ?_⟩
          simp only [WizardState.put, hm]
        · exact absurd hd ht.1
        · exact absurd hd ht.2
      · exact ⟨_, rfl⟩
    obtain ⟨st, hst⟩ := ha
    rw [hst, afterAssign_some]
    exact Store.Clear_rows_self _ _

/-- Witness of C8: the last answer of create_team for an admin whose stack holds the
entry of `team_open`. -/
theorem wizard_finish_keeps_stack_witness :
    ((freshBot.setNav 1 [teamsMenuEntry]).stack 1).getLast? = some teamsMenuEntry ∧
    (popNav (advanceWizard sampleEnv (freshBot.setNav 1 [teamsMenuEntry]) (textMsg "-") 1
        ⟨"create_team", 3, some (mapSet (mapSet ∅ "name" "Eagles") "short_code" "U12")⟩).1 1).2
      = (teamsMenuEntry, true) :=
  ⟨by decide,
    (wizard_finish_keeps_stack sampleEnv (freshBot.setNav 1 [teamsMenuEntry]) (textMsg "-") 1
      ⟨"create_team", 3, some (mapSet (mapSet ∅ "name" "Eagles") "short_code" "U12")⟩ teamsMenuEntry
      (by decide)).1⟩

/-- The free-text branch of `handleMessage` for an admin whose session loads without
error. -/
theorem handleMessage_text (env : Env) (b : Bot) (adminID : Int) (msg : Message)
    (hfrom : msg.From = some adminID) (hadmin : adminID ∈ b.admins)
    (htext : msg.Command = none)
    (herr : (Store.Load b adminID (some WizardState.zero) (some [])).2.err = none) :
    handleMessage env b msg =
      if (Store.Load b adminID (some WizardState.zero) (some [])).2.session.isNone ∨
          ((Store.Load b adminID (some WizardState.zero) (some [])).2.wizardOut.getD
            WizardState.zero).Flow = "" then
        (restoreNav (b.emit (.sessionGet adminID)) adminID (storedNav b adminID), none)
      else
        advanceWizard env (restoreNav (b.emit (.sessionGet adminID)) adminID (storedNav b adminID))
          msg adminID
          ((Store.Load b adminID (some WizardState.zero) (some [])).2.wizardOut.getD
            WizardState.zero) := by
  have ha : isAdmin b adminID = true := by simp [isAdmin, hadmin]
  unfold handleMessage storedNav
  simp only [hfrom, htext, ha, Bool.true_eq_false, if_false, herr, Store.Load_fst]

/-- A free-text message of an admin reconstructs the stack from the store: afterwards the
in-memory stack is the stored list, cut to its last ten entries. -/
theorem handleMessage_restores_nav (env : Env) (b : Bot) (adminID : Int) (msg : Message)
    (hfrom : msg.From = some adminID) (hadmin : adminID ∈ b.admins)
    (htext : msg.Command = none)
    (herr : (Store.Load b adminID (some WizardState.zero) (some [])).2.err = none) :
    (handleMessage env b msg).1.stack adminID
      = (storedNav b adminID).drop ((storedNav b adminID).length - maxNavDepth) := by
  have hr : ∀ (b0 : Bot) (es : List NavigationEntry),
      (restoreNav b0 adminID es).stack adminID = es.drop (es.length - maxNavDepth) := by
    intro b0 es
    unfold restoreNav
    split
    · rename_i h
      rw [stack_deleteNav, List.length_eq_zero.mp h]; rfl
    · split
      · exact stack_setNav _ _ _
      · rename_i h
        rw [stack_setNav]
        have : es.length - maxNavDepth = 0 := by omega
        rw [this]; rfl
  rw [handleMessage_text env b adminID msg hfrom hadmin htext herr]
  split
  · exact hr _ _
  · have : ∀ r : Bot × GoError, ∀ b0 : Bot, r.1.nav = b0.nav →
        r.1.stack adminID = b0.stack adminID := by
      intro r b0 h; simp [Bot.stack, h]
    rw [this _ _ (advanceWizard_nav _ _ _ _ _)]
    exact hr _ _

/-- A go-back press of an admin without in-memory stack answers that the history is empty,
whatever the session store holds: `handleCallback` never reads the store. -/
theorem handleCallback_back_without_stack (env : Env) (b : Bot) (adminID : Int)
    (cb : CallbackQuery) (hfrom : cb.From = some adminID) (hadmin : adminID ∈ b.admins)
    (hdata : cb.Data = "nav_back") (hnav : b.nav adminID = none) :
    handleCallback env b cb = replyOnly b cb.ChatID "История экранов пуста." := by
  have hp : parseCallback "nav_back" = (some ⟨"nav_back", ∅⟩, none) := by decide
  have ha : isAdmin b adminID = true := by simp [isAdmin, hadmin]
  unfold handleCallback
  simp only [hfrom, ha, Bool.true_eq_false, if_false, hdata, hp]
  unfold dispatchCallback popNav
  simp [Bot.stack, hnav]

/-- C9, the code at the failing input: in a restarted process (empty navigation map) whose
store holds one navigation entry for admin 1, a first go-back press pops nothing, answers
that the history is empty and leaves the stored entry where it was; a first free-text
message, the sibling path, does reconstruct the stack from the store. -/
theorem restart_go_back_finds_nothing :
    restartedBot.nav 1 = none ∧
    storedNav restartedBot 1 = [entry1 "tournaments_page" "page" "1"] ∧
    (popNav restartedBot 1).2 = (NavigationEntry.zero, false) ∧
    sentTexts (handleCallback sampleEnv restartedBot (press "nav_back")).1.log
      = ["История экранов пуста."] ∧
    (handleCallback sampleEnv restartedBot (press "nav_back")).1.nav 1 = none ∧
    storedNav (handleCallback sampleEnv restartedBot (press "nav_back")).1 1
      = [entry1 "tournaments_page" "page" "1"] ∧
    (handleMessage sampleEnv restartedBot (textMsg "hello")).1.nav 1
      = some [entry1 "tournaments_page" "page" "1"] := by
  decide

/-! ## Step validation: a rejected answer only sends a message, an accepted one advances -/


theorem advanceWizard_edit_tournament (env : Env) (b : Bot) (msg : Message) (adminID : Int)
    (state : WizardState) (hf : state.Flow = "edit_tournament") :
    advanceWizard env b msg adminID state = advanceTournamentEditWizard env b msg adminID state := by
  unfold advanceWizard
  simp only [hf, String.reduceEq, ↓reduceIte]

theorem advanceWizard_create_team (env : Env) (b : Bot) (msg : Message) (adminID : Int)
    (state : WizardState) (hf : state.Flow = "create_team") :
    advanceWizard env b msg adminID state = advanceTeamWizard env b msg adminID state := by
  unfold advanceWizard
  simp only [hf, String.reduceEq, ↓reduceIte]

/-- No member name of a marshalled wizard state is a field of the envelope. -/
theorem decodePersistedSession_marshalWizardState (w : WizardState) :
    decodePersistedSession persistedSession.zero (marshalWizardState w)
      = (persistedSession.zero, true) := by
  have f1 : fieldIs "wizard" "flow" = false := by decide
  have f2 : fieldIs "nav" "flow" = false := by decide
  have f3 : fieldIs "wizard" "step" = false := by decide
  have f4 : fieldIs "nav" "step" = false := by decide
  have f5 : fieldIs "wizard" "data" = false := by decide
  have f6 : fieldIs "nav" "data" = false := by decide
  simp [decodePersistedSession, marshalWizardState, decodeEnvelopeMember, f1, f2, f3, f4, f5, f6]

/-- C13: for a row whose blob is a marshalled wizard state (step in the range of `int`), not
the envelope, `Store.Load` into a fresh wizard state returns the row and no error, decodes
the blob into the wizard output and sets the navigation output to the empty list, whatever
it held before. -/
theorem legacy_blob_load (b : Bot) (adminID : Int) (row : AdminSession) (w : WizardState)
    (navBefore : List NavigationEntry) (hrow : b.rows adminID = some row)
    (hblob : row.FlowState = .doc (marshalWizardState w)) (hstep : isInt64 w.Step) :
    (Store.Load b adminID (some WizardState.zero) (some navBefore)).2.session = some row ∧
    (Store.Load b adminID (some WizardState.zero) (some navBefore)).2.err = none ∧
    (Store.Load b adminID (some WizardState.zero) (some navBefore)).2.wizardOut = some w ∧
    (Store.Load b adminID (some WizardState.zero) (some navBefore)).2.navOut = some [] := by
  have hd := decodePersistedSession_marshalWizardState w
  simp only [persistedSession.zero] at hd
  simp [Store.Load, Store.loadFrom, sessionsGet, hrow, hblob, Bytes.nonEmpty, unmarshal,
    hd, persistedSession.zero, decodeWizardState_marshal w hstep]

/-- Witness of C13: a row that holds a create_team state at step 1 in the old shape. -/
theorem legacy_blob_load_witness :
    legacyBot.rows 1 = some legacyRow ∧ isInt64 1 ∧
    (Store.Load legacyBot 1 (some WizardState.zero) (some [teamsMenuEntry])).2.wizardOut
      = some ⟨"create_team", 1, some (mapSet ∅ "name" "Eagles")⟩ :=
  ⟨rfl, by decide,
    (legacy_blob_load legacyBot 1 legacyRow ⟨"create_team", 1, some (mapSet ∅ "name" "Eagles")⟩
      [teamsMenuEntry] rfl rfl (by decide)).2.2.1⟩

/-- C15: without a row for the admin `Store.Load` returns a nil session and no error and
leaves the wizard output as it was; and whatever `sessions.Get` answered (no row, an error,
a row with any blob), the navigation output after the call is the empty list, unless the
blob decoded as an envelope with at least one entry, which is then the output: in no case
does it depend on the list the caller passed in. -/
theorem load_overwrites_nav (b : Bot) (adminID : Int) (w : WizardState)
    (session : Option AdminSession) (err : GoError) (wizardOut : Option WizardState)
    (navBefore : List NavigationEntry) :
    (b.rows adminID = none →
      (Store.Load b adminID (some w) (some navBefore)).2.session = none ∧
      (Store.Load b adminID (some w) (some navBefore)).2.err = none ∧
      (Store.Load b adminID (some w) (some navBefore)).2.wizardOut = some w ∧
      (Store.Load b adminID (some w) (some navBefore)).2.navOut = some []) ∧
    ((Store.loadFrom session err wizardOut (some navBefore)).navOut = some [] ∨
      ∃ row envelope entries, session = some row ∧ err = none ∧
        unmarshal decodePersistedSession row.FlowState persistedSession.zero
          = (envelope, none) ∧
        envelope.Nav = some entries ∧ entries ≠ [] ∧
        (Store.loadFrom session err wizardOut (some navBefore)).navOut = some entries) := by
  constructor
  · intro hrow
    simp [Store.Load, Store.loadFrom, sessionsGet, hrow]
  · unfold Store.loadFrom
    cases err with
    | some e => left; rfl
    | none =>
      cases session with
      | none => left; rfl
      | some row =>
        simp only
        split
        · split
          · rename_i hcond
            cases hnav : (unmarshal decodePersistedSession row.FlowState
                persistedSession.zero).1.Nav with
            | none =>
              left
              cases wizardOut with
              | none => simp [hnav]
              | some w0 =>
                simp only [hnav]
                repeat' split
                all_goals simp
            | some entries =>
              cases entries with
              | nil =>
                left
                cases wizardOut with
                | none => simp [hnav]
                | some w0 =>
                  simp only [hnav]
                  repeat' split
                  all_goals simp
              | cons e es =>
                cases wizardOut with
                | none =>
                  right
                  refine ⟨row, _, e :: es, by first | rfl | trivial, by first | rfl | trivial,
                    Prod.ext rfl ?_, hnav, by simp, ?_⟩
                  · exact Option.isNone_iff_eq_none.mp hcond.1
                  · simp [hnav]
                | some w0 =>
                  simp only [hnav]
                  split
                  · split
                    · left; rfl
                    · right
                      refine ⟨row, _, e :: es, by first | rfl | trivial, by first | rfl | trivial,
                    Prod.ext rfl ?_, hnav, by simp, ?_⟩
                      · exact Option.isNone_iff_eq_none.mp hcond.1
                      · simp
                  · right
                    refine ⟨row, _, e :: es, by first | rfl | trivial, by first | rfl | trivial,
                    Prod.ext rfl ?_, hnav, by simp, ?_⟩
                    · exact Option.isNone_iff_eq_none.mp hcond.1
                    · simp
          · left
            cases wizardOut with
            | none => rfl
            | some w0 =>
              simp only
              split <;> rfl
        · left; rfl

/-- Witness of C15: a fresh process has no row for admin 1. -/
theorem load_overwrites_nav_witness :
    freshBot.rows 1 = none ∧
    (Store.Load freshBot 1 (some WizardState.zero) (some [teamsMenuEntry])).2.navOut
      = some [] :=
  ⟨rfl,
    ((load_overwrites_nav freshBot 1 WizardState.zero none none none [teamsMenuEntry]).1
      rfl).2.2.2⟩

/-- C16: `restoreNav` followed by `snapshotNav` gives the list itself when it has at most
ten entries (the empty list included) and its last ten entries, in order, otherwise. -/
theorem restore_then_snapshot (b : Bot) (adminID : Int) (entries : List NavigationEntry) :
    snapshotNav (restoreNav b adminID entries) adminID
      = (if entries.length ≤ maxNavDepth then entries
         else entries.drop (entries.length - maxNavDepth)) ∧
    (snapshotNav (restoreNav b adminID entries) adminID).length
      = min entries.length maxNavDepth ∧
    snapshotNav (restoreNav b adminID []) adminID = [] := by
  have h : snapshotNav (restoreNav b adminID entries) adminID
      = (if entries.length ≤ maxNavDepth then entries
         else entries.drop (entries.length - maxNavDepth)) := by
    unfold snapshotNav restoreNav
    split
    · rename_i h0
      rw [stack_deleteNav, List.length_eq_zero.mp h0]; rfl
    · split
      · rename_i h1
        rw [stack_setNav, if_neg (by omega)]
      · rename_i h1
        rw [stack_setNav, if_pos (by omega)]
  refine ⟨h, ?_, ?_⟩
  · rw [h]
    split
    · omega
    · rw [List.length_drop]; simp only [maxNavDepth] at *; omega
  · unfold snapshotNav restoreNav
    simp [stack_deleteNav]

/-- A pop from a stack of exactly one entry returns the entry and removes the key of the
admin from the navigation map. -/
theorem popNav_single (b : Bot) (adminID : Int) (entry : navEntry)
    (h : b.nav adminID = some [entry]) :
    (popNav b adminID).2 = (entry, true) ∧ (popNav b adminID).1.nav adminID = none := by
  simp [popNav, Bot.stack, h, persistNav_nav, Bot.deleteNav]

/-- C17: `popNav` for an admin without a key in the navigation map returns the zero entry
and false and the state it was given (no change of the map, no call); for an admin whose
stack holds exactly one entry it returns that entry and true and leaves the admin without
a key in the map. -/
theorem popNav_absent_and_last (b : Bot) (adminID : Int) (entry : navEntry) :
    (b.nav adminID = none → popNav b adminID = (b, NavigationEntry.zero, false)) ∧
    (b.nav adminID = some [entry] →
      (popNav b adminID).2 = (entry, true) ∧ (popNav b adminID).1.nav adminID = none) := by
  constructor
  · intro h
    simp [popNav, Bot.stack, h]
  · exact popNav_single b adminID entry

/-- Witness of C17: a fresh process, and a process in which admin 1 holds one entry. -/
theorem popNav_absent_and_last_witness :
    freshBot.nav 1 = none ∧ (popNav freshBot 1).2 = (NavigationEntry.zero, false) ∧
    (freshBot.setNav 1 [teamsMenuEntry]).nav 1 = some [teamsMenuEntry] ∧
    (popNav (freshBot.setNav 1 [teamsMenuEntry]) 1).1.nav 1 = none :=
  ⟨rfl,
    congrArg Prod.snd ((popNav_absent_and_last freshBot 1 teamsMenuEntry).1 rfl),
    by decide,
    ((popNav_absent_and_last (freshBot.setNav 1 [teamsMenuEntry]) 1 teamsMenuEntry).2
      (by decide)).2⟩

/-! ## Claims C19 and C20: `parseCallback` -/

theorem splitOnChar_ne_nil (sep : Char) (cs : List Char) : splitOnChar sep cs ≠ [] := by
  induction cs with
  | nil => simp [splitOnChar]
  | cons c cs ih =>
    unfold splitOnChar
    split
    · simp
    · split <;> simp

theorem splitOnChar_of_not_mem (sep : Char) (cs : List Char) (h : sep ∉ cs) :
    splitOnChar sep cs = [cs] := by
  induction cs with
  | nil => rfl
  | cons c cs ih =>
    have hc : c ≠ sep := fun e => h (e ▸ List.mem_cons_self _ _)
    have ih' := ih (fun hm => h (List.mem_cons_of_mem _ hm))
    unfold splitOnChar
    rw [if_neg hc, ih']

theorem splitOnChar_append (sep : Char) (cs rest : List Char) (h : sep ∉ cs) :
    splitOnChar sep (cs ++ sep :: rest) = cs :: splitOnChar sep rest := by
  induction cs with
  | nil => simp [splitOnChar]
  | cons c cs ih =>
    have hc : c ≠ sep := fun e => h (e ▸ List.mem_cons_self _ _)
    have ih' := ih (fun hm => h (List.mem_cons_of_mem _ hm))
    rw [List.cons_append, splitOnChar, if_neg hc, ih']

theorem splitOnChar_payload (a : List Char) (pairs : List (String × String))
    (ha : '|' ∉ a) (hk : ∀ kv ∈ pairs, '|' ∉ kv.1.data) (hv : ∀ kv ∈ pairs, '|' ∉ kv.2.data) :
    splitOnChar '|' (a ++ pairs.flatMap fun kv => '|' :: (kv.1.data ++ '=' :: kv.2.data))
      = a :: pairs.map fun kv => kv.1.data ++ '=' :: kv.2.data := by
  induction pairs generalizing a with
  | nil => simp [splitOnChar_of_not_mem _ _ ha]
  | cons kv pairs ih =>
    simp only [List.flatMap_cons, List.cons_append, List.map_cons]
    rw [splitOnChar_append _ _ _ ha]
    apply congrArg
    have := ih (kv.1.data ++ '=' :: kv.2.data) ?_ ?_ ?_
    · simpa [List.append_assoc] using this
    · intro hm
      rcases List.mem_append.mp hm with h | h
      · exact hk kv (List.mem_cons_self _ _) h
      · rcases List.mem_cons.mp h with h | h
        · exact absurd h (by decide)
        · exact hv kv (List.mem_cons_self _ _) h
    · exact fun x hx => hk x (List.mem_cons_of_mem _ hx)
    · exact fun x hx => hv x (List.mem_cons_of_mem _ hx)

theorem parseCallbackPart_pair (params : GoMap) (k v : String) (hk : '=' ∉ k.data) :
    parseCallbackPart params (k.data ++ '=' :: v.data) = mapSet params k v := by
  have hall : ∀ c ∈ k.data, (fun c => decide (c ≠ '=')) c = true := by
    intro c hc
    have : c ≠ '=' := fun e => hk (e ▸ hc)
    simpa using this
  have htake : (k.data ++ '=' :: v.data).takeWhile (fun c => c ≠ '=') = k.data := by
    rw [List.takeWhile_append_of_pos hall]
    simp
  have hdrop : (k.data ++ '=' :: v.data).dropWhile (fun c => c ≠ '=') = '=' :: v.data := by
    rw [List.dropWhile_append_of_pos hall]
    simp
  unfold parseCallbackPart
  have h1 : k.data ++ '=' :: v.data ≠ [] := by simp
  have h2 : '=' ∈ k.data ++ '=' :: v.data := by simp
  rw [if_neg h1, if_pos h2, htake, hdrop]
  rfl

theorem foldl_parseCallbackPart (pairs : List (String × String))
    (hk : ∀ kv ∈ pairs, '=' ∉ kv.1.data) :
    ∀ acc : GoMap,
      (pairs.map fun kv => kv.1.data ++ '=' :: kv.2.data).foldl parseCallbackPart acc
        = pairs.foldl (fun m kv => mapSet m kv.1 kv.2) acc := by
  induction pairs with
  | nil => intro acc; rfl
  | cons kv pairs ih =>
    intro acc
    simp only [List.map_cons, List.foldl_cons]
    rw [parseCallbackPart_pair _ _ _ (hk kv (List.mem_cons_self _ _)),
      ih (fun x hx => hk x (List.mem_cons_of_mem _ hx))]

theorem lookup_foldl_mapSet_of_not_mem (pairs : List (String × String)) (k : String)
    (h : k ∉ pairs.map Prod.fst) :
    ∀ acc : GoMap,
      (pairs.foldl (fun m kv => mapSet m kv.1 kv.2) acc).lookup k = acc.lookup k := by
  induction pairs with
  | nil => intro acc; rfl
  | cons kv pairs ih =>
    intro acc
    simp only [List.map_cons, List.mem_cons, not_or] at h
    simp only [List.foldl_cons]
    rw [ih h.2, mapSet, Finmap.lookup_insert_of_ne _ h.1]

theorem lookup_foldl_mapSet (pairs : List (String × String))
    (hd : (pairs.map Prod.fst).Nodup) :
    ∀ acc : GoMap, ∀ kv ∈ pairs,
      (pairs.foldl (fun m kv => mapSet m kv.1 kv.2) acc).lookup kv.1 = some kv.2 := by
  induction pairs with
  | nil => intro acc kv h; cases h
  | cons kv0 pairs ih =>
    intro acc kv hmem
    simp only [List.map_cons, List.nodup_cons] at hd
    simp only [List.foldl_cons]
    rcases List.mem_cons.mp hmem with h | h
    · subst h
      rw [lookup_foldl_mapSet_of_not_mem _ _ hd.1, mapSet, Finmap.lookup_insert]
    · exact ih hd.2 _ kv h

theorem mem_foldl_mapSet (pairs : List (String × String)) (k : String) :
    ∀ acc : GoMap, k ∈ pairs.foldl (fun m kv => mapSet m kv.1 kv.2) acc →
      k ∈ acc ∨ k ∈ pairs.map Prod.fst := by
  induction pairs with
  | nil => intro acc h; exact Or.inl h
  | cons kv pairs ih =>
    intro acc h
    simp only [List.foldl_cons] at h
    rcases ih _ h with h1 | h1
    · rw [mapSet, Finmap.mem_insert] at h1
      rcases h1 with h2 | h2
      · exact Or.inr (by simp [h2])
      · exact Or.inl h2
    · exact Or.inr (List.mem_cons_of_mem _ h1)

/-- C19, the code at the failing inputs: `parseCallback` returns a payload and a nil error
for every text. The empty payload is decoded as the empty action without parameters, and
`handleCallback` routes it to the default case (the answer that the function is being
worked on, then the closing answer), not to the notice for an incorrect button; a payload
with an empty action tag or with a segment that is no key=value pair is decoded as well,
and the press of `team_open|junk` is routed to `team_open` and pushes a stack entry. -/
theorem parseCallback_never_fails :
    (∀ data : String, ∃ payload, parseCallback data = (some payload, none)) ∧
    parseCallback "" = (some ⟨"", ∅⟩, none) ∧
    parseCallback "|id=5" = (some ⟨"", mapSet ∅ "id" "5"⟩, none) ∧
    parseCallback "team_open|junk" = (some ⟨"team_open", ∅⟩, none) ∧
    answerTexts (handleCallback sampleEnv freshBot (press "")).1.log
      = ["Функция в разработке", ""] ∧
    (handleCallback sampleEnv freshBot (press "team_open|junk")).1.stack 1
      = [teamsMenuEntry] ∧
    answerTexts (handleCallback sampleEnv freshBot (press "team_open|junk")).1.log = [] := by
  refine ⟨?_, by decide, by decide, by decide, by decide, by decide, by decide⟩
  intro data
  unfold parseCallback
  cases h : splitOnChar '|' data.data with
  | nil => exact absurd h (splitOnChar_ne_nil _ _)
  | cons a rest => exact ⟨_, rfl⟩

/-- C20: for an action without `|` and pairs with pairwise distinct keys, where no key
contains `|` or `=` and no value contains `|`, `parseCallback` of the text
`a|k_1=v_1|...|k_n=v_n` returns a nil error and a payload with the action `a` whose
parameter map holds `v_i` under `k_i` for every pair and has no other key. -/
theorem parseCallback_payloadText (a : String) (pairs : List (String × String))
    (ha : '|' ∉ a.data)
    (hk : ∀ kv ∈ pairs, '|' ∉ kv.1.data ∧ '=' ∉ kv.1.data)
    (hv : ∀ kv ∈ pairs, '|' ∉ kv.2.data)
    (hd : (pairs.map Prod.fst).Nodup) :
    ∃ payload, parseCallback (payloadText a pairs) = (some payload, none) ∧
      payload.Action = a ∧
      (∀ kv ∈ pairs, payload.Params.lookup kv.1 = some kv.2) ∧
      (∀ k ∈ payload.Params, k ∈ pairs.map Prod.fst) := by
  unfold parseCallback payloadText
  simp only
  rw [splitOnChar_payload a.data pairs ha (fun kv h => (hk kv h).1) hv]
  simp only
  rw [foldl_parseCallbackPart pairs (fun kv h => (hk kv h).2)]
  refine ⟨_, rfl, rfl, lookup_foldl_mapSet pairs hd ∅, ?_⟩
  intro k hmem
  rcases mem_foldl_mapSet pairs k ∅ hmem with h | h
  · exact absurd h Finmap.not_mem_empty
  · exact h

/-- Witness of C20: the payload of `open_tournament` with two parameters, and a value that
contains `=`. -/
theorem parseCallback_payloadText_witness :
    payloadText "open_tournament" [("id", "5"), ("page", "1")] = "open_tournament|id=5|page=1" ∧
    parseCallback "a|q=x=y" = (some ⟨"a", mapSet ∅ "q" "x=y"⟩, none) ∧
    ∃ payload, parseCallback (payloadText "open_tournament" [("id", "5"), ("page", "1")])
        = (some payload, none) ∧ payload.Action = "open_tournament" :=
  ⟨by decide, by decide,
    (parseCallback_payloadText "open_tournament" [("id", "5"), ("page", "1")]
      (by decide) (by decide) (by decide) (by decide)).imp fun _ h => ⟨h.1, h.2.1⟩⟩

/-! ## Claim C18: a list, a detail screen and the way back -/

/-- The command branch of `handleMessage` for an admin. -/
theorem handleMessage_command (env : Env) (b : Bot) (adminID : Int) (msg : Message)
    (command : String) (hfrom : msg.From = some adminID) (hadmin : adminID ∈ b.admins)
    (hcmd : msg.Command = some command) :
    handleMessage env b msg = runCommand env (clearNav b adminID) msg.ChatID command := by
  unfold handleMessage
  simp [hfrom, hcmd, isAdmin, hadmin]

theorem clearNav_nav_self (b : Bot) (adminID : Int) : (clearNav b adminID).nav adminID = none := by
  unfold clearNav
  simp only
  split
  · rw [persistNav_nav]; simp [Bot.deleteNav]
  · simp [Bot.deleteNav]

theorem clearNav_admins (b : Bot) (adminID : Int) : (clearNav b adminID).admins = b.admins := by
  unfold clearNav
  simp only
  split
  · rw [persistNav_admins]; rfl
  · rfl

theorem runCommand_nav (env : Env) (b : Bot) (chatID : Int) (command : String) :
    (runCommand env b chatID command).1.nav = b.nav := by
  obtain ⟨e, he⟩ := runCommand_emit env b chatID command
  rw [he]; rfl

theorem runCommand_admins (env : Env) (b : Bot) (chatID : Int) (command : String) :
    (runCommand env b chatID command).1.admins = b.admins := by
  obtain ⟨e, he⟩ := runCommand_emit env b chatID command
  rw [he]; rfl

theorem pushNav_admins (b : Bot) (adminID : Int) (entry : navEntry) :
    (pushNav b adminID entry).admins = b.admins := by
  rcases pushNav_cases b adminID entry with h | ⟨s, h⟩
  · rw [h]
  · rw [h, persistNav_admins]; rfl

/-- The press of a button of an admin with a payload that decodes to an action and a
parameter map. -/
theorem handleCallback_dispatch (env : Env) (b : Bot) (adminID : Int) (cb : CallbackQuery)
    (payload : callbackPayload) (hfrom : cb.From = some adminID) (hadmin : adminID ∈ b.admins)
    (hdata : parseCallback cb.Data = (some payload, none)) :
    handleCallback env b cb = dispatchCallback env b cb adminID payload.Action payload.Params := by
  have ha : isAdmin b adminID = true := by simp [isAdmin, hadmin]
  unfold handleCallback
  simp only [hfrom, ha, Bool.true_eq_false, if_false, hdata]

/-- The press of `open_tournament` with page 1 by an admin without a stack: the stack
becomes the single entry of the list page and the detail screen is rendered. -/
theorem open_tournament_press (env : Env) (b : Bot) (adminID : Int) (cb : CallbackQuery)
    (hfrom : cb.From = some adminID) (hadmin : adminID ∈ b.admins)
    (hdata : cb.Data = "open_tournament|id=5|page=1") (hnav : b.stack adminID = []) :
    (handleCallback env b cb).1.nav adminID = some [entry1 "tournaments_page" "page" "1"] ∧
    (handleCallback env b cb).1.admins = b.admins ∧
    Effect.screen (.showTournament cb.ChatID cb.MessageID 5) ∈ (handleCallback env b cb).1.log := by
  have hp : parseCallback cb.Data
      = (some ⟨"open_tournament", mapSet (mapSet ∅ "id" "5") "page" "1"⟩, none) := by
    rw [hdata]; decide
  rw [handleCallback_dispatch env b adminID cb _ hfrom hadmin hp]
  have hpage : formatInt (parseIntParam (mapSet (mapSet ∅ "id" "5") "page" "1") "page" 1) = "1" := by
    decide
  have hid : (parseIntRaw (mapGet (mapSet (mapSet ∅ "id" "5") "page" "1") "id")).1 = 5 := by
    decide
  have hpush : pushNav b adminID (entry1 "tournaments_page" "page" "1")
      = persistNav (b.setNav adminID [entry1 "tournaments_page" "page" "1"]) adminID
          [entry1 "tournaments_page" "page" "1"] := by
    have hA : (entry1 "tournaments_page" "page" "1").Action ≠ "" := by decide
    unfold pushNav
    rw [if_neg hA]
    simp [hnav, maxNavDepth]
  unfold dispatchCallback
  simp only [if_true, hpage, hid, hpush]
  split
  · refine ⟨?_, ?_, ?_⟩
    · simp [runScreen, Bot.emit, persistNav_nav, Bot.setNav]
    · simp [runScreen, Bot.emit, persistNav_admins, Bot.setNav]
    · simp [runScreen, Bot.emit]
  · refine ⟨?_, ?_, ?_⟩
    · simp [answerEmpty, runScreen, Bot.emit, persistNav_nav, Bot.setNav]
    · simp [answerEmpty, runScreen, Bot.emit, persistNav_admins, Bot.setNav]
    · simp [answerEmpty, runScreen, Bot.emit]

/-- The press of `nav_back` by an admin whose stack is the single entry of page 1 of the
tournament list: the entry is popped, the admin has no stack left, and the list renderer is
called with page 1. -/
theorem nav_back_press (env : Env) (b : Bot) (adminID : Int) (cb : CallbackQuery)
    (hfrom : cb.From = some adminID) (hadmin : adminID ∈ b.admins)
    (hdata : cb.Data = "nav_back")
    (hnav : b.nav adminID = some [entry1 "tournaments_page" "page" "1"]) :
    (popNav b adminID).2 = (entry1 "tournaments_page" "page" "1", true) ∧
    (handleCallback env b cb).1.nav adminID = none ∧
    handleCallback env b cb
      = runScreen env (popNav b adminID).1 (.sendTournamentList cb.ChatID 1) := by
  have hp : parseCallback cb.Data = (some ⟨"nav_back", ∅⟩, none) := by
    rw [hdata]; decide
  have hpop := popNav_single b adminID (entry1 "tournaments_page" "page" "1") hnav
  have hpage : parseIntParam (entry1 "tournaments_page" "page" "1").Params "page" 1 = 1 := by
    decide
  have h : handleCallback env b cb
      = runScreen env (popNav b adminID).1 (.sendTournamentList cb.ChatID 1) := by
    rw [handleCallback_dispatch env b adminID cb _ hfrom hadmin hp]
    unfold dispatchCallback
    have e1 : (popNav b adminID).2.2 = true := by rw [hpop.1]
    have e2 : (popNav b adminID).2.1 = entry1 "tournaments_page" "page" "1" := by rw [hpop.1]
    simp only [String.reduceEq, if_false, if_true, e1, e2, Bool.true_eq_false]
    unfold handleNavEntry
    have e3 : (entry1 "tournaments_page" "page" "1").Action = "tournaments_page" := rfl
    rw [if_pos e3, hpage]
  refine ⟨hpop.1, ?_, h⟩
  rw [h, runScreen_nav]
  exact hpop.2

/-! ## Wizard runs -/

theorem domainCalls_append (l1 l2 : List Effect) :
    domainCalls (l1 ++ l2) = domainCalls l1 ++ domainCalls l2 := by
  induction l1 with
  | nil => rfl
  | cons e l1 ih => cases e <;> simp [domainCalls, ih]

theorem storeClears_append (l1 l2 : List Effect) :
    storeClears (l1 ++ l2) = storeClears l1 ++ storeClears l2 := by
  induction l1 with
  | nil => rfl
  | cons e l1 ih => cases e <;> simp [storeClears, ih]

theorem wizardStored_of_rows {b b' : Bot} {adminID : Int} {w : WizardState}
    (h : b'.rows = b.rows) (hs : wizardStored b adminID w) : wizardStored b' adminID w := by
  unfold wizardStored at *
  rw [Store.Load_snd_of_rows b' b adminID _ _ h]
  exact hs

theorem Store.Save_wizardStored (b : Bot) (adminID : Int) (flowName : Option String)
    (w : WizardState) (nav : List NavigationEntry) (hstep : isInt64 w.Step) :
    wizardStored (Store.Save b adminID flowName (some w) nav).1 adminID w := by
  obtain ⟨_, h1, h2, h3, _⟩ := save_then_load b adminID flowName w nav [] hstep
  refine ⟨h1, ?_, h3⟩
  cases hs : (Store.Load (Store.Save b adminID flowName (some w) nav).1 adminID
    (some WizardState.zero) (some [])).2.session with
  | none => rw [hs] at h2; cases h2
  | some s => rfl

theorem Store.Save_log (b : Bot) (adminID : Int) (flowName : Option String)
    (w : WizardState) (nav : List NavigationEntry) :
    ∃ row, (Store.Save b adminID flowName (some w) nav).1.log = b.log ++ [.sessionSave row] ∧
      (Store.Save b adminID flowName (some w) nav).1.admins = b.admins := by
  cases nav with
  | nil => simp [Store.Save, sessionsSave, Bot.emit, marshalPersistedSession]
  | cons e es => simp [Store.Save, sessionsSave, Bot.emit, marshalPersistedSession]

/-- What a step that accepts its input leaves behind: the next state is stored, and the
calls made are the prompt and one session save. -/
theorem nextStep_run (b : Bot) (adminID chatID : Int) (st : WizardState) (p : String)
    (h : isInt64 (st.Step + 1)) :
    wizardStored (nextStep b adminID chatID st p).1 adminID { st with Step := st.Step + 1 } ∧
    (nextStep b adminID chatID st p).1.admins = b.admins ∧
    domainCalls (nextStep b adminID chatID st p).1.log = domainCalls b.log ∧
    storeClears (nextStep b adminID chatID st p).1.log = storeClears b.log := by
  unfold nextStep saveSession
  obtain ⟨row, hl, ha⟩ := Store.Save_log (sendSimple b chatID p) adminID (some st.Flow)
    { st with Step := st.Step + 1 } (snapshotNav (sendSimple b chatID p) adminID)
  refine ⟨Store.Save_wizardStored _ _ _ _ _ h, ?_, ?_, ?_⟩
  · rw [ha]; rfl
  · rw [hl, domainCalls_append, sendSimple, Bot.emit, domainCalls_append]
    simp [domainCalls]
  · rw [hl, storeClears_append, sendSimple, Bot.emit, storeClears_append]
    simp [storeClears]

/-- A free-text message of an admin with a stored wizard state goes to `advanceWizard`,
after the session read and the restore of the stack. -/
theorem handleMessage_wizard (env : Env) (b : Bot) (adminID : Int) (msg : Message)
    (w : WizardState) (hfrom : msg.From = some adminID) (hadmin : adminID ∈ b.admins)
    (htext : msg.Command = none) (hs : wizardStored b adminID w) (hflow : w.Flow ≠ "") :
    handleMessage env b msg =
      advanceWizard env (restoreNav (b.emit (.sessionGet adminID)) adminID (storedNav b adminID))
        msg adminID w := by
  obtain ⟨h1, h2, h3⟩ := hs
  rw [handleMessage_text env b adminID msg hfrom hadmin htext h1, h3]
  have hn : ¬ ((Store.Load b adminID (some WizardState.zero) (some [])).2.session.isNone = true ∨
      ((some w).getD WizardState.zero).Flow = "") := by
    rintro (h | h)
    · rw [Option.isNone_iff_eq_none] at h
      rw [h] at h2; cases h2
    · exact hflow h
  rw [if_neg hn]
  rfl

theorem restoreNav_admins (b : Bot) (adminID : Int) (es : List NavigationEntry) :
    (restoreNav b adminID es).admins = b.admins := by
  unfold restoreNav
  split <;> rfl

/-- One step of a wizard run: a message that the stored state `w` answers by moving on to
the state `st` with its step raised. -/
theorem wizard_step (env : Env) (b : Bot) (adminID : Int) (msg : Message)
    (w st : WizardState) (p : String)
    (hfrom : msg.From = some adminID) (hadmin : adminID ∈ b.admins)
    (htext : msg.Command = none) (hs : wizardStored b adminID w) (hflow : w.Flow ≠ "")
    (hadv : ∀ b0, advanceWizard env b0 msg adminID w = nextStep b0 adminID msg.ChatID st p)
    (hint : isInt64 (st.Step + 1)) :
    wizardStored (handleMessage env b msg).1 adminID { st with Step := st.Step + 1 } ∧
    adminID ∈ (handleMessage env b msg).1.admins ∧
    domainCalls (handleMessage env b msg).1.log = domainCalls b.log ∧
    storeClears (handleMessage env b msg).1.log = storeClears b.log := by
  rw [handleMessage_wizard env b adminID msg w hfrom hadmin htext hs hflow, hadv]
  obtain ⟨h1, h2, h3, h4⟩ := nextStep_run
    (restoreNav (b.emit (.sessionGet adminID)) adminID (storedNav b adminID)) adminID
    msg.ChatID st p hint
  refine ⟨h1, ?_, ?_, ?_⟩
  · rw [h2, restoreNav_admins]; exact hadmin
  · rw [h3, restoreNav_log, Bot.emit, domainCalls_append]; simp [domainCalls]
  · rw [h4, restoreNav_log, Bot.emit, storeClears_append]; simp [storeClears]

/-- The press of `teams_start_create`: the create_team state at step 0 is stored and no
domain call is made. -/
theorem startTeamWizard_run (b : Bot) (chatID adminID : Int) :
    wizardStored (startTeamWizard b chatID adminID).1 adminID ⟨"create_team", 0, some ∅⟩ ∧
    (startTeamWizard b chatID adminID).1.admins = b.admins ∧
    domainCalls (startTeamWizard b chatID adminID).1.log = domainCalls b.log ∧
    storeClears (startTeamWizard b chatID adminID).1.log = storeClears b.log := by
  unfold startTeamWizard saveSession
  have hsave := (save_then_load b adminID (some "create_team") ⟨"create_team", 0, some ∅⟩
    (snapshotNav b adminID) [] (by decide)).1
  obtain ⟨row, hl, ha⟩ := Store.Save_log b adminID (some "create_team")
    ⟨"create_team", 0, some ∅⟩ (snapshotNav b adminID)
  have hst := Store.Save_wizardStored b adminID (some "create_team") ⟨"create_team", 0, some ∅⟩
    (snapshotNav b adminID) (by decide)
  simp only [hsave]
  refine ⟨wizardStored_of_rows rfl hst, ?_, ?_, ?_⟩
  · exact ha
  · simp only [replyOnly, sendSimple, Bot.emit, hl, domainCalls_append]
    simp [domainCalls]
  · simp only [replyOnly, sendSimple, Bot.emit, hl, storeClears_append]
    simp [storeClears]

/-! ## Claim C11: the create_team run -/

/-- The last answer of the create_team run: one `Teams.Create` call with the collected
values, the message about the outcome, and the deletion of the session row. -/
theorem create_team_last_step (env : Env) (b0 : Bot) (adminID chatID : Int) :
    ∃ mid,
      (advanceWizard env b0 ⟨some adminID, chatID, 0, "-", none⟩ adminID
        ⟨"create_team", 3,
          some (mapSet (mapSet (mapSet ∅ "name" "Eagles") "short_code" "U12") "active" "true")⟩).1.log
        = b0.log ++ [Effect.domain (.teamsCreate ⟨"Eagles", "U12", true, none⟩)] ++ mid
            ++ [Effect.sessionDelete adminID] ∧
      domainCalls mid = [] ∧ storeClears mid = [] := by
  have ht : trimSpace "-" = "-" := by decide
  have g1 : WizardState.get ⟨"create_team", 3,
      some (mapSet (mapSet (mapSet ∅ "name" "Eagles") "short_code" "U12") "active" "true")⟩ "name"
      = "Eagles" := by decide
  have g2 : WizardState.get ⟨"create_team", 3,
      some (mapSet (mapSet (mapSet ∅ "name" "Eagles") "short_code" "U12") "active" "true")⟩ "short_code"
      = "U12" := by decide
  have g3 : WizardState.get ⟨"create_team", 3,
      some (mapSet (mapSet (mapSet ∅ "name" "Eagles") "short_code" "U12") "active" "true")⟩ "active"
      = "true" := by decide
  have g4 : WizardState.get ⟨"create_team", 3,
      some (mapSet (mapSet (mapSet ∅ "name" "Eagles") "short_code" "U12") "active" "true")⟩ "note"
      = "" := by decide
  have g5 : (parseBool "true").getD true = true := by decide
  rw [advanceWizard_create_team _ _ _ _ _ rfl]
  unfold advanceTeamWizard finishTeamWizard
  simp only [ht, g1, g2, g3, g4, g5, optText, Int.reduceEq, String.reduceEq, ne_eq,
    not_true_eq_false, not_false_eq_true, false_and, and_false, and_self, ↓reduceIte,
    callDomain, Store.Clear, sessionsDelete, afterAssign]
  cases hc : env.callErr b0.log (.teamsCreate ⟨"Eagles", "U12", true, none⟩) with
  | none =>
    refine ⟨[.send chatID "Команда создана.", .screen (.sendTeams chatID)], ?_, rfl, rfl⟩
    simp [sendSimple, runScreen, Bot.emit]
  | some e =>
    refine ⟨[.send chatID ("Не удалось создать команду: " ++ e)], ?_, rfl, rfl⟩
    simp [sendSimple, Bot.emit]

/-- The last reply of the create_team run, for an admin whose stored state holds the three
collected values. -/
theorem create_team_last_reply (env : Env) (b : Bot) (adminID chatID : Int)
    (hadmin : adminID ∈ b.admins)
    (hs : wizardStored b adminID ⟨"create_team", 3,
      some (mapSet (mapSet (mapSet ∅ "name" "Eagles") "short_code" "U12") "active" "true")⟩) :
    ∃ mid,
      (handleMessage env b ⟨some adminID, chatID, 0, "-", none⟩).1.log
        = b.log ++ [Effect.sessionGet adminID,
              Effect.domain (.teamsCreate ⟨"Eagles", "U12", true, none⟩)]
          ++ mid ++ [Effect.sessionDelete adminID] ∧
      domainCalls mid = [] ∧ storeClears mid = [] := by
  rw [handleMessage_wizard env b adminID ⟨some adminID, chatID, 0, "-", none⟩ _ rfl hadmin rfl hs
    (by decide)]
  obtain ⟨mid, hm, hd, hc⟩ := create_team_last_step env
    (restoreNav (b.emit (.sessionGet adminID)) adminID (storedNav b adminID)) adminID chatID
  refine ⟨mid, ?_, hd, hc⟩
  rw [hm, restoreNav_log]
  simp [Bot.emit]

/-- C11: after the press of `teams_start_create`, the replies Eagles, U12 and да make no
domain call and no session clear; the reply `-` that follows makes, after the session read,
exactly one domain call, `Teams.Create` with name Eagles, short code U12, active true and
no note, and then exactly one session clear, the last call of the run. -/
theorem create_team_run (env : Env) (b : Bot) (adminID chatID : Int) (startCb : CallbackQuery)
    (hfrom : startCb.From = some adminID) (hadmin : adminID ∈ b.admins)
    (hdata : startCb.Data = "teams_start_create") (hlow : env.toLower "да" = "да") :
    domainCalls (replies env (handleCallback env b startCb).1 adminID chatID
      ["Eagles", "U12", "да"]).log = domainCalls b.log ∧
    storeClears (replies env (handleCallback env b startCb).1 adminID chatID
      ["Eagles", "U12", "да"]).log = storeClears b.log ∧
    ∃ mid,
      (replies env (handleCallback env b startCb).1 adminID chatID
        ["Eagles", "U12", "да", "-"]).log
        = (replies env (handleCallback env b startCb).1 adminID chatID
            ["Eagles", "U12", "да"]).log
          ++ [Effect.sessionGet adminID,
              Effect.domain (.teamsCreate ⟨"Eagles", "U12", true, none⟩)]
          ++ mid ++ [Effect.sessionDelete adminID] ∧
      domainCalls mid = [] ∧ storeClears mid = [] := by
  have hp : parseCallback startCb.Data = (some ⟨"teams_start_create", ∅⟩, none) := by
    rw [hdata]; decide
  have hstart : handleCallback env b startCb = startTeamWizard b startCb.ChatID adminID := by
    rw [handleCallback_dispatch env b adminID startCb _ hfrom hadmin hp]
    unfold dispatchCallback wizardStart
    simp only [String.reduceEq, ↓reduceIte]
  obtain ⟨s0, a0, d0, c0⟩ := startTeamWizard_run b startCb.ChatID adminID
  rw [← hstart] at s0 a0 d0 c0
  have t1 : trimSpace "Eagles" = "Eagles" := by decide
  have t2 : trimSpace "U12" = "U12" := by decide
  have t3 : trimSpace "да" = "да" := by decide
  -- the reply Eagles
  obtain ⟨s1, a1, d1, c1⟩ := wizard_step env (handleCallback env b startCb).1 adminID
    ⟨some adminID, chatID, 0, "Eagles", none⟩ ⟨"create_team", 0, some ∅⟩
    ⟨"create_team", 0, some (mapSet ∅ "name" "Eagles")⟩ "Введите короткий код (например, U12)."
    rfl (a0 ▸ hadmin) rfl s0 (by decide)
    (by
      intro b0
      rw [advanceWizard_create_team _ _ _ _ _ rfl]
      unfold advanceTeamWizard
      simp only [t1, Int.reduceEq, String.reduceEq, ↓reduceIte, WizardState.put, afterAssign])
    (by decide)
  -- the reply U12
  obtain ⟨s2, a2, d2, c2⟩ := wizard_step env _ adminID
    ⟨some adminID, chatID, 0, "U12", none⟩ ⟨"create_team", 1, some (mapSet ∅ "name" "Eagles")⟩
    ⟨"create_team", 1, some (mapSet (mapSet ∅ "name" "Eagles") "short_code" "U12")⟩
    "Команда активна? (да/нет, по умолчанию да)."
    rfl a1 rfl s1 (by decide)
    (by
      intro b0
      rw [advanceWizard_create_team _ _ _ _ _ rfl]
      unfold advanceTeamWizard
      simp only [t2, Int.reduceEq, String.reduceEq, ↓reduceIte, WizardState.put, afterAssign])
    (by decide)
  -- the reply да
  obtain ⟨s3, a3, d3, c3⟩ := wizard_step env _ adminID
    ⟨some adminID, chatID, 0, "да", none⟩
    ⟨"create_team", 2, some (mapSet (mapSet ∅ "name" "Eagles") "short_code" "U12")⟩
    ⟨"create_team", 2,
      some (mapSet (mapSet (mapSet ∅ "name" "Eagles") "short_code" "U12") "active" "true")⟩
    "Введите примечание (или '-' для пропуска)."
    rfl a2 rfl s2 (by decide)
    (by
      intro b0
      rw [advanceWizard_create_team _ _ _ _ _ rfl]
      unfold advanceTeamWizard parseYesNo
      simp only [t3, hlow, Int.reduceEq, String.reduceEq, ↓reduceIte, WizardState.put, afterAssign,
        true_or, formatBool, Bool.true_eq_false])
    (by decide)
  have hr3 : replies env (handleCallback env b startCb).1 adminID chatID ["Eagles", "U12", "да"]
      = (handleMessage env (handleMessage env (handleMessage env
          (handleCallback env b startCb).1 ⟨some adminID, chatID, 0, "Eagles", none⟩).1
          ⟨some adminID, chatID, 0, "U12", none⟩).1
          ⟨some adminID, chatID, 0, "да", none⟩).1 := rfl
  have hr4 : replies env (handleCallback env b startCb).1 adminID chatID
      ["Eagles", "U12", "да", "-"]
      = (handleMessage env
          (replies env (handleCallback env b startCb).1 adminID chatID ["Eagles", "U12", "да"])
          ⟨some adminID, chatID, 0, "-", none⟩).1 := rfl
  rw [hr4, hr3]
  refine ⟨by rw [d3, d2, d1, d0], by rw [c3, c2, c1, c0], ?_⟩
  exact create_team_last_reply env _ adminID chatID a3 s3

/-! ## Claim C12: the patch of an edit_tournament run -/

theorem mapGet_mapSet (m : GoMap) (k v k' : String) :
    mapGet (mapSet m k v) k' = if k' = k then v else mapGet m k' := by
  unfold mapGet mapSet
  by_cases h : k' = k
  · subst h; simp [Finmap.lookup_insert]
  · simp [h, Finmap.lookup_insert_of_ne _ h]

theorem mapGet_putOpt (m : GoMap) (k k' : String) (v : Option String) (h : k' ≠ k) :
    mapGet (putOpt m k v) k' = mapGet m k' := by
  cases v with
  | none => rfl
  | some x => simp [putOpt, mapGet_mapSet, h]

theorem mapGet_empty (k : String) : mapGet ∅ k = "" := by
  simp [mapGet]

/-- The press of `tournament_edit` when `Tournaments.Get` succeeds: the edit_tournament
state at step 0 is stored; its field map holds the id and the original values and none of
the fields that the patch is built from. -/
theorem startTournamentEditWizard_run (env : Env) (b : Bot) (chatID adminID tournamentID : Int)
    (hget : env.callErr b.log (.tournamentsGet tournamentID) = none) :
    ∃ data,
      wizardStored (startTournamentEditWizard env b chatID adminID tournamentID).1 adminID
        ⟨"edit_tournament", 0, some data⟩ ∧
      (startTournamentEditWizard env b chatID adminID tournamentID).1.admins = b.admins ∧
      domainCalls (startTournamentEditWizard env b chatID adminID tournamentID).1.log
        = domainCalls b.log ++ [.tournamentsGet tournamentID] ∧
      mapGet data "id" = formatInt tournamentID ∧
      (∀ k ∈ ["name_new", "type_action", "type_new", "status_new", "start_action", "start_new",
          "end_action", "end_new", "note_action", "note_new"], mapGet data k = "") := by
  unfold startTournamentEditWizard saveSession
  simp only [callDomain, hget]
  generalize hd : putOpt (putOpt (putOpt (putOpt
      (mapSet (mapSet ∅ "id" (formatInt tournamentID)) "orig_status"
        (env.tournament b.log tournamentID).Status)
      "orig_type" (env.tournament b.log tournamentID).Typ)
      "orig_start" (Option.map env.formatDate (env.tournament b.log tournamentID).StartDate))
      "orig_end" (Option.map env.formatDate (env.tournament b.log tournamentID).EndDate))
      "orig_note" (env.tournament b.log tournamentID).Note = data
  have hsave := (save_then_load (b.emit (.domain (.tournamentsGet tournamentID))) adminID
    (some "edit_tournament") ⟨"edit_tournament", 0, some data⟩
    (snapshotNav (b.emit (.domain (.tournamentsGet tournamentID))) adminID) []
    (by show isInt64 (0 : Int); decide)).1
  obtain ⟨row, hl, ha⟩ := Store.Save_log (b.emit (.domain (.tournamentsGet tournamentID)))
    adminID (some "edit_tournament") ⟨"edit_tournament", 0, some data⟩
    (snapshotNav (b.emit (.domain (.tournamentsGet tournamentID))) adminID)
  have hst := Store.Save_wizardStored (b.emit (.domain (.tournamentsGet tournamentID)))
    adminID (some "edit_tournament") ⟨"edit_tournament", 0, some data⟩
    (snapshotNav (b.emit (.domain (.tournamentsGet tournamentID))) adminID)
    (by show isInt64 (0 : Int); decide)
  simp only [hsave]
  refine ⟨data, wizardStored_of_rows rfl hst, ?_, ?_, ?_, ?_⟩
  · exact ha
  · simp only [replyOnly, sendSimple, emit_log, hl, domainCalls_append]
    simp [domainCalls]
  · rw [← hd]
    simp [mapGet_putOpt, mapGet_mapSet]
  · intro k hk
    rw [← hd]
    simp only [List.mem_cons, List.mem_singleton, List.not_mem_nil, or_false] at hk
    rcases hk with h | h | h | h | h | h | h | h | h | h <;> subst h <;>
      simp [mapGet_putOpt, mapGet_mapSet, mapGet_empty]

/-- A reply `-` at one of the steps 0 to 4 of edit_tournament keeps the field map and moves
on to the next step. -/
theorem edit_tournament_skip (env : Env) (adminID chatID : Int) (data : GoMap) (i : Int)
    (hi : 0 ≤ i ∧ i ≤ 4) :
    ∃ p, ∀ b0, advanceWizard env b0 ⟨some adminID, chatID, 0, "-", none⟩ adminID
        ⟨"edit_tournament", i, some data⟩
      = nextStep b0 adminID chatID ⟨"edit_tournament", i, some data⟩ p := by
  have ht : trimSpace "-" = "-" := by decide
  obtain h | h | h | h | h : i = 0 ∨ i = 1 ∨ i = 2 ∨ i = 3 ∨ i = 4 := by omega
  all_goals
    subst h
    constructor
    intro b0
    rw [advanceWizard_edit_tournament _ _ _ _ _ rfl]
    unfold advanceTournamentEditWizard
    simp only [ht, Int.reduceEq, String.reduceEq, ne_eq, not_true_eq_false, not_false_eq_true,
      and_false, false_and, ↓reduceIte]
    rfl

theorem edit_tournament_skip_step (env : Env) (b : Bot) (adminID chatID : Int) (data : GoMap)
    (i : Int) (hi : 0 ≤ i ∧ i ≤ 4) (hadmin : adminID ∈ b.admins)
    (hs : wizardStored b adminID ⟨"edit_tournament", i, some data⟩) :
    wizardStored (handleMessage env b ⟨some adminID, chatID, 0, "-", none⟩).1 adminID
      ⟨"edit_tournament", i + 1, some data⟩ ∧
    adminID ∈ (handleMessage env b ⟨some adminID, chatID, 0, "-", none⟩).1.admins ∧
    domainCalls (handleMessage env b ⟨some adminID, chatID, 0, "-", none⟩).1.log
      = domainCalls b.log := by
  obtain ⟨p, hp⟩ := edit_tournament_skip env adminID chatID data i hi
  obtain ⟨h1, h2, h3, _⟩ := wizard_step env b adminID ⟨some adminID, chatID, 0, "-", none⟩
    ⟨"edit_tournament", i, some data⟩ ⟨"edit_tournament", i, some data⟩ p rfl hadmin rfl hs
    (by show ("edit_tournament" : String) ≠ ""; decide)
    hp (by unfold isInt64; constructor <;> simp only <;> omega)
  exact ⟨h1, h2, h3⟩

/-- The last reply of an edit_tournament run in which nothing was entered before: the only
domain call is `Tournaments.Update` with a patch whose note field follows the reply. -/
theorem edit_tournament_last_reply (env : Env) (b : Bot) (adminID chatID : Int) (data : GoMap)
    (t : String) (hadmin : adminID ∈ b.admins)
    (hs : wizardStored b adminID ⟨"edit_tournament", 5, some data⟩)
    (hkeys : ∀ k ∈ ["name_new", "type_action", "type_new", "status_new", "start_action",
      "start_new", "end_action", "end_new", "note_action", "note_new"], mapGet data k = "") :
    domainCalls (handleMessage env b ⟨some adminID, chatID, 0, t, none⟩).1.log
      = domainCalls b.log ++ [.tournamentsUpdate (parseInt64 (mapGet data "id"))
          { Note :=
              if trimSpace t = "" then ⟨false, none⟩
              else if env.equalFold (trimSpace t) "удалить" = true then NewOptionalString none
              else if trimSpace t = "-" then ⟨false, none⟩
              else NewOptionalString (some (trimSpace t)) }] := by
  have k1 : mapGet data "name_new" = "" := hkeys _ (by simp)
  have k2 : mapGet data "type_action" = "" := hkeys _ (by simp)
  have k3 : mapGet data "type_new" = "" := hkeys _ (by simp)
  have k4 : mapGet data "status_new" = "" := hkeys _ (by simp)
  have k5 : mapGet data "start_action" = "" := hkeys _ (by simp)
  have k6 : mapGet data "start_new" = "" := hkeys _ (by simp)
  have k7 : mapGet data "end_action" = "" := hkeys _ (by simp)
  have k8 : mapGet data "end_new" = "" := hkeys _ (by simp)
  have k9 : mapGet data "note_action" = "" := hkeys _ (by simp)
  have k10 : mapGet data "note_new" = "" := hkeys _ (by simp)
  rw [handleMessage_wizard env b adminID ⟨some adminID, chatID, 0, t, none⟩ _ rfl hadmin rfl hs
    (by show ("edit_tournament" : String) ≠ ""; decide)]
  generalize hR : restoreNav (b.emit (.sessionGet adminID)) adminID (storedNav b adminID) = R
  have hRl : domainCalls R.log = domainCalls b.log := by
    rw [← hR, restoreNav_log, emit_log, domainCalls_append]; simp [domainCalls]
  rw [advanceWizard_edit_tournament _ _ _ _ _ rfl]
  unfold advanceTournamentEditWizard
  simp only [Int.reduceEq, ↓reduceIte]
  generalize trimSpace t = x
  have fin : ∀ (st : WizardState) (patch : TournamentPatch),
      finishTournamentEditWizard env R st
        = callDomain env R (.tournamentsUpdate (parseInt64 (mapGet data "id")) patch) →
      domainCalls
        (match (finishTournamentEditWizard env R st).2 with
          | some e => replyOnly (finishTournamentEditWizard env R st).1 chatID
              ("Ошибка обновления турнира: " ++ e)
          | none =>
            Store.Clear (runScreen env
              (sendSimple (finishTournamentEditWizard env R st).1 chatID "Турнир обновлён.")
              (.sendTournamentList chatID 1)).1 adminID).1.log
        = domainCalls b.log ++ [.tournamentsUpdate (parseInt64 (mapGet data "id")) patch] := by
    intro st patch h
    rw [h]
    cases hc : (callDomain env R
      (.tournamentsUpdate (parseInt64 (mapGet data "id")) patch)).2 with
    | some e =>
      simp [replyOnly, sendSimple, callDomain, domainCalls_append, domainCalls, hRl]
    | none =>
      simp [Store.Clear, sessionsDelete, runScreen, sendSimple, callDomain, domainCalls_append,
        domainCalls, hRl]
  by_cases hx : x = ""
  · simp only [hx, ne_eq, not_true_eq_false, ↓reduceIte]
    apply fin
    simp [finishTournamentEditWizard, patchDate, patchText, WizardState.get, optText,
      k1, k2, k3, k4, k5, k6, k7, k8, k9, k10]
  · by_cases he : env.equalFold x "удалить" = true
    · simp only [hx, he, ne_eq, not_false_eq_true, ↓reduceIte]
      apply fin
      simp [finishTournamentEditWizard, patchDate, patchText, WizardState.get, WizardState.put,
        optText, mapGet_mapSet, k1, k2, k3, k4, k5, k6, k7, k8, k9, k10]
    · by_cases hd : x = "-"
      · subst hd
        simp only [he, String.reduceEq, ne_eq, not_false_eq_true, not_true_eq_false, ↓reduceIte,
          Bool.false_eq_true]
        apply fin
        simp [finishTournamentEditWizard, patchDate, patchText, WizardState.get, optText,
          k1, k2, k3, k4, k5, k6, k7, k8, k9, k10]
      · simp only [hx, he, hd, ne_eq, not_false_eq_true, not_true_eq_false, ↓reduceIte,
          Bool.false_eq_true]
        apply fin
        simp [finishTournamentEditWizard, patchDate, patchText, WizardState.get,
          WizardState.put, optText, mapGet_mapSet, hx, k1, k2, k3, k4, k5, k6, k7, k8, k9, k10]

/-! ## Claims C11, C12 and C18 -/

/-- Witness of C11: admin 1 of a fresh process. -/
theorem create_team_run_witness :
    (press "teams_start_create").From = some 1 ∧ (1 : Int) ∈ freshBot.admins ∧
    sampleEnv.toLower "да" = "да" ∧
    domainCalls (replies sampleEnv (handleCallback sampleEnv freshBot
      (press "teams_start_create")).1 1 10 ["Eagles", "U12", "да"]).log = [] ∧
    domainCalls (replies sampleEnv (handleCallback sampleEnv freshBot
      (press "teams_start_create")).1 1 10 ["Eagles", "U12", "да", "-"]).log
      = [.teamsCreate ⟨"Eagles", "U12", true, none⟩] ∧
    storeClears (replies sampleEnv (handleCallback sampleEnv freshBot
      (press "teams_start_create")).1 1 10 ["Eagles", "U12", "да", "-"]).log = [1] :=
  ⟨rfl, by decide, by decide,
    (create_team_run sampleEnv freshBot 1 10 (press "teams_start_create") rfl (by decide) rfl
      (by decide)).1,
    by decide, by decide⟩

/-- C12, as stated, fails: when the last answer is the empty text, which is neither the
word for deletion nor `-`, the note field of the patch is unset, not set to the empty
text; and when the last answer is the word for deletion between blanks, which does not
equal the word ignoring case, the note field is set to clear, not to the answer. -/
theorem edit_tournament_note_blank :
    domainCalls (replies sampleEnv (handleCallback sampleEnv freshBot
      (press "tournament_edit|id=5")).1 1 10 ["-", "-", "-", "-", "-", ""]).log
      = [.tournamentsGet 5, .tournamentsUpdate 5 { Note := ⟨false, none⟩ }] ∧
    sampleEnv.equalFold " удалить " "удалить" = false ∧
    domainCalls (replies sampleEnv (handleCallback sampleEnv freshBot
      (press "tournament_edit|id=5")).1 1 10 ["-", "-", "-", "-", "-", " удалить "]).log
      = [.tournamentsGet 5, .tournamentsUpdate 5 { Note := NewOptionalString none }] := by
  decide

/-- C12, amended: after the press of `tournament_edit` (with `Tournaments.Get` succeeding),
five replies `-` and a last reply `t`, the domain calls made are `Tournaments.Get` and one
`Tournaments.Update` whose patch leaves name, type, status, start date and end date unset;
with `t` trimmed of surrounding white space, its note field is unset when the text is empty,
else set to clear when the text equals the word for deletion ignoring case, else unset when
the text is `-`, else set to the trimmed text. -/
theorem edit_tournament_note_patch (env : Env) (b : Bot) (adminID chatID : Int)
    (startCb : CallbackQuery) (params : GoMap) (t : String)
    (hfrom : startCb.From = some adminID) (hadmin : adminID ∈ b.admins)
    (hdata : parseCallback startCb.Data = (some ⟨"tournament_edit", params⟩, none))
    (hget : env.callErr b.log (.tournamentsGet (parseInt64 (mapGet params "id"))) = none) :
    domainCalls (replies env (handleCallback env b startCb).1 adminID chatID
      ["-", "-", "-", "-", "-", t]).log
      = domainCalls b.log ++
        [.tournamentsGet (parseInt64 (mapGet params "id")),
         .tournamentsUpdate (parseInt64 (formatInt (parseInt64 (mapGet params "id"))))
          { Name := none, Typ := ⟨false, none⟩, Status := none, StartDate := ⟨false, none⟩,
            EndDate := ⟨false, none⟩,
            Note :=
              if trimSpace t = "" then ⟨false, none⟩
              else if env.equalFold (trimSpace t) "удалить" = true then NewOptionalString none
              else if trimSpace t = "-" then ⟨false, none⟩
              else NewOptionalString (some (trimSpace t)) }] := by
  have hstart : handleCallback env b startCb
      = startTournamentEditWizard env b startCb.ChatID adminID
          (parseInt64 (mapGet params "id")) := by
    rw [handleCallback_dispatch env b adminID startCb _ hfrom hadmin hdata]
    unfold dispatchCallback wizardStart
    simp only [String.reduceEq, ↓reduceIte]
  obtain ⟨data, s0, a0, d0, hid, hkeys⟩ := startTournamentEditWizard_run env b startCb.ChatID
    adminID (parseInt64 (mapGet params "id")) hget
  rw [← hstart] at s0 a0 d0
  obtain ⟨s1, a1, d1⟩ := edit_tournament_skip_step env _ adminID chatID data 0 (by omega)
    (a0 ▸ hadmin) s0
  obtain ⟨s2, a2, d2⟩ := edit_tournament_skip_step env _ adminID chatID data 1 (by omega) a1 s1
  obtain ⟨s3, a3, d3⟩ := edit_tournament_skip_step env _ adminID chatID data 2 (by omega) a2 s2
  obtain ⟨s4, a4, d4⟩ := edit_tournament_skip_step env _ adminID chatID data 3 (by omega) a3 s3
  obtain ⟨s5, a5, d5⟩ := edit_tournament_skip_step env _ adminID chatID data 4 (by omega) a4 s4
  have hr : replies env (handleCallback env b startCb).1 adminID chatID
      ["-", "-", "-", "-", "-", t]
      = (handleMessage env (handleMessage env (handleMessage env (handleMessage env
          (handleMessage env (handleMessage env (handleCallback env b startCb).1
            ⟨some adminID, chatID, 0, "-", none⟩).1
            ⟨some adminID, chatID, 0, "-", none⟩).1
            ⟨some adminID, chatID, 0, "-", none⟩).1
            ⟨some adminID, chatID, 0, "-", none⟩).1
            ⟨some adminID, chatID, 0, "-", none⟩).1
            ⟨some adminID, chatID, 0, t, none⟩).1 := rfl
  rw [hr, edit_tournament_last_reply env _ adminID chatID data t a5 s5 hkeys, d5, d4, d3, d2, d1,
    d0, hid]
  simp

/-- Witness of C12: the last answer is the word for deletion; the patch has only its note
field set, to clear. -/
theorem edit_tournament_note_patch_witness :
    (press "tournament_edit|id=5").From = some 1 ∧ (1 : Int) ∈ freshBot.admins ∧
    domainCalls (replies sampleEnv (handleCallback sampleEnv freshBot
      (press "tournament_edit|id=5")).1 1 10 ["-", "-", "-", "-", "-", "удалить"]).log
      = [.tournamentsGet 5, .tournamentsUpdate 5 { Note := NewOptionalString none }] :=
  ⟨rfl, by decide,
    (edit_tournament_note_patch sampleEnv freshBot 1 10 (press "tournament_edit|id=5")
      (mapSet ∅ "id" "5") "удалить" rfl (by decide) (by decide) (by decide)).trans (by decide)⟩

/-- C18: after the command /tournaments and the press of `open_tournament|id=5|page=1` the
stack of the admin is the single entry of page 1 of the tournament list, and the detail
screen of tournament 5 has been rendered; the press of `nav_back` that follows pops that
entry, leaves the admin without a key in the navigation map, and calls the list renderer
with page 1 as its last call. -/
theorem list_detail_back (env : Env) (b : Bot) (adminID : Int) (msg : Message)
    (openCb backCb : CallbackQuery) (hadmin : adminID ∈ b.admins)
    (hmsg : msg.From = some adminID) (hcmd : msg.Command = some "tournaments")
    (hopen : openCb.From = some adminID) (hopenData : openCb.Data = "open_tournament|id=5|page=1")
    (hback : backCb.From = some adminID) (hbackData : backCb.Data = "nav_back") :
    (handleCallback env (handleMessage env b msg).1 openCb).1.nav adminID
      = some [entry1 "tournaments_page" "page" "1"] ∧
    Effect.screen (.showTournament openCb.ChatID openCb.MessageID 5)
      ∈ (handleCallback env (handleMessage env b msg).1 openCb).1.log ∧
    (popNav (handleCallback env (handleMessage env b msg).1 openCb).1 adminID).2
      = (entry1 "tournaments_page" "page" "1", true) ∧
    (handleCallback env (handleCallback env (handleMessage env b msg).1 openCb).1 backCb).1.nav
      adminID = none ∧
    (handleCallback env (handleCallback env (handleMessage env b msg).1 openCb).1 backCb).1.log
      = (popNav (handleCallback env (handleMessage env b msg).1 openCb).1 adminID).1.log
        ++ [Effect.screen (.sendTournamentList backCb.ChatID 1)] := by
  have h1 : (handleMessage env b msg).1.nav adminID = none := by
    rw [handleMessage_command env b adminID msg _ hmsg hadmin hcmd, runCommand_nav]
    exact clearNav_nav_self b adminID
  have a1 : adminID ∈ (handleMessage env b msg).1.admins := by
    rw [handleMessage_command env b adminID msg _ hmsg hadmin hcmd, runCommand_admins,
      clearNav_admins]
    exact hadmin
  obtain ⟨h2, a2, l2⟩ := open_tournament_press env (handleMessage env b msg).1 adminID openCb
    hopen a1 hopenData (by simp [Bot.stack, h1])
  obtain ⟨h3, h4, h5⟩ := nav_back_press env
    (handleCallback env (handleMessage env b msg).1 openCb).1 adminID backCb hback
    (a2 ▸ a1) hbackData h2
  refine ⟨h2, l2, h3, h4, ?_⟩
  rw [h5]
  rfl

/-- Witness of C18: admin 1 of a fresh process. -/
theorem list_detail_back_witness :
    (1 : Int) ∈ freshBot.admins ∧
    (commandMsg "tournaments").Command = some "tournaments" ∧
    (handleCallback sampleEnv (handleMessage sampleEnv freshBot (commandMsg "tournaments")).1
      (press "open_tournament|id=5|page=1")).1.nav 1
      = some [entry1 "tournaments_page" "page" "1"] ∧
    (handleCallback sampleEnv
      (handleCallback sampleEnv (handleMessage sampleEnv freshBot (commandMsg "tournaments")).1
        (press "open_tournament|id=5|page=1")).1 (press "nav_back")).1.nav 1 = none :=
  ⟨by decide, rfl,
    (list_detail_back sampleEnv freshBot 1 (commandMsg "tournaments")
      (press "open_tournament|id=5|page=1") (press "nav_back") (by decide) rfl rfl rfl rfl
      rfl rfl).1,
    (list_detail_back sampleEnv freshBot 1 (commandMsg "tournaments")
      (press "open_tournament|id=5|page=1") (press "nav_back") (by decide) rfl rfl rfl rfl
      rfl rfl).2.2.2.1⟩

/-! ## Claims C21 to C23, C28 and C29 -/

/-- C21: for a sender outside the allow-list, `handleMessage` only sends the notice of
missing rights as a reply and `handleCallback` only answers the press with its notice: the
new state is the old one with that one call added to the log, so the navigation map and the
session table are unchanged and no session or domain call is made. -/
theorem non_admin_rejected (env : Env) (b : Bot) (id : Int) (msg : Message)
    (cb : CallbackQuery) (hid : id ∉ b.admins) :
    (msg.From = some id →
      handleMessage env b msg
        = (b.emit (.reply msg.ChatID msg.MessageID
            "У вас нет прав. Обратитесь к директору клуба."), none)) ∧
    (cb.From = some id →
      handleCallback env b cb = (b.emit (.answer cb.ID "Недостаточно прав"), none)) ∧
    (msg.From = some id →
      (handleMessage env b msg).1.nav = b.nav ∧ (handleMessage env b msg).1.rows = b.rows ∧
      domainCalls (handleMessage env b msg).1.log = domainCalls b.log ∧
      storeWrites (handleMessage env b msg).1.log = storeWrites b.log) ∧
    (cb.From = some id →
      (handleCallback env b cb).1.nav = b.nav ∧ (handleCallback env b cb).1.rows = b.rows ∧
      domainCalls (handleCallback env b cb).1.log = domainCalls b.log ∧
      storeWrites (handleCallback env b cb).1.log = storeWrites b.log) := by
  have ha : isAdmin b id = false := by simp [isAdmin, hid]
  have hm : msg.From = some id → handleMessage env b msg
      = (b.emit (.reply msg.ChatID msg.MessageID
          "У вас нет прав. Обратитесь к директору клуба."), none) := by
    intro h
    unfold handleMessage
    simp only [h, ha, if_true]
  have hc : cb.From = some id →
      handleCallback env b cb = (b.emit (.answer cb.ID "Недостаточно прав"), none) := by
    intro h
    unfold handleCallback
    simp only [h, ha, if_true]
  have hsw : ∀ (l1 l2 : List Effect), storeWrites (l1 ++ l2) = storeWrites l1 + storeWrites l2 := by
    intro l1 l2
    induction l1 with
    | nil => simp [storeWrites]
    | cons e l1 ih => cases e <;> simp [storeWrites, ih] <;> omega
  refine ⟨hm, hc, fun h => ?_, fun h => ?_⟩
  · rw [hm h]
    refine ⟨rfl, rfl, ?_, ?_⟩
    · simp [Bot.emit, domainCalls_append, domainCalls]
    · simp [Bot.emit, hsw, storeWrites]
  · rw [hc h]
    refine ⟨rfl, rfl, ?_, ?_⟩
    · simp [Bot.emit, domainCalls_append, domainCalls]
    · simp [Bot.emit, hsw, storeWrites]

/-- Witness of C21: sender 2 is not in the allow-list of a fresh process. -/
theorem non_admin_rejected_witness :
    (2 : Int) ∉ freshBot.admins ∧
    (⟨some 2, 10, 100, "hello", none⟩ : Message).From = some 2 ∧
    sentTexts (handleMessage sampleEnv freshBot ⟨some 2, 10, 100, "hello", none⟩).1.log
      = ["У вас нет прав. Обратитесь к директору клуба."] ∧
    (handleCallback sampleEnv freshBot ⟨some 2, "cb", "teams_start_create", 10, 100⟩).1.rows
      = freshBot.rows :=
  ⟨by decide, rfl, by decide,
    ((non_admin_rejected sampleEnv freshBot 2 ⟨some 2, 10, 100, "hello", none⟩
      ⟨some 2, "cb", "teams_start_create", 10, 100⟩ (by decide)).2.2.2 rfl).2.1⟩

/-! ### The navigation map under sequences of operations -/

theorem pushNav_nav_eq (b : Bot) (adminID : Int) (entry : navEntry) :
    (pushNav b adminID entry).nav = b.nav ∨
    (pushNav b adminID entry).nav
      = (b.setNav adminID
          (if maxNavDepth < (b.stack adminID ++ [entry]).length
            then (b.stack adminID ++ [entry]).drop 1 else b.stack adminID ++ [entry])).nav := by
  unfold pushNav
  split
  · exact Or.inl rfl
  · simp only
    split
    · exact Or.inl rfl
    · right
      rw [persistNav_nav]

theorem popNav_nav_eq (b : Bot) (adminID : Int) :
    (popNav b adminID).1.nav = b.nav ∨
    (b.stack adminID ≠ [] ∧
      (popNav b adminID).1.nav
        = (if (b.stack adminID).dropLast.length = 0 then b.deleteNav adminID
           else b.setNav adminID (b.stack adminID).dropLast).nav) := by
  unfold popNav
  simp only
  cases hl : (b.stack adminID).getLast? with
  | none => exact Or.inl rfl
  | some e =>
    right
    refine ⟨fun h => (by rw [h] at hl; cases hl), ?_⟩
    simp only
    rw [persistNav_nav]

theorem clearNav_nav_eq (b : Bot) (adminID : Int) :
    (clearNav b adminID).nav = (b.deleteNav adminID).nav := by
  unfold clearNav
  simp only
  split
  · rw [persistNav_nav]
  · rfl

/-- An operation issued for one admin leaves the stack of every other admin as it was. -/
theorem applyNavOp_other (b : Bot) (op : NavOp) (k : Int) (h : k ≠ op.admin) :
    (applyNavOp b op).nav k = b.nav k := by
  cases op with
  | push a e =>
    have h' : k ≠ a := h
    rcases pushNav_nav_eq b a e with h1 | h1
    · simp only [applyNavOp]; rw [h1]
    · simp only [applyNavOp]; rw [h1]; simp [Bot.setNav, h']
  | pop a =>
    have h' : k ≠ a := h
    rcases popNav_nav_eq b a with h1 | ⟨_, h1⟩
    · simp only [applyNavOp]; rw [h1]
    · simp only [applyNavOp]; rw [h1]
      split <;> simp [Bot.setNav, Bot.deleteNav, h']
  | clear a =>
    have h' : k ≠ a := h
    simp only [applyNavOp]; rw [clearNav_nav_eq]; simp [Bot.deleteNav, h']
  | restore a es =>
    have h' : k ≠ a := h
    simp only [applyNavOp, restoreNav]
    split <;> simp [Bot.setNav, Bot.deleteNav, h']

/-- What an operation leaves for its own admin depends on the stack of that admin only. -/
theorem applyNavOp_self (b b' : Bot) (op : NavOp) (h : b.nav op.admin = b'.nav op.admin) :
    (applyNavOp b op).nav op.admin = (applyNavOp b' op).nav op.admin := by
  cases op with
  | push a e =>
    have h' : b.nav a = b'.nav a := h
    have hs : b.stack a = b'.stack a := by simp [Bot.stack, h']
    show (pushNav b a e).nav a = (pushNav b' a e).nav a
    unfold pushNav
    simp only [hs]
    split
    · exact h'
    · split
      · exact h'
      · rw [persistNav_nav, persistNav_nav]; simp [Bot.setNav]
  | pop a =>
    have h' : b.nav a = b'.nav a := h
    have hs : b.stack a = b'.stack a := by simp [Bot.stack, h']
    show (popNav b a).1.nav a = (popNav b' a).1.nav a
    unfold popNav
    simp only [hs]
    cases hl : (b'.stack a).getLast? with
    | none => exact h'
    | some e =>
      simp only
      rw [persistNav_nav, persistNav_nav]
      split <;> simp [Bot.setNav, Bot.deleteNav]
  | clear a =>
    show (clearNav b a).nav a = (clearNav b' a).nav a
    rw [clearNav_nav_eq, clearNav_nav_eq]; simp [Bot.deleteNav]
  | restore a es =>
    show (restoreNav b a es).nav a = (restoreNav b' a es).nav a
    unfold restoreNav
    split <;> simp [Bot.setNav, Bot.deleteNav]

/-- An operation keeps the bounds of a stack: a stack of its admin that is present
afterwards has between one and ten entries, when this held before. -/
theorem applyNavOp_bounded (b : Bot) (op : NavOp)
    (h : ∀ k s, b.nav k = some s → 1 ≤ s.length ∧ s.length ≤ maxNavDepth) :
    ∀ k s, (applyNavOp b op).nav k = some s → 1 ≤ s.length ∧ s.length ≤ maxNavDepth := by
  intro k s hs
  by_cases hk : k = op.admin
  · subst hk
    have hlen : (b.stack op.admin).length ≤ maxNavDepth := by
      unfold Bot.stack
      cases hn : b.nav op.admin with
      | none => simp
      | some s0 => exact (h _ _ hn).2
    cases op with
    | push a e =>
      rcases pushNav_nav_eq b a e with h1 | h1
      · simp only [applyNavOp] at hs; rw [h1] at hs; exact h _ _ hs
      · simp only [applyNavOp] at hs; rw [h1] at hs
        simp only [Bot.setNav, NavOp.admin, if_true, Option.some.injEq] at hs
        subst hs
        simp only [NavOp.admin, maxNavDepth] at hlen
        split
        · rename_i hh
          simp only [List.length_drop, List.length_append, List.length_singleton,
            maxNavDepth] at hh ⊢
          omega
        · rename_i hh
          simp only [List.length_append, List.length_singleton, maxNavDepth] at hh ⊢
          omega
    | pop a =>
      rcases popNav_nav_eq b a with h1 | ⟨hne, h1⟩
      · simp only [applyNavOp] at hs; rw [h1] at hs; exact h _ _ hs
      · simp only [applyNavOp] at hs; rw [h1] at hs
        simp only [NavOp.admin, maxNavDepth] at hlen
        split at hs
        · simp [Bot.deleteNav, NavOp.admin] at hs
        · rename_i hh
          simp only [Bot.setNav, NavOp.admin, if_true, Option.some.injEq] at hs
          subst hs
          simp only [List.length_dropLast, maxNavDepth] at hh ⊢
          omega
    | clear a =>
      simp only [applyNavOp] at hs; rw [clearNav_nav_eq] at hs
      simp [Bot.deleteNav, NavOp.admin] at hs
    | restore a es =>
      simp only [applyNavOp, restoreNav] at hs
      split at hs
      · simp [Bot.deleteNav, NavOp.admin] at hs
      · rename_i hh
        simp only [Bot.setNav, NavOp.admin, if_true, Option.some.injEq] at hs
        subst hs
        split
        · simp only [List.length_drop, maxNavDepth] at *; omega
        · simp only [maxNavDepth] at *; omega
  · rw [applyNavOp_other b op k hk] at hs
    exact h k s hs

theorem applyNavOps_bounded (ops : List NavOp) :
    ∀ b : Bot, (∀ k s, b.nav k = some s → 1 ≤ s.length ∧ s.length ≤ maxNavDepth) →
      ∀ k s, (applyNavOps b ops).nav k = some s → 1 ≤ s.length ∧ s.length ≤ maxNavDepth := by
  induction ops with
  | nil => intro b h; exact h
  | cons op ops ih =>
    intro b h
    exact ih (applyNavOp b op) (applyNavOp_bounded b op h)

/-- C22: starting from an empty navigation map, after every sequence of `pushNav`,
`popNav`, `clearNav` and `restoreNav` operations (for any admins, with any arguments) every
admin present in the map has a stack of at least one and at most ten entries. -/
theorem nav_ops_bounded (b : Bot) (ops : List NavOp) (hb : ∀ k, b.nav k = none) :
    ∀ k s, (applyNavOps b ops).nav k = some s → 1 ≤ s.length ∧ s.length ≤ maxNavDepth :=
  applyNavOps_bounded ops b (fun k s h => by rw [hb k] at h; cases h)

/-- Witness of C22: twelve pushes, a pop and a restore of an empty list in a fresh
process. -/
theorem nav_ops_bounded_witness :
    (∀ k, freshBot.nav k = none) ∧
    ((applyNavOps freshBot
      ((List.range 12).map (fun i => NavOp.push 1 (entry1 "tournaments_page" "page" (toString i)))
        ++ [.pop 1, .restore 2 []])).nav 1).map List.length = some 9 ∧
    ∀ s, (applyNavOps freshBot
      ((List.range 12).map (fun i => NavOp.push 1 (entry1 "tournaments_page" "page" (toString i)))
        ++ [.pop 1, .restore 2 []])).nav 1 = some s → 1 ≤ s.length ∧ s.length ≤ maxNavDepth :=
  ⟨fun _ => rfl, by decide,
    nav_ops_bounded freshBot _ (fun _ => rfl) 1⟩

theorem applyNavOps_filter (A : Int) (ops : List NavOp) :
    ∀ b b' : Bot, b.nav A = b'.nav A →
      (applyNavOps b ops).nav A
        = (applyNavOps b' (ops.filter fun op => decide (op.admin = A))).nav A := by
  induction ops with
  | nil => intro b b' h; exact h
  | cons op ops ih =>
    intro b b' h
    by_cases hop : op.admin = A
    · have hf : (op :: ops).filter (fun op => decide (op.admin = A))
          = op :: ops.filter (fun op => decide (op.admin = A)) := by simp [hop]
      rw [hf]
      apply ih
      subst hop
      exact applyNavOp_self b b' op h
    · have hf : (op :: ops).filter (fun op => decide (op.admin = A))
          = ops.filter (fun op => decide (op.admin = A)) := by simp [hop]
      rw [hf]
      apply ih
      rw [applyNavOp_other b op A (fun e => hop e.symm)]
      exact h

/-- C23: for every sequence of navigation operations issued for any admins, the stack of an
admin at the end is the one that the operations issued for that admin alone produce; and
each single operation leaves the stack of every admin other than its own unchanged. -/
theorem nav_ops_per_admin (b : Bot) (ops : List NavOp) (a : Int) (op : NavOp) (other : Int) :
    (applyNavOps b ops).nav a
      = (applyNavOps b (ops.filter fun op => decide (op.admin = a))).nav a ∧
    (other ≠ op.admin → (applyNavOp b op).nav other = b.nav other) :=
  ⟨applyNavOps_filter a ops b b rfl, applyNavOp_other b op other⟩

/-- Witness of C23: a push for admin 2 between two pushes and a pop for admin 1. -/
theorem nav_ops_per_admin_witness :
    (1 : Int) ≠ (NavOp.push 2 teamsMenuEntry).admin ∧
    (applyNavOp freshBot (.push 2 teamsMenuEntry)).nav 1 = freshBot.nav 1 ∧
    (applyNavOps freshBot
      [.push 1 teamsMenuEntry, .push 2 teamsMenuEntry, .push 1 entryX, .pop 2, .pop 1]).nav 1
      = some [teamsMenuEntry] :=
  ⟨by decide,
    (nav_ops_per_admin freshBot [] 1 (.push 2 teamsMenuEntry) 1).2 (by decide),
    ((nav_ops_per_admin freshBot
      [.push 1 teamsMenuEntry, .push 2 teamsMenuEntry, .push 1 entryX, .pop 2, .pop 1] 1
      (.pop 1) 1).1).trans (by decide)⟩

/-- C28: below the depth bound, a push of an entry with a non-empty action that the
duplicate check does not equate with the top, followed by a pop, returns the entry with the
flag true and leaves the stack of the admin as it was: absent when it was absent, the same
list otherwise. -/
theorem push_then_pop (b : Bot) (adminID : Int) (entry : navEntry)
    (hlen : (b.stack adminID).length < maxNavDepth) (hA : entry.Action ≠ "")
    (hD : ∀ last, (b.stack adminID).getLast? = some last → last.Action = entry.Action →
      compareParamMaps last.Params entry.Params = false) :
    (popNav (pushNav b adminID entry) adminID).2 = (entry, true) ∧
    (popNav (pushNav b adminID entry) adminID).1.stack adminID = b.stack adminID ∧
    (b.nav adminID = none → (popNav (pushNav b adminID entry) adminID).1.nav adminID = none) ∧
    (∀ s, b.nav adminID = some s → s ≠ [] →
      (popNav (pushNav b adminID entry) adminID).1.nav adminID = some s) := by
  have hs : (pushNav b adminID entry).stack adminID = b.stack adminID ++ [entry] := by
    rw [pushNav_stack b adminID entry hA hD]
    have : ¬ maxNavDepth < (b.stack adminID ++ [entry]).length := by
      simp only [List.length_append, List.length_singleton]; omega
    rw [if_neg this]
  obtain ⟨h1, h2⟩ := popNav_snoc (pushNav b adminID entry) adminID (b.stack adminID) entry hs
  have hnav : (popNav (pushNav b adminID entry) adminID).1.nav adminID
      = if (b.stack adminID).length = 0 then none else some (b.stack adminID) := by
    unfold popNav
    simp only [hs, List.getLast?_append, List.getLast?_singleton, List.dropLast_concat, Option.or]
    rw [persistNav_nav]
    split <;> simp [Bot.deleteNav, Bot.setNav]
  refine ⟨h1, h2, fun hn => ?_, fun s hsome hne => ?_⟩
  · rw [hnav]; simp [Bot.stack, hn]
  · rw [hnav]
    have : b.stack adminID = s := by simp [Bot.stack, hsome]
    rw [this, if_neg (by simpa using hne)]

/-- Witness of C28: a push and a pop for an admin without a stack, and on a stack of one
entry. -/
theorem push_then_pop_witness :
    (freshBot.stack 1).length < maxNavDepth ∧ teamsMenuEntry.Action ≠ "" ∧
    (popNav (pushNav freshBot 1 teamsMenuEntry) 1).2 = (teamsMenuEntry, true) ∧
    (popNav (pushNav freshBot 1 teamsMenuEntry) 1).1.nav 1 = none ∧
    (popNav (pushNav (freshBot.setNav 1 [teamsMenuEntry]) 1 entryX) 1).1.nav 1
      = some [teamsMenuEntry] :=
  ⟨by decide, by decide,
    (push_then_pop freshBot 1 teamsMenuEntry (by decide) (by decide) (by decide)).1,
    (push_then_pop freshBot 1 teamsMenuEntry (by decide) (by decide) (by decide)).2.2.1 rfl,
    (push_then_pop (freshBot.setNav 1 [teamsMenuEntry]) 1 entryX (by decide) (by decide)
      (by decide)).2.2.2 [teamsMenuEntry] (by decide) (by decide)⟩

/-- C29: for a patch whose status is canceled, `matchesService.Update` hands on a patch in
which the six score fields are set to null and every other field is as given; for any
other patch (status absent or another status) it hands on the patch unchanged. -/
theorem cancel_resets_scores (patch : MatchPatch) :
    (patch.Status = some "canceled" →
      matchesService.Update patch =
        { StartTime := patch.StartTime, Location := patch.Location, Status := patch.Status,
          ScoreHT := ⟨true, none⟩, ScoreFT := ⟨true, none⟩, ScoreET := ⟨true, none⟩,
          ScorePEN := ⟨true, none⟩, ScoreFinalUs := ⟨true, none⟩,
          ScoreFinalThem := ⟨true, none⟩, OpponentName := patch.OpponentName }) ∧
    (patch.Status ≠ some "canceled" → matchesService.Update patch = patch) := by
  constructor
  · intro h
    simp [matchesService.Update, h, NewOptionalString, NewOptionalInt]
  · intro h
    simp [matchesService.Update, h]

/-- Witness of C29: a canceled patch that carries a full-time score, and a played patch. -/
theorem cancel_resets_scores_witness :
    (matchesService.Update
      { Status := some "canceled", ScoreFT := ⟨true, some "2:1"⟩, ScoreFinalUs := ⟨true, some 2⟩,
        Location := ⟨true, some "Arena"⟩ }).ScoreFT = ⟨true, none⟩ ∧
    matchesService.Update { Status := some "played", ScoreFT := ⟨true, some "2:1"⟩ }
      = { Status := some "played", ScoreFT := ⟨true, some "2:1"⟩ } :=
  ⟨congrArg MatchPatch.ScoreFT
      ((cancel_resets_scores
        { Status := some "canceled", ScoreFT := ⟨true, some "2:1"⟩,
          ScoreFinalUs := ⟨true, some 2⟩, Location := ⟨true, some "Arena"⟩ }).1 rfl),
    (cancel_resets_scores { Status := some "played", ScoreFT := ⟨true, some "2:1"⟩ }).2
      (by decide)⟩

/-! ## Claim C27: what the dispatcher pushes can be opened again -/

theorem stack_of_nav {b1 b2 : Bot} (h : b1.nav = b2.nav) (k : Int) : b1.stack k = b2.stack k := by
  simp [Bot.stack, h]

theorem pushNav_mem (b : Bot) (adminID : Int) (entry e : navEntry) (k : Int)
    (h : e ∈ (pushNav b adminID entry).stack k) : e ∈ b.stack k ∨ e = entry := by
  rcases pushNav_nav_eq b adminID entry with h1 | h1
  · rw [stack_of_nav h1] at h; exact Or.inl h
  · rw [stack_of_nav h1] at h
    by_cases hk : k = adminID
    · subst hk
      rw [stack_setNav] at h
      have h2 : e ∈ b.stack k ++ [entry] := by
        split at h
        · exact List.mem_of_mem_drop h
        · exact h
      rcases List.mem_append.mp h2 with h3 | h3
      · exact Or.inl h3
      · exact Or.inr (List.mem_singleton.mp h3)
    · left
      simpa [Bot.stack, Bot.setNav, hk] using h

theorem popNav_mem (b : Bot) (adminID : Int) (e : navEntry) (k : Int)
    (h : e ∈ (popNav b adminID).1.stack k) : e ∈ b.stack k := by
  rcases popNav_nav_eq b adminID with h1 | ⟨_, h1⟩
  · rw [stack_of_nav h1] at h; exact h
  · rw [stack_of_nav h1] at h
    by_cases hk : k = adminID
    · subst hk
      split at h
      · rw [stack_deleteNav] at h; cases h
      · rw [stack_setNav] at h; exact List.mem_of_mem_dropLast h
    · split at h <;> simpa [Bot.stack, Bot.setNav, Bot.deleteNav, hk] using h

theorem handleNavEntry_nav (env : Env) (b : Bot) (chatID : Int) (entry : navEntry) :
    (handleNavEntry env b chatID entry).1.nav = b.nav := by
  unfold handleNavEntry
  repeat' split
  all_goals rfl

theorem saveSession_then_reply_nav (b : Bot) (adminID chatID : Int) (f : Option String)
    (st : WizardState) (p : String) :
    (match (saveSession b adminID f st).2 with
      | some e => ((saveSession b adminID f st).1, some e)
      | none => replyOnly (saveSession b adminID f st).1 chatID p).1.nav = b.nav := by
  split
  · exact saveSession_nav b adminID f st
  · exact saveSession_nav b adminID f st

theorem startTournamentWizard_nav (b : Bot) (chatID adminID : Int) :
    (startTournamentWizard b chatID adminID).1.nav = b.nav :=
  saveSession_then_reply_nav _ _ _ _ _ _

theorem startTeamWizard_nav (b : Bot) (chatID adminID : Int) :
    (startTeamWizard b chatID adminID).1.nav = b.nav :=
  saveSession_then_reply_nav _ _ _ _ _ _

theorem startPlayerWizard_nav (b : Bot) (chatID adminID : Int) :
    (startPlayerWizard b chatID adminID).1.nav = b.nav :=
  saveSession_then_reply_nav _ _ _ _ _ _

theorem startRosterAddWizard_nav (b : Bot) (chatID adminID t team player : Int) :
    (startRosterAddWizard b chatID adminID t team player).1.nav = b.nav :=
  saveSession_then_reply_nav _ _ _ _ _ _

theorem startRosterChangeWizard_nav (b : Bot) (chatID adminID t team player : Int) :
    (startRosterChangeWizard b chatID adminID t team player).1.nav = b.nav :=
  saveSession_then_reply_nav _ _ _ _ _ _

theorem startMatchCreateWizard_nav (b : Bot) (chatID adminID t team : Int) :
    (startMatchCreateWizard b chatID adminID t team).1.nav = b.nav :=
  saveSession_then_reply_nav _ _ _ _ _ _

theorem startMatchEditWizard_nav (b : Bot) (chatID adminID matchID : Int) :
    (startMatchEditWizard b chatID adminID matchID).1.nav = b.nav :=
  saveSession_then_reply_nav _ _ _ _ _ _

theorem startLineupNumberWizard_nav (b : Bot) (chatID adminID matchID playerID : Int) :
    (startLineupNumberWizard b chatID adminID matchID playerID).1.nav = b.nav :=
  saveSession_then_reply_nav _ _ _ _ _ _

theorem startEventGoalWizard_nav (b : Bot) (chatID adminID matchID playerID : Int) :
    (startEventGoalWizard b chatID adminID matchID playerID).1.nav = b.nav :=
  saveSession_then_reply_nav _ _ _ _ _ _

theorem startEventCardWizard_nav (env : Env) (b : Bot) (chatID adminID matchID playerID : Int)
    (cardType : String) :
    (startEventCardWizard env b chatID adminID matchID playerID cardType).1.nav = b.nav := by
  unfold startEventCardWizard
  simp only
  split
  · rfl
  · exact saveSession_then_reply_nav _ _ _ _ _ _

theorem startEventSubWizard_nav (b : Bot) (chatID adminID matchID outID inID : Int) :
    (startEventSubWizard b chatID adminID matchID outID inID).1.nav = b.nav := by
  unfold startEventSubWizard
  split
  · rfl
  · exact saveSession_then_reply_nav _ _ _ _ _ _

theorem startTournamentEditWizard_nav (env : Env) (b : Bot) (chatID adminID id : Int) :
    (startTournamentEditWizard env b chatID adminID id).1.nav = b.nav := by
  unfold startTournamentEditWizard
  simp only
  split
  · rfl
  · exact (saveSession_then_reply_nav _ _ _ _ _ _).trans rfl

theorem startTeamEditWizard_nav (env : Env) (b : Bot) (chatID adminID id : Int) :
    (startTeamEditWizard env b chatID adminID id).1.nav = b.nav := by
  unfold startTeamEditWizard
  simp only
  split
  · rfl
  · exact (saveSession_then_reply_nav _ _ _ _ _ _).trans rfl

theorem startPlayerEditWizard_nav (env : Env) (b : Bot) (chatID adminID id page : Int) :
    (startPlayerEditWizard env b chatID adminID id page).1.nav = b.nav := by
  unfold startPlayerEditWizard
  simp only
  split
  · rfl
  · exact (saveSession_then_reply_nav _ _ _ _ _ _).trans rfl

theorem some_ite_nav {c : Prop} [Decidable c] {x : Bot × GoError} {y : Option (Bot × GoError)}
    {n : Int → Option (List navEntry)} (hx : x.1.nav = n) (hy : ∀ r, y = some r → r.1.nav = n) :
    ∀ r, (if c then some x else y) = some r → r.1.nav = n := by
  intro r h
  split at h
  · cases h; exact hx
  · exact hy r h

theorem wizardStart_nav (env : Env) (b : Bot) (chatID adminID : Int) (action : String)
    (p : GoMap) :
    ∀ r, wizardStart env b chatID adminID action p = some r → r.1.nav = b.nav := by
  unfold wizardStart
  repeat' first
    | with_reducible apply some_ite_nav
    | with_reducible exact startTournamentWizard_nav _ _ _
    | with_reducible exact startTournamentEditWizard_nav _ _ _ _ _
    | with_reducible exact startTeamWizard_nav _ _ _
    | with_reducible exact startTeamEditWizard_nav _ _ _ _ _
    | with_reducible exact startPlayerWizard_nav _ _ _
    | with_reducible exact startPlayerEditWizard_nav _ _ _ _ _ _
    | with_reducible exact startRosterAddWizard_nav _ _ _ _ _ _
    | with_reducible exact startRosterChangeWizard_nav _ _ _ _ _ _
    | with_reducible exact startMatchCreateWizard_nav _ _ _ _ _
    | with_reducible exact startMatchEditWizard_nav _ _ _ _
    | with_reducible exact startLineupNumberWizard_nav _ _ _ _ _
    | with_reducible exact startEventGoalWizard_nav _ _ _ _ _
    | with_reducible exact startEventCardWizard_nav _ _ _ _ _ _ _
    | with_reducible exact startEventSubWizard_nav _ _ _ _ _ _
    | (intro r h; cases h)

theorem keepsHandled_ite {b : Bot} {c : Prop} [Decidable c] {x y : Bot × GoError}
    (hx : keepsHandled b x) (hy : keepsHandled b y) : keepsHandled b (if c then x else y) := by
  split
  · exact hx
  · exact hy

/-- The three ways in which the switch of `handleCallback` treats the navigation map: it
leaves it alone, it pushes an entry whose action `handleNavEntry` has a case for, or it
pops. -/
theorem keepsHandled_of {b : Bot} (adminID : Int) {r : Bot × GoError}
    (h : r.1.nav = b.nav ∨
      (∃ b0 entry, b0.nav = b.nav ∧ entry.Action ∈ handledActions ∧
        r.1.nav = (pushNav b0 adminID entry).nav) ∨
      r.1.nav = (popNav b adminID).1.nav) : keepsHandled b r := by
  intro k e he
  rcases h with h | ⟨b0, entry, h0, ha, h⟩ | h
  · rw [stack_of_nav h] at he; exact Or.inl he
  · rw [stack_of_nav h] at he
    rcases pushNav_mem b0 adminID entry e k he with h1 | h1
    · rw [stack_of_nav h0] at h1; exact Or.inl h1
    · rw [h1]; exact Or.inr ha
  · rw [stack_of_nav h] at he
    exact Or.inl (popNav_mem b adminID e k he)

theorem dispatchCallback_keepsHandled (env : Env) (b : Bot) (cb : CallbackQuery) (adminID : Int)
    (action : String) (p : GoMap) :
    keepsHandled b (dispatchCallback env b cb adminID action p) := by
  unfold dispatchCallback
  refine keepsHandled_ite (keepsHandled_of adminID ?_) ?_
  · right; left
    refine ⟨b, entry1 "tournaments_page" "page" (formatInt (parseIntParam p "page" 1)), rfl,
      ?_, ?_⟩
    · simp [entry1, handledActions]
    · simp only
      split <;> rfl
  refine keepsHandled_ite (keepsHandled_of adminID ?_) ?_
  · right; left
    exact ⟨b, { Action := "teams_menu", Params := ∅ }, rfl, by simp [handledActions], rfl⟩
  refine keepsHandled_ite (keepsHandled_of adminID ?_) ?_
  · right; left
    exact ⟨b, entry1 "players_menu" "page" (formatInt (parseIntParam p "page" 1)), rfl,
      by simp [entry1, handledActions], rfl⟩
  refine keepsHandled_ite (keepsHandled_of adminID ?_) ?_
  · right; left
    exact ⟨b, entry1 "roster_open_tournament" "id" (formatInt (parseInt64 (mapGet p "t"))), rfl,
      by simp [entry1, handledActions], rfl⟩
  refine keepsHandled_ite (keepsHandled_of adminID ?_) ?_
  · left
    simp only
    split <;> rfl
  refine keepsHandled_ite (keepsHandled_of adminID ?_) ?_
  · right; left
    exact ⟨b, entry1 "games_open_tournament" "id" (formatInt (parseInt64 (mapGet p "t"))), rfl,
      by simp [entry1, handledActions], rfl⟩
  refine keepsHandled_ite (keepsHandled_of adminID ?_) ?_
  · simp only
    split
    · left; rfl
    · right; left
      exact ⟨(callDomain env b (.matchesGet (parseInt64 (mapGet p "id")))).1,
        { Action := "games_open_team"
          Params := mapSet (mapSet ∅ "t"
            (formatInt (env.matchOf b.log (parseInt64 (mapGet p "id"))).TournamentID))
            "team" (formatInt (env.matchOf b.log (parseInt64 (mapGet p "id"))).TeamID) },
        rfl, by simp [handledActions], rfl⟩
  refine keepsHandled_ite (keepsHandled_ite (keepsHandled_of adminID ?_)
    (keepsHandled_of adminID ?_)) (keepsHandled_of adminID ?_)
  · right; right; rfl
  · right; right
    exact handleNavEntry_nav _ _ _ _
  · left
    split
    · rename_i r hr
      exact wizardStart_nav env b cb.ChatID adminID action p r hr
    · split <;> rfl

/-- C27: every entry found on a stack after `handleCallback` was on that stack before or has
one of the six actions tournaments_page, teams_menu, players_menu, games_open_team,
games_open_tournament, roster_open_tournament; and for an entry with one of these actions
`handleNavEntry` calls a renderer, never the fallback that it cannot go back. -/
theorem pushed_entries_handled (env : Env) (b : Bot) (cb : CallbackQuery) (k chatID : Int)
    (e entry : navEntry) :
    (e ∈ (handleCallback env b cb).1.stack k → e ∈ b.stack k ∨ e.Action ∈ handledActions) ∧
    (entry.Action ∈ handledActions →
      ∃ screen, ∀ b0, handleNavEntry env b0 chatID entry = runScreen env b0 screen) := by
  constructor
  · intro he
    unfold handleCallback at he
    split at he
    · exact Or.inl he
    · split at he
      · exact Or.inl he
      · split at he
        · exact dispatchCallback_keepsHandled env b cb _ _ _ k e he
        · exact Or.inl he
  · intro h
    simp only [handledActions, List.mem_cons, List.mem_singleton, List.not_mem_nil,
      or_false] at h
    unfold handleNavEntry
    rcases h with h | h | h | h | h | h <;> rw [h] <;>
      simp only [String.reduceEq, ↓reduceIte] <;> exact ⟨_, fun _ => rfl⟩

/-- Witness of C27: the entry that the press of `open_match` pushes. -/
theorem pushed_entries_handled_witness :
    (handleCallback sampleEnv freshBot (press "open_match|id=7")).1.stack 1
      = [{ Action := "games_open_team", Params := mapSet (mapSet ∅ "t" "1") "team" "1" }] ∧
    ("games_open_team" : String) ∈ handledActions ∧
    ∃ screen, ∀ b0, handleNavEntry sampleEnv b0 10
        { Action := "games_open_team", Params := mapSet (mapSet ∅ "t" "1") "team" "1" }
      = runScreen sampleEnv b0 screen :=
  ⟨by decide, by decide,
    (pushed_entries_handled sampleEnv freshBot (press "open_match|id=7") 1 10
      NavigationEntry.zero
      { Action := "games_open_team", Params := mapSet (mapSet ∅ "t" "1") "team" "1" }).2
      (by decide)⟩

/-! ## Claim C24: the page bounds of the tournament list -/

/-- For a page from 1 up to the largest page whose offset fits in an `int`, the bounds are
those of a slice of the list. -/
theorem tournamentListBounds_ok (page : Int) (len : Nat) (h1 : 1 ≤ page)
    (h2 : page ≤ 461168601842738790) :
    0 ≤ (tournamentListBounds page len).1 ∧
    (tournamentListBounds page len).1 ≤ (tournamentListBounds page len).2 ∧
    (tournamentListBounds page len).2 ≤ len := by
  have w1 : wrapInt (page - 1) = page - 1 := by unfold wrapInt; omega
  have w2 : wrapInt ((page - 1) * perPage) = (page - 1) * 20 := by unfold wrapInt perPage; omega
  unfold tournamentListBounds
  simp only [w1, w2]
  split
  · have w3 : wrapInt (0 + perPage) = 20 := by unfold wrapInt perPage; omega
    simp only [w3]
    split <;> omega
  · rename_i hlt
    have w3 : wrapInt ((page - 1) * 20 + perPage) = (page - 1) * 20 + 20 := by
      unfold wrapInt perPage; omega
    simp only [w3]
    split <;> omega

/-- C24, the code at the failing inputs: the press of `open_tournament` with page 0 pushes
the page as it is, and the press of `nav_back` that follows calls `sendTournamentList` with
page 0, for which `start` is -20 whatever the number of tournaments; the press of
`tournaments_page` with the largest `int` as its page calls `sendTournamentList` with that
page, for which the offset wraps around to -40. In both cases the slice expression
`tournaments[start:end]` has a negative lower bound. -/
theorem tournament_list_negative_start :
    screens (handleCallback sampleEnv
      (handleCallback sampleEnv freshBot (press "open_tournament|id=5|page=0")).1
      (press "nav_back")).1.log
      = [.showTournament 10 100 5, .sendTournamentList 10 0] ∧
    (∀ len : Nat, (tournamentListBounds 0 len).1 = -20) ∧
    screens (handleCallback sampleEnv freshBot
      (press "tournaments_page|page=9223372036854775807")).1.log
      = [.sendTournamentList 10 9223372036854775807] ∧
    (∀ len : Nat, (tournamentListBounds 9223372036854775807 len).1 = -40) := by
  refine ⟨by decide, ?_, by decide, ?_⟩
  · intro len
    have w : wrapInt (wrapInt (0 - 1) * perPage) = -20 := by decide
    unfold tournamentListBounds
    simp only [w]
    rw [if_neg (by omega)]
  · intro len
    have w : wrapInt (wrapInt (9223372036854775807 - 1) * perPage) = -40 := by decide
    unfold tournamentListBounds
    simp only [w]
    rw [if_neg (by omega)]

/-! ## Claims C25 and C26: a failing domain call at the last step -/

/-- C25, the code at the failing input: when `Tournaments.Create` fails at the last step of
create_tournament, the handler makes the domain call and nothing else: it sends no message,
returns the error and leaves the session as it is; the last step of each of the other
thirteen flows sends one message, which ends with or contains the text of the error. -/
theorem create_tournament_failure_not_shown :
    domainCalls (failedFinalStep "create_tournament").1.log
      = [.tournamentsCreate ⟨"Cup", none, "planned", none, none, none⟩] ∧
    sentTexts (failedFinalStep "create_tournament").1.log = [] ∧
    (failedFinalStep "create_tournament").2 = some "boom" ∧
    storeWrites (failedFinalStep "create_tournament").1.log = 0 ∧
    (wizardFlows.map fun f => sentTexts (failedFinalStep f).1.log)
      = [[], ["Ошибка обновления турнира: boom"], ["Не удалось создать команду: boom"],
         ["Не удалось обновить команду: boom"], ["Не удалось создать игрока: boom"],
         ["Не удалось обновить игрока: boom"], ["Не удалось добавить игрока: boom"],
         ["Не удалось изменить номер: boom"], ["Не удалось создать матч: boom"],
         ["Не удалось обновить матч: boom. Повторите ввод счётов."],
         ["Не удалось обновить номер: boom"], ["Не удалось добавить гол: boom"],
         ["Не удалось добавить карточку: boom"], ["Не удалось добавить замену: boom"]] := by
  decide

@[simp] theorem storeClears_runScreen (env : Env) (b : Bot) (s : Screen) :
    storeClears (runScreen env b s).1.log = storeClears b.log := by
  simp [runScreen, Bot.emit, storeClears_append, storeClears]

@[simp] theorem storeClears_callDomain (env : Env) (b : Bot) (c : DomainCall) :
    storeClears (callDomain env b c).1.log = storeClears b.log := by
  simp [callDomain, Bot.emit, storeClears_append, storeClears]

@[simp] theorem storeClears_finishTeamWizard (env : Env) (b : Bot) (st : WizardState) :
    storeClears (finishTeamWizard env b st).1.log = storeClears b.log := by
  simp [finishTeamWizard]

@[simp] theorem storeClears_finishPlayerWizard (env : Env) (b : Bot) (st : WizardState) :
    storeClears (finishPlayerWizard env b st).1.log = storeClears b.log := by
  simp [finishPlayerWizard]

@[simp] theorem storeClears_finishMatchCreateWizard (env : Env) (b : Bot) (st : WizardState) :
    storeClears (finishMatchCreateWizard env b st).1.log = storeClears b.log := by
  unfold finishMatchCreateWizard
  dsimp only
  split <;> simp

@[simp] theorem storeClears_finishTournamentWizard (env : Env) (b : Bot) (st : WizardState) :
    storeClears (finishTournamentWizard env b st).1.log = storeClears b.log := by
  unfold finishTournamentWizard
  dsimp only
  repeat' split
  all_goals simp

@[simp] theorem storeClears_finishTournamentEditWizard (env : Env) (b : Bot) (st : WizardState) :
    storeClears (finishTournamentEditWizard env b st).1.log = storeClears b.log := by
  unfold finishTournamentEditWizard
  dsimp only
  repeat' split
  all_goals simp

@[simp] theorem storeClears_finishTeamEditWizard (env : Env) (b : Bot) (st : WizardState) :
    storeClears (finishTeamEditWizard env b st).1.log = storeClears b.log := by
  unfold finishTeamEditWizard
  dsimp only
  repeat' split
  all_goals simp

@[simp] theorem storeClears_finishPlayerEditWizard (env : Env) (b : Bot) (st : WizardState) :
    storeClears (finishPlayerEditWizard env b st).1.log = storeClears b.log := by
  unfold finishPlayerEditWizard
  dsimp only
  repeat' split
  all_goals simp

@[simp] theorem storeClears_finishMatchEditWizard (env : Env) (b : Bot) (st : WizardState) :
    storeClears (finishMatchEditWizard env b st).1.log = storeClears b.log := by
  unfold finishMatchEditWizard
  dsimp only
  repeat' split
  all_goals simp

theorem optionalScoreString_ok {t : String} {v : OptionalString}
    (h : optionalScoreString t = .ok v) : scoreTextOK t ∧ v = scoreTextField t := by
  unfold optionalScoreString at h
  unfold scoreTextOK scoreTextField
  split at h
  · rename_i ht
    simp only [Except.ok.injEq] at h
    exact ⟨Or.inl ht, by rw [if_pos ht, ← h]; rfl⟩
  · rename_i ht
    split at h
    · cases h
    · rename_i hc
      simp only [Except.ok.injEq] at h
      exact ⟨Or.inr (not_not.mp hc), by rw [if_neg ht, ← h]; rfl⟩

theorem optionalScoreInt_ok {t : String} {v : OptionalInt}
    (h : optionalScoreInt t = .ok v) : scoreIntOK t ∧ v = scoreIntField t := by
  unfold optionalScoreInt at h
  unfold scoreIntOK scoreIntField
  split at h
  · rename_i ht
    simp only [Except.ok.injEq] at h
    exact ⟨Or.inl ht, by rw [if_pos ht, ← h]; rfl⟩
  · rename_i ht
    split at h
    · cases h
    · rename_i value hv
      simp only [Except.ok.injEq] at h
      exact ⟨Or.inr (by rw [hv]; rfl), by rw [if_neg ht, ← h, hv]; rfl⟩

theorem except_bind_ok {ε α β : Type} {x : Except ε α} {f : α → Except ε β} {p : β}
    (h : x >>= f = .ok p) : ∃ a, x = .ok a ∧ f a = .ok p := by
  cases x with
  | error e => cases h
  | ok a => exact ⟨a, rfl, h⟩

theorem error_ok_elim {ε α : Type} {e : ε} {p : α} {G : Prop}
    (h : (Except.error e : Except ε α) = .ok p) : G := by
  cases h

theorem ite_ok_elim {ε α : Type} {c : Prop} [Decidable c] {a b : Except ε α} {p : α}
    {G : Prop} (h : (if c then a else b) = .ok p) (h1 : c → a = .ok p → G)
    (h2 : ¬ c → b = .ok p → G) : G := by
  by_cases hc : c
  · rw [if_pos hc] at h
    exact h1 hc h
  · rw [if_neg hc] at h
    exact h2 hc h

theorem matchPatchOf_scores {env : Env} {m : Match} {state : WizardState} {patch : MatchPatch}
    (hst : state.get "status" ≠ "canceled")
    (hsc : state.get "scores" ≠ "" ∧ state.get "scores" ≠ "-")
    (h : matchPatchOf env m state = .ok patch) :
    ∃ t0 t1 t2 t3 t4 t5, fields (state.get "scores") = [t0, t1, t2, t3, t4, t5] ∧
      optionalScoreString t0 = .ok patch.ScoreHT ∧ optionalScoreString t1 = .ok patch.ScoreFT ∧
      optionalScoreString t2 = .ok patch.ScoreET ∧ optionalScoreString t3 = .ok patch.ScorePEN ∧
      optionalScoreInt t4 = .ok patch.ScoreFinalUs ∧
      optionalScoreInt t5 = .ok patch.ScoreFinalThem := by
  have key : ∀ (ps : Option String) (stt : OptionalTime) (location : OptionalString)
      (canceled rest : MatchPatch), ps ≠ some "canceled" →
      (if ps = some "canceled" then Except.ok canceled
        else if state.get "scores" ≠ "" ∧ state.get "scores" ≠ "-" then
          match fields (state.get "scores") with
          | [t0, t1, t2, t3, t4, t5] => do
            let ht ← optionalScoreString t0
            let ft ← optionalScoreString t1
            let et ← optionalScoreString t2
            let pen ← optionalScoreString t3
            let us ← optionalScoreInt t4
            let them ← optionalScoreInt t5
            Except.ok
              { StartTime := stt, Location := location, Status := ps, ScoreHT := ht,
                ScoreFT := ft, ScoreET := et, ScorePEN := pen, ScoreFinalUs := us,
                ScoreFinalThem := them }
          | tokens =>
            Except.error ("ожидалось 6 значений для счётов, получено " ++
              toString tokens.length)
        else Except.ok rest) = Except.ok patch →
      ∃ t0 t1 t2 t3 t4 t5, fields (state.get "scores") = [t0, t1, t2, t3, t4, t5] ∧
        optionalScoreString t0 = .ok patch.ScoreHT ∧
        optionalScoreString t1 = .ok patch.ScoreFT ∧
        optionalScoreString t2 = .ok patch.ScoreET ∧
        optionalScoreString t3 = .ok patch.ScorePEN ∧
        optionalScoreInt t4 = .ok patch.ScoreFinalUs ∧
        optionalScoreInt t5 = .ok patch.ScoreFinalThem := by
    intro ps stt location canceled rest hps hk
    rw [if_neg hps, if_pos hsc] at hk
    split at hk
    · rename_i t0 t1 t2 t3 t4 t5 hf
      obtain ⟨ht, h0, hk⟩ := except_bind_ok hk
      obtain ⟨ft, h1, hk⟩ := except_bind_ok hk
      obtain ⟨et, h2, hk⟩ := except_bind_ok hk
      obtain ⟨pen, h3, hk⟩ := except_bind_ok hk
      obtain ⟨us, h4, hk⟩ := except_bind_ok hk
      obtain ⟨them, h5, hk⟩ := except_bind_ok hk
      cases hk
      exact ⟨t0, t1, t2, t3, t4, t5, hf, h0, h1, h2, h3, h4, h5⟩
    · cases hk
  unfold matchPatchOf at h
  simp only [bind, Except.bind] at h
  simp only [bind, Except.bind] at key
  have hn : (none : Option String) ≠ some "canceled" := Option.noConfusion
  have hs : some (state.get "status") ≠ some "canceled" := fun hc => hst (Option.some.inj hc)
  with_reducible refine ite_ok_elim h (fun _ h => ?_) (fun _ h => ?_)
  · with_reducible refine ite_ok_elim h (fun _ h => ?_) (fun _ h => ?_)
    · with_reducible exact error_ok_elim h
    ·
      with_reducible refine ite_ok_elim h (fun _ h => ?_) (fun _ h => ?_)
      · with_reducible refine ite_ok_elim h (fun _ h => ?_) (fun _ h => ?_)
        · generalize env.parseDate _ = r at h
          cases r
          · with_reducible exact error_ok_elim h
          ·
            with_reducible refine ite_ok_elim h (fun _ h => ?_) (fun _ h => ?_)
            · generalize env.parseClock _ = r at h
              cases r
              · with_reducible exact error_ok_elim h
              · with_reducible exact key _ _ _ _ _ hs h
            · with_reducible exact key _ _ _ _ _ hs h
        ·
          with_reducible refine ite_ok_elim h (fun _ h => ?_) (fun _ h => ?_)
          · generalize env.parseClock _ = r at h
            cases r
            · with_reducible exact error_ok_elim h
            · with_reducible exact key _ _ _ _ _ hs h
          · with_reducible exact key _ _ _ _ _ hs h
      · with_reducible exact key _ _ _ _ _ hs h
  ·
    with_reducible refine ite_ok_elim h (fun _ h => ?_) (fun _ h => ?_)
    · with_reducible refine ite_ok_elim h (fun _ h => ?_) (fun _ h => ?_)
      · generalize env.parseDate _ = r at h
        cases r
        · with_reducible exact error_ok_elim h
        ·
          with_reducible refine ite_ok_elim h (fun _ h => ?_) (fun _ h => ?_)
          · generalize env.parseClock _ = r at h
            cases r
            · with_reducible exact error_ok_elim h
            · with_reducible exact key _ _ _ _ _ hn h
          · with_reducible exact key _ _ _ _ _ hn h
      ·
        with_reducible refine ite_ok_elim h (fun _ h => ?_) (fun _ h => ?_)
        · generalize env.parseClock _ = r at h
          cases r
          · with_reducible exact error_ok_elim h
          · with_reducible exact key _ _ _ _ _ hn h
        · with_reducible exact key _ _ _ _ _ hn h
    · with_reducible exact key _ _ _ _ _ hn h

theorem storeWrites_append (l1 l2 : List Effect) :
    storeWrites (l1 ++ l2) = storeWrites l1 + storeWrites l2 := by
  induction l1 with
  | nil => simp [storeWrites]
  | cons e l1 ih => cases e <;> simp [storeWrites, ih] <;> omega

theorem finishMatchEditWizard_cases (env : Env) (b : Bot) (state : WizardState) :
    ((finishMatchEditWizard env b state).1.log
        = b.log ++ [.domain (.matchesGet (parseInt64 (state.get "match_id")))] ∧
      (finishMatchEditWizard env b state).2 ≠ none) ∨
    ∃ patch, matchPatchOf env (env.matchOf b.log (parseInt64 (state.get "match_id"))) state
        = .ok patch ∧
      (finishMatchEditWizard env b state).1.log
        = b.log ++ [.domain (.matchesGet (parseInt64 (state.get "match_id"))),
            .domain (.matchesUpdate (parseInt64 (state.get "match_id")) patch)] := by
  unfold finishMatchEditWizard
  dsimp only
  split
  · left
    exact ⟨rfl, Option.some_ne_none _⟩
  · split
    · left
      exact ⟨rfl, Option.some_ne_none _⟩
    · rename_i patch hp
      right
      refine ⟨patch, hp, ?_⟩
      simp [callDomain, Bot.emit]

theorem scoresWellFormed_of {scores t0 t1 t2 t3 t4 t5 : String}
    (hf : fields scores = [t0, t1, t2, t3, t4, t5]) (h0 : scoreTextOK t0) (h1 : scoreTextOK t1)
    (h2 : scoreTextOK t2) (h3 : scoreTextOK t3) (h4 : scoreIntOK t4) (h5 : scoreIntOK t5) :
    scoresWellFormed scores := by
  unfold scoresWellFormed
  rw [hf]
  refine ⟨rfl, ?_, ?_⟩
  · intro t ht
    simp only [List.take_succ_cons, List.take_zero, List.mem_cons, List.mem_nil_iff,
      or_false] at ht
    rcases ht with rfl | rfl | rfl | rfl <;> assumption
  · intro t ht
    simp only [List.drop_succ_cons, List.drop_zero, List.mem_cons, List.mem_nil_iff,
      or_false] at ht
    rcases ht with rfl | rfl <;> assumption

/-- C30: in the last step of match_edit with a status other than canceled and a scores text
that is neither empty nor a dash, `finishMatchEditWizard` calls `Matches.Update` only if the
text splits on whitespace into six tokens, the first four each a dash or a text with a colon,
the last two each a dash or a decimal integer, and then every field of the patch is set to
null for a dash and to the token (its number for the last two) otherwise; for any other
scores text it returns an error without calling `Matches.Update`, and
`advanceMatchEditWizard` neither saves nor clears the session. -/
theorem match_edit_scores_checked (env : Env) (b : Bot) (state : WizardState)
    (hstatus : state.get "status" ≠ "canceled")
    (hscores : state.get "scores" ≠ "" ∧ state.get "scores" ≠ "-") :
    (∀ id patch,
      DomainCall.matchesUpdate id patch ∈ newCalls b (finishMatchEditWizard env b state) →
      scoresWellFormed (state.get "scores") ∧
      ∃ t0 t1 t2 t3 t4 t5, fields (state.get "scores") = [t0, t1, t2, t3, t4, t5] ∧
        patch.ScoreHT = scoreTextField t0 ∧ patch.ScoreFT = scoreTextField t1 ∧
        patch.ScoreET = scoreTextField t2 ∧ patch.ScorePEN = scoreTextField t3 ∧
        patch.ScoreFinalUs = scoreIntField t4 ∧ patch.ScoreFinalThem = scoreIntField t5) ∧
    (¬ scoresWellFormed (state.get "scores") →
      (finishMatchEditWizard env b state).2 ≠ none ∧
      (∀ id patch, DomainCall.matchesUpdate id patch ∉
        newCalls b (finishMatchEditWizard env b state)) ∧
      ∀ (msg : Message) (adminID : Int) (st0 : WizardState), st0.Step = 4 →
        (if trimSpace msg.Text ≠ "" then st0.put "scores" (trimSpace msg.Text) else some st0)
          = some state →
        storeWrites (advanceMatchEditWizard env b msg adminID st0).1.log = storeWrites b.log) := by
  have hpatch : ∀ patch,
      matchPatchOf env (env.matchOf b.log (parseInt64 (state.get "match_id"))) state = .ok patch →
      scoresWellFormed (state.get "scores") ∧
      ∃ t0 t1 t2 t3 t4 t5, fields (state.get "scores") = [t0, t1, t2, t3, t4, t5] ∧
        patch.ScoreHT = scoreTextField t0 ∧ patch.ScoreFT = scoreTextField t1 ∧
        patch.ScoreET = scoreTextField t2 ∧ patch.ScorePEN = scoreTextField t3 ∧
        patch.ScoreFinalUs = scoreIntField t4 ∧ patch.ScoreFinalThem = scoreIntField t5 := by
    intro patch hp
    obtain ⟨t0, t1, t2, t3, t4, t5, hf, h0, h1, h2, h3, h4, h5⟩ :=
      matchPatchOf_scores hstatus hscores hp
    have g0 := optionalScoreString_ok h0
    have g1 := optionalScoreString_ok h1
    have g2 := optionalScoreString_ok h2
    have g3 := optionalScoreString_ok h3
    have g4 := optionalScoreInt_ok h4
    have g5 := optionalScoreInt_ok h5
    exact ⟨scoresWellFormed_of hf g0.1 g1.1 g2.1 g3.1 g4.1 g5.1,
      t0, t1, t2, t3, t4, t5, hf, g0.2, g1.2, g2.2, g3.2, g4.2, g5.2⟩
  constructor
  · intro id patch hmem
    rcases finishMatchEditWizard_cases env b state with ⟨hlog, _⟩ | ⟨p, hp, hlog⟩
    · exfalso
      simp [newCalls, hlog, domainCalls_append, domainCalls] at hmem
    · simp only [newCalls, hlog, domainCalls_append, domainCalls, List.drop_left, List.mem_cons,
        List.mem_nil_iff, or_false, reduceCtorEq, false_or, DomainCall.matchesUpdate.injEq] at hmem
      rw [hmem.2]
      exact hpatch p hp
  · intro hbad
    have hcase : (finishMatchEditWizard env b state).1.log
          = b.log ++ [.domain (.matchesGet (parseInt64 (state.get "match_id")))] ∧
        (finishMatchEditWizard env b state).2 ≠ none := by
      rcases finishMatchEditWizard_cases env b state with hc | ⟨p, hp, _⟩
      · exact hc
      · exact absurd (hpatch p hp).1 hbad
    refine ⟨hcase.2, ?_, ?_⟩
    · intro id patch hmem
      simp [newCalls, hcase.1, domainCalls_append, domainCalls] at hmem
    · intro msg adminID st0 hstep hst
      unfold advanceMatchEditWizard
      dsimp only
      rw [if_neg (by rw [hstep]; decide), if_neg (by rw [hstep]; decide),
        if_neg (by rw [hstep]; decide), if_neg (by rw [hstep]; decide), if_pos hstep, hst,
        afterAssign_some]
      cases hd : (finishMatchEditWizard env b state).2 with
      | none => exact absurd hd hcase.2
      | some e =>
        simp only [replyOnly, sendSimple, emit_log, hcase.1, storeWrites_append, storeWrites,
          Nat.add_zero]

/-- Witness of C30: after "1:0 2:1 - - 2 1" the update is called with the six fields as
the tokens ask; after "1:0 2:1" the error is returned and nothing is saved or cleared. -/
theorem match_edit_scores_checked_witness :
    scoresState.get "status" ≠ "canceled" ∧
    (scoresState.get "scores" ≠ "" ∧ scoresState.get "scores" ≠ "-") ∧
    DomainCall.matchesUpdate 7 scoresPatch ∈
      newCalls freshBot (finishMatchEditWizard sampleEnv freshBot scoresState) ∧
    scoresWellFormed (scoresState.get "scores") ∧
    ¬ scoresWellFormed (shortScoresState.get "scores") ∧
    (finishMatchEditWizard sampleEnv freshBot shortScoresState).2 ≠ none ∧
    storeWrites (advanceMatchEditWizard sampleEnv freshBot (textMsg "1:0 2:1") 1
      { shortScoresState with Data := some (mapSet ∅ "match_id" "7") }).1.log = 0 :=
  ⟨by decide, by decide, by decide,
    ((match_edit_scores_checked sampleEnv freshBot scoresState (by decide) (by decide)).1
      7 scoresPatch (by decide)).1,
    by decide,
    ((match_edit_scores_checked sampleEnv freshBot shortScoresState (by decide) (by decide)).2
      (by decide)).1,
    ((match_edit_scores_checked sampleEnv freshBot shortScoresState (by decide) (by decide)).2
      (by decide)).2.2 (textMsg "1:0 2:1") 1
      { shortScoresState with Data := some (mapSet ∅ "match_id" "7") } rfl (by decide)⟩

/-! ## Claim C10: rejected and accepted answers -/

end Dynamost
